import Mathlib

/-!
# Selas: the Disney BSDF layer (`Source/Core/Shading/Disney.cpp`), the surface frame
(`Source/Core/Shading/SurfaceParameters.cpp`) and the VCM path seeders
(`Source/Applications/Selas/Source/VCMCommon.cpp`)

A shallow embedding of the multi-lobe material of the Selas renderer, of the construction of the
per-hit surface record, of the two path seeders and of the per-iteration constants of its vertex
connection and merging integrator.

* `float` is read as exact arithmetic over `ℚ`; every literal of the source keeps its decimal
  value. Division by zero is the `ℚ` convention `x / 0 = 0`; statements that depend on a
  division say under which conditions the divisor is non-zero. Where the rounding of `float`
  decides a branch, in the lobe selection of `SampleDisney`, the code is embedded a second time
  with an explicit rounding `fl` (`CalculateLobePdfsRounded`, `SelectLobeRounded`), of which
  `roundBinary32` is the binary32 instance.
* Out-parameters (`float& fPdf`, `BsdfSample& sample`) become returned values; a record that the
  source only partly overwrites is passed in and returned.
* `CSampler` is an explicit stream of variates with a read position.
* The functions of `MathLib`, `Shading/Ggx.h` and `Shading/Fresnel.h` whose bodies are not part of
  the sources at hand are fields of the record `Collaborators`; the embedded code is parametric
  in it.
* `uint` values are natural numbers, reduced modulo `2^32` where the source computes in `uint32`;
  a failed `Assert_` is the result `none`.
-/

set_option linter.unusedVariables false

namespace Selas

/-! ## MathLib: `float3`, `float3x3` and the scalar helpers -/

/-- Three floats (`MathLib/FloatStructs.h`). -/
structure float3 where
  x : ℚ
  y : ℚ
  z : ℚ
deriving DecidableEq

namespace float3

/-- The constant `float3::Zero_`. -/
def Zero_ : float3 := ⟨0, 0, 0⟩

/-- The constant `float3::One_`. -/
def One_ : float3 := ⟨1, 1, 1⟩

/-- The constructor `float3(s)` that fills the three channels with one value. -/
def splat (s : ℚ) : float3 := ⟨s, s, s⟩

instance : Add float3 := ⟨fun a b => ⟨a.x + b.x, a.y + b.y, a.z + b.z⟩⟩
instance : Sub float3 := ⟨fun a b => ⟨a.x - b.x, a.y - b.y, a.z - b.z⟩⟩
instance : Neg float3 := ⟨fun a => ⟨-a.x, -a.y, -a.z⟩⟩
instance : Mul float3 := ⟨fun a b => ⟨a.x * b.x, a.y * b.y, a.z * b.z⟩⟩
instance : HMul ℚ float3 float3 := ⟨fun s a => ⟨s * a.x, s * a.y, s * a.z⟩⟩
instance : HMul float3 ℚ float3 := ⟨fun a s => ⟨a.x * s, a.y * s, a.z * s⟩⟩
instance : HDiv float3 ℚ float3 := ⟨fun a s => ⟨a.x / s, a.y / s, a.z / s⟩⟩
instance : HDiv ℚ float3 float3 := ⟨fun s a => ⟨s / a.x, s / a.y, s / a.z⟩⟩

end float3

/-- Three rows of three floats (`float3x3`, rows `r0`, `r1`, `r2`). -/
structure float3x3 where
  r0 : float3
  r1 : float3
  r2 : float3
deriving DecidableEq

/-- Modelled from the spec: `Saturate` of `MathLib/FloatFuncs.h` (its body is not in the sources
at hand); the spec reads it as "clamp to [0,1]". -/
def Saturate (x : ℚ) : ℚ := if x < 0 then 0 else if x > 1 then 1 else x

/-- Modelled from the spec: `Max` of `SystemLib/MinMax.h`, the larger of two values. -/
def Max (a b : ℚ) : ℚ := if a < b then b else a

/-- Modelled from the spec: `Square` of `MathLib/FloatFuncs.h`. -/
def Square (x : ℚ) : ℚ := x * x

/-- Modelled from the spec: `Absf` of `MathLib/FloatFuncs.h`, the absolute value. -/
def Absf (x : ℚ) : ℚ := if x < 0 then -x else x

/-- Modelled from the spec: scalar `Lerp(a, b, t)` of `MathLib/FloatFuncs.h`, the value that
moves from `a` at `t = 0` to `b` at `t = 1`. -/
def Lerp (a b t : ℚ) : ℚ := (1 - t) * a + t * b

/-- Modelled from the spec: `Lerp` on `float3`, channel by channel with one parameter `t`. -/
def Lerp3 (a b : float3) (t : ℚ) : float3 :=
  ⟨Lerp a.x b.x t, Lerp a.y b.y t, Lerp a.z b.z t⟩

/-- Modelled from the spec: `Dot` on `float3`. -/
def Dot (a b : float3) : ℚ := a.x * b.x + a.y * b.y + a.z * b.z

/-- Modelled from the spec: `AbsDot(a, b) = |Dot(a, b)|`. -/
def AbsDot (a b : float3) : ℚ := Absf (Dot a b)

/-- Modelled from the spec: `CosTheta` of a tangent-space direction. The shading normal is the
`y` axis (`Disney.cpp` tests `wm.y`, `wo.y` and builds `wm` as `(sinθ cosφ, cosθ, sinθ sinφ)`). -/
def CosTheta (w : float3) : ℚ := w.y

/-- Modelled from the spec: `AbsCosTheta(w) = |CosTheta(w)|`. -/
def AbsCosTheta (w : float3) : ℚ := Absf (CosTheta w)

/-! ## Collaborators -/

/-- The functions and constants that `Disney.cpp` calls and whose bodies are not in the sources
at hand (`MathLib/*`, `Shading/Ggx.h`, `Shading/Fresnel.h`). -/
structure Collaborators where
  /-- `Math::Pi_`. -/
  Pi_ : ℚ
  /-- `Math::InvPi_`. -/
  InvPi_ : ℚ
  /-- `Math::TwoPi_`. -/
  TwoPi_ : ℚ
  /-- `Math::Sqrtf`. -/
  Sqrtf : ℚ → ℚ
  /-- `Math::Powf(base, exponent)`. -/
  Powf : ℚ → ℚ → ℚ
  /-- `Math::Log2`. -/
  Log2 : ℚ → ℚ
  /-- `Math::Cosf`. -/
  Cosf : ℚ → ℚ
  /-- `Math::Sinf`. -/
  Sinf : ℚ → ℚ
  /-- `Math::Sign`. -/
  Sign : ℚ → ℚ
  /-- `Sqrt` on `float3`. -/
  Sqrt : float3 → float3
  /-- `Normalize` on `float3`. -/
  Normalize : float3 → float3
  /-- `MatrixMultiply(v, m)` of a `float3` with a `float3x3`. -/
  MatrixMultiply : float3 → float3x3 → float3
  /-- `MatrixTranspose` of a `float3x3`. -/
  MatrixTranspose : float3x3 → float3x3
  /-- `Reflect(n, l)`. -/
  Reflect : float3 → float3 → float3
  /-- `Transmit(wm, wo, relativeIOR, wi&)`: `some wi` when it returns `true`, `none` when it
  returns `false` (the caller then overwrites `wi`). -/
  Transmit : float3 → float3 → ℚ → Option float3
  /-- `Bsdf::GgxAnisotropicD(wm, ax, ay)`. -/
  GgxAnisotropicD : float3 → ℚ → ℚ → ℚ
  /-- `Bsdf::SeparableSmithGGXG1(w, wm, ax, ay)`. -/
  SeparableSmithGGXG1 : float3 → float3 → ℚ → ℚ → ℚ
  /-- `Bsdf::SeparableSmithGGXG1(w, a)`, the isotropic overload. -/
  SeparableSmithGGXG1a : float3 → ℚ → ℚ
  /-- `Bsdf::GgxVndfAnisotropicPdf(wi, wm, wo, ax, ay, fPdf&, rPdf&)`: the pair
  `(forward, reverse)` it writes. -/
  GgxVndfAnisotropicPdf : float3 → float3 → float3 → ℚ → ℚ → ℚ × ℚ
  /-- `Bsdf::SampleGgxVndfAnisotropic(wo, ax, ay, r0, r1)`. -/
  SampleGgxVndfAnisotropic : float3 → ℚ → ℚ → ℚ → ℚ → float3
  /-- `Fresnel::Schlick(r0, radians)` on floats. -/
  Schlick : ℚ → ℚ → ℚ
  /-- `Fresnel::Schlick(r0, radians)` on `float3`. -/
  Schlick3 : float3 → ℚ → float3
  /-- `Fresnel::SchlickWeight(u)`. -/
  SchlickWeight : ℚ → ℚ
  /-- `Fresnel::SchlickR0FromRelativeIOR(eta)`. -/
  SchlickR0FromRelativeIOR : ℚ → ℚ
  /-- `Fresnel::Dielectric(cosThetaI, ni, nt)`. -/
  Dielectric : ℚ → ℚ → ℚ → ℚ

/-! ## Records -/

/-- The fields of `SurfaceParameters` (`Shading/SurfaceParameters.h`) that
`SurfaceParameters.cpp` writes and `Disney.cpp` reads. -/
structure SurfaceParameters where
  position : float3
  error : ℚ
  worldToTangent : float3x3
  view : float3
  baseColor : float3
  transmittanceColor : float3
  sheen : ℚ
  sheenTint : ℚ
  clearcoat : ℚ
  clearcoatGloss : ℚ
  metallic : ℚ
  specTrans : ℚ
  diffTrans : ℚ
  flatness : ℚ
  anisotropic : ℚ
  relativeIOR : ℚ
  specularTint : ℚ
  roughness : ℚ
  scatterDistance : ℚ
  ior : ℚ
  shader : ℕ
  materialFlags : ℕ
  lightSetIndex : ℕ

/-- The bit set `SurfaceEventFlags`: one boolean per flag that `Disney.cpp` sets. -/
structure SurfaceEventFlags where
  scatterEvent : Bool
  transmissionEvent : Bool
  diracEvent : Bool
deriving DecidableEq

namespace SurfaceEventFlags

/-- The flag `SurfaceEventFlags::eScatterEvent`. -/
def eScatterEvent : SurfaceEventFlags := ⟨true, false, false⟩

/-- The flag `SurfaceEventFlags::eTransmissionEvent`. -/
def eTransmissionEvent : SurfaceEventFlags := ⟨false, true, false⟩

/-- The flag `SurfaceEventFlags::eDiracEvent`. -/
def eDiracEvent : SurfaceEventFlags := ⟨false, false, true⟩

/-- Bitwise or, as in `flags |= eDiracEvent`. -/
def or (a b : SurfaceEventFlags) : SurfaceEventFlags :=
  ⟨a.scatterEvent || b.scatterEvent, a.transmissionEvent || b.transmissionEvent,
    a.diracEvent || b.diracEvent⟩

end SurfaceEventFlags

/-- The enumeration `MediumPhaseFunction`. -/
inductive MediumPhaseFunction where
  | eVacuum
  | eIsotropic
deriving DecidableEq

/-- The medium descriptor carried by a `BsdfSample`. -/
structure MediumParameters where
  phaseFunction : MediumPhaseFunction
  extinction : float3
deriving DecidableEq

/-- The output record of the samplers (`Shading/SurfaceScattering.h`). -/
structure BsdfSample where
  flags : SurfaceEventFlags
  medium : MediumParameters
  reflectance : float3
  wi : float3
  forwardPdfW : ℚ
  reversePdfW : ℚ
deriving DecidableEq

/-- The sampler: a stream of variates and the number of variates already drawn. -/
structure CSampler where
  stream : ℕ → ℚ
  drawn : ℕ

/-- The call `sampler->UniformFloat()`: the next variate and the advanced sampler. -/
def CSampler.UniformFloat (s : CSampler) : ℚ × CSampler :=
  (s.stream s.drawn, { s with drawn := s.drawn + 1 })

/-! ## `Disney.cpp` -/

/-- The four lobe weights of `CalculateLobePdfs` (lines 29-36), in the order
specular, transmission, diffuse, clearcoat. -/
structure LobeWeights where
  specularWeight : ℚ
  transmissionWeight : ℚ
  diffuseWeight : ℚ
  clearcoatWeight : ℚ

/-- Lines 29-36 of `CalculateLobePdfs`. -/
def CalculateLobeWeights (surface : SurfaceParameters) : LobeWeights :=
  let metallicBRDF := surface.metallic
  let specularBSDF := (1 - surface.metallic) * surface.specTrans
  let dielectricBRDF := (1 - surface.specTrans) * (1 - surface.metallic)
  { specularWeight := metallicBRDF + dielectricBRDF
    transmissionWeight := specularBSDF
    diffuseWeight := dielectricBRDF
    clearcoatWeight := 1 * Saturate surface.clearcoat }

/-- The sum that `CalculateLobePdfs` divides by (line 38). -/
def LobeWeights.sum (w : LobeWeights) : ℚ :=
  w.specularWeight + w.transmissionWeight + w.diffuseWeight + w.clearcoatWeight

/-- The four outputs of `CalculateLobePdfs`. -/
structure LobePdfs where
  pSpecular : ℚ
  pDiffuse : ℚ
  pClearcoat : ℚ
  pSpecTrans : ℚ

/-- The function `CalculateLobePdfs`. -/
def CalculateLobePdfs (surface : SurfaceParameters) : LobePdfs :=
  let w := CalculateLobeWeights surface
  let norm := 1 / w.sum
  { pSpecular := w.specularWeight * norm
    pSpecTrans := w.transmissionWeight * norm
    pDiffuse := w.diffuseWeight * norm
    pClearcoat := w.clearcoatWeight * norm }

/-- The function `ThinTransmissionRoughness`. -/
def ThinTransmissionRoughness (ior roughness : ℚ) : ℚ :=
  Saturate ((0.65 * ior - 0.35) * roughness)

/-- The function `CalculateAnisotropicParams`: the pair `(ax, ay)`. -/
def CalculateAnisotropicParams (E : Collaborators) (roughness anisotropic : ℚ) : ℚ × ℚ :=
  let aspect := E.Sqrtf (1 - 0.9 * anisotropic)
  (Max 0.001 (Square roughness / aspect), Max 0.001 (Square roughness * aspect))

/-- The function `CalculateTint`. -/
def CalculateTint (baseColor : float3) : float3 :=
  let luminance := Dot ⟨0.3, 0.6, 1.0⟩ baseColor
  if luminance > 0 then baseColor * (1 / luminance) else float3.One_

/-- The function `GTR1`. -/
def GTR1 (E : Collaborators) (absDotHL a : ℚ) : ℚ :=
  if a ≥ 1 then E.InvPi_
  else
    let a2 := a * a
    (a2 - 1) / (E.Pi_ * E.Log2 a2 * (1 + (a2 - 1) * absDotHL * absDotHL))

/-- The function `EvaluateDisneyClearcoat`. The arguments `fPdfW`, `rPdfW` are the contents of the
two out-parameters before the call; the result is `(value, fPdfW, rPdfW)`. -/
def EvaluateDisneyClearcoat (E : Collaborators) (clearcoat alpha : ℚ) (wo wm wi : float3)
    (fPdfW rPdfW : ℚ) : ℚ × ℚ × ℚ :=
  if clearcoat ≤ 0 then (0, fPdfW, rPdfW)
  else
    let absDotNH := AbsCosTheta wm
    let dotHL := Dot wm wi
    let d := GTR1 E absDotNH (Lerp 0.1 0.001 alpha)
    let f := E.Schlick 0.04 dotHL
    let gl := E.SeparableSmithGGXG1a wi 0.25
    let gv := E.SeparableSmithGGXG1a wo 0.25
    (0.25 * clearcoat * d * f * gl * gv, d / (4 * AbsDot wo wm), d / (4 * AbsDot wi wm))

/-- The function `EvaluateSheen`. -/
def EvaluateSheen (E : Collaborators) (surface : SurfaceParameters) (wo wm wi : float3) :
    float3 :=
  if surface.sheen ≤ 0 then float3.Zero_
  else
    let dotHL := Absf (Dot wm wi)
    let tint := CalculateTint surface.baseColor
    (surface.sheen * Lerp3 (float3.splat 1) tint surface.sheenTint) * E.SchlickWeight dotHL

/-- The function `DisneyFresnel`. -/
def DisneyFresnel (E : Collaborators) (surface : SurfaceParameters) (wo wm wi : float3) : float3 :=
  let dotHV := Dot wm wo
  let tint := CalculateTint surface.baseColor
  let R0 := E.SchlickR0FromRelativeIOR surface.relativeIOR
              * Lerp3 (float3.splat 1) tint surface.specularTint
  let R0 := Lerp3 R0 surface.baseColor surface.metallic
  let dielectricFresnel := E.Dielectric dotHV 1 surface.ior
  let metallicFresnel := E.Schlick3 R0 (Dot wi wm)
  Lerp3 (float3.splat dielectricFresnel) metallicFresnel surface.metallic

/-- The function `EvaluateDisneyBRDF`: `(value, fPdf, rPdf)`. -/
def EvaluateDisneyBRDF (E : Collaborators) (surface : SurfaceParameters) (wo wm wi : float3) :
    float3 × ℚ × ℚ :=
  let dotNL := CosTheta wi
  let dotNV := CosTheta wo
  if dotNL ≤ 0 ∨ dotNV ≤ 0 then (float3.Zero_, 0, 0)
  else
    let a := CalculateAnisotropicParams E surface.roughness surface.anisotropic
    let d := E.GgxAnisotropicD wm a.1 a.2
    let gl := E.SeparableSmithGGXG1 wi wm a.1 a.2
    let gv := E.SeparableSmithGGXG1 wo wm a.1 a.2
    let f := DisneyFresnel E surface wo wm wi
    let pdf := E.GgxVndfAnisotropicPdf wi wm wo a.1 a.2
    let fPdf := pdf.1 * (1 / (4 * AbsDot wo wm))
    let rPdf := pdf.2 * (1 / (4 * AbsDot wi wm))
    (((d * gl * gv) * f) / (4 * dotNL * dotNV), fPdf, rPdf)

/-- The function `SampleDisneyBRDF`: `(returned bool, sample, sampler)`. -/
def SampleDisneyBRDF (E : Collaborators) (sampler : CSampler) (surface : SurfaceParameters)
    (v : float3) (sample : BsdfSample) : Bool × BsdfSample × CSampler :=
  let wo := E.Normalize (E.MatrixMultiply v surface.worldToTangent)
  let a := CalculateAnisotropicParams E surface.roughness surface.anisotropic
  let u0 := sampler.UniformFloat
  let u1 := u0.2.UniformFloat
  let r0 := u0.1
  let r1 := u1.1
  let wm := E.SampleGgxVndfAnisotropic wo a.1 a.2 r0 r1
  let wi := E.Normalize (E.Reflect wm wo)
  if CosTheta wi ≤ 0 then
    (false, { sample with forwardPdfW := 0, reversePdfW := 0, reflectance := float3.Zero_,
                          wi := float3.Zero_ }, u1.2)
  else
    let F := DisneyFresnel E surface wo wm wi
    let G1v := E.SeparableSmithGGXG1 wo wm a.1 a.2
    let specular := G1v * F
    let pdf := E.GgxVndfAnisotropicPdf wi wm wo a.1 a.2
    (true, { sample with
              flags := SurfaceEventFlags.eScatterEvent
              reflectance := specular
              wi := E.Normalize (E.MatrixMultiply wi (E.MatrixTranspose surface.worldToTangent))
              forwardPdfW := pdf.1 * (1 / (4 * AbsDot wo wm))
              reversePdfW := pdf.2 * (1 / (4 * AbsDot wi wm)) }, u1.2)

/-- The function `EvaluateDisneySpecTransmission`. -/
def EvaluateDisneySpecTransmission (E : Collaborators) (surface : SurfaceParameters)
    (wo wm wi : float3) (ax ay : ℚ) (thin : Bool) : float3 :=
  let relativeIor := surface.relativeIOR
  let n2 := relativeIor * relativeIor
  let absDotNL := AbsCosTheta wi
  let absDotNV := AbsCosTheta wo
  let dotHL := Dot wm wi
  let dotHV := Dot wm wo
  let absDotHL := Absf dotHL
  let absDotHV := Absf dotHV
  let d := E.GgxAnisotropicD wm ax ay
  let gl := E.SeparableSmithGGXG1 wi wm ax ay
  let gv := E.SeparableSmithGGXG1 wo wm ax ay
  let f := E.Dielectric dotHV 1 surface.ior
  let color := if thin then E.Sqrt surface.baseColor else surface.baseColor
  let c := (absDotHL * absDotHV) / (absDotNL * absDotNV)
  let t := n2 / Square (dotHL + relativeIor * dotHV)
  color * c * t * (1 - f) * gl * gv * d

/-- The function `EvaluateDisneyRetroDiffuse`. -/
def EvaluateDisneyRetroDiffuse (E : Collaborators) (surface : SurfaceParameters)
    (wo wm wi : float3) : ℚ :=
  let dotNL := AbsCosTheta wi
  let dotNV := AbsCosTheta wo
  let roughness := surface.roughness * surface.roughness
  let rr := 0.5 + 2 * dotNL * dotNL * roughness
  let fl := E.SchlickWeight dotNL
  let fv := E.SchlickWeight dotNV
  rr * (fl + fv + fl * fv * (rr - 1))

/-- The function `EvaluateDisneyDiffuse`. -/
def EvaluateDisneyDiffuse (E : Collaborators) (surface : SurfaceParameters) (wo wm wi : float3)
    (thin : Bool) : ℚ :=
  let dotNL := AbsCosTheta wi
  let dotNV := AbsCosTheta wo
  let fl := E.SchlickWeight dotNL
  let fv := E.SchlickWeight dotNV
  let hanrahanKrueger : ℚ :=
    if thin = true ∧ surface.flatness > 0 then
      let roughness := surface.roughness * surface.roughness
      let dotHL := Dot wm wi
      let fss90 := dotHL * dotHL * roughness
      let fss := Lerp 1 fss90 fl * Lerp 1 fss90 fv
      1.25 * (fss * (1 / (dotNL + dotNV) - 0.5) + 0.5)
    else 0
  let lambert : ℚ := 1
  let retro := EvaluateDisneyRetroDiffuse E surface wo wm wi
  let subsurfaceApprox := Lerp lambert hanrahanKrueger (if thin then surface.flatness else 0)
  E.InvPi_ * (retro + subsurfaceApprox * (1 - 0.5 * fl) * (1 - 0.5 * fv))

/-- The function `SampleDisneyClearcoat`: `(returned bool, sample, sampler)`. The early
`return false` of line 313 leaves the record as the caller passed it. -/
def SampleDisneyClearcoat (E : Collaborators) (sampler : CSampler) (surface : SurfaceParameters)
    (v : float3) (sample : BsdfSample) : Bool × BsdfSample × CSampler :=
  let wo := E.Normalize (E.MatrixMultiply v surface.worldToTangent)
  let a : ℚ := 0.25
  let a2 := a * a
  let u0 := sampler.UniformFloat
  let u1 := u0.2.UniformFloat
  let r0 := u0.1
  let r1 := u1.1
  let cosTheta := E.Sqrtf (Max 0 ((1 - E.Powf a2 (1 - r0)) / (1 - a2)))
  let sinTheta := E.Sqrtf (Max 0 (1 - cosTheta * cosTheta))
  let phi := E.TwoPi_ * r1
  let wm0 : float3 := ⟨sinTheta * E.Cosf phi, cosTheta, sinTheta * E.Sinf phi⟩
  let wm := if Dot wm0 wo < 0 then -wm0 else wm0
  let wi := E.Reflect wm wo
  if Dot wi wo < 0 then (false, sample, u1.2)
  else
    let clearcoatWeight := surface.clearcoat
    let clearcoatGloss := surface.clearcoatGloss
    let dotNH := CosTheta wm
    let dotLH := Dot wm wi
    let d := GTR1 E (Absf dotNH) (Lerp 0.1 0.001 clearcoatGloss)
    let f := E.Schlick 0.04 dotLH
    let g := E.SeparableSmithGGXG1a wi 0.25 * E.SeparableSmithGGXG1a wo 0.25
    let fPdf := d / (4 * Dot wo wm)
    (true, { sample with
              reflectance := float3.splat (0.25 * clearcoatWeight * g * f * d) / fPdf
              wi := E.Normalize (E.MatrixMultiply wi (E.MatrixTranspose surface.worldToTangent))
              forwardPdfW := fPdf
              reversePdfW := d / (4 * Dot wi wm) }, u1.2)

/-- The function `CalculateExtinction`. -/
def CalculateExtinction (apparantColor : float3) (scatterDistance : ℚ) : float3 :=
  let a := apparantColor
  let s := float3.splat 1.9 - a + ((3.5 : ℚ) * (a - float3.splat 0.8)) * (a - float3.splat 0.8)
  (1 : ℚ) / (s * scatterDistance)

/-- The function `SampleDisneySpecTransmission`: `(returned bool, sample, sampler)`. -/
def SampleDisneySpecTransmission (E : Collaborators) (sampler : CSampler)
    (surface : SurfaceParameters) (v : float3) (thin : Bool) (sample : BsdfSample) :
    Bool × BsdfSample × CSampler :=
  let wo := E.MatrixMultiply v surface.worldToTangent
  if CosTheta wo = 0 then
    (false, { sample with forwardPdfW := 0, reversePdfW := 0, reflectance := float3.Zero_,
                          wi := float3.Zero_ }, sampler)
  else
    let rscaled := if thin then ThinTransmissionRoughness surface.ior surface.roughness
                   else surface.roughness
    let ta := CalculateAnisotropicParams E rscaled surface.anisotropic
    let u0 := sampler.UniformFloat
    let u1 := u0.2.UniformFloat
    let r0 := u0.1
    let r1 := u1.1
    let wm := E.SampleGgxVndfAnisotropic wo ta.1 ta.2 r0 r1
    let dotVH0 := Dot wo wm
    let dotVH := if wm.y < 0 then -dotVH0 else dotVH0
    let ni : ℚ := if wo.y > 0 then 1 else surface.ior
    let nt : ℚ := if wo.y > 0 then surface.ior else 1
    let relativeIOR := ni / nt
    let F := E.Dielectric dotVH 1 surface.ior
    let G1v := E.SeparableSmithGGXG1 wo wm ta.1 ta.2
    let u2 := u1.2.UniformFloat
    -- the branch on the third variate: `(wi, pdf, sample)`
    let r : float3 × ℚ × BsdfSample :=
      if u2.1 ≤ F then
        let wi := E.Normalize (E.Reflect wm wo)
        let jacobian := 4 * AbsDot wo wm
        (wi, F / jacobian,
          { sample with flags := SurfaceEventFlags.eScatterEvent
                        reflectance := G1v * surface.baseColor })
      else
        let q : float3 × BsdfSample :=
          if thin then
            let wi := E.Reflect wm wo
            ({ wi with y := -wi.y },
              { sample with reflectance := G1v * E.Sqrt surface.baseColor
                            flags := SurfaceEventFlags.eScatterEvent })
          else
            match E.Transmit wm wo relativeIOR with
            | some wi =>
              (wi, { sample with
                      flags := SurfaceEventFlags.eTransmissionEvent
                      medium :=
                        { phaseFunction := if dotVH > 0 then MediumPhaseFunction.eIsotropic
                                           else MediumPhaseFunction.eVacuum
                          extinction := CalculateExtinction surface.transmittanceColor
                                          surface.scatterDistance }
                      reflectance := G1v * surface.baseColor })
            | none =>
              (E.Reflect wm wo,
                { sample with flags := SurfaceEventFlags.eScatterEvent
                              reflectance := G1v * surface.baseColor })
        let wi := E.Normalize q.1
        let dotLH := Absf (Dot wi wm)
        let jacobian := dotLH / Square (dotLH + surface.relativeIOR * dotVH)
        (wi, (1 - F) / jacobian, q.2)
    let wi := r.1
    let pdf := r.2.1
    let sample := r.2.2
    if CosTheta wi = 0 then
      (false, { sample with forwardPdfW := 0, reversePdfW := 0, reflectance := float3.Zero_,
                            wi := float3.Zero_ }, u2.2)
    else
      let flags := if surface.roughness < 0.01
                   then sample.flags.or SurfaceEventFlags.eDiracEvent else sample.flags
      let vndf := E.GgxVndfAnisotropicPdf wi wm wo ta.1 ta.2
      (true, { sample with
                flags := flags
                forwardPdfW := vndf.1 * pdf
                reversePdfW := vndf.2 * pdf
                wi := E.Normalize (E.MatrixMultiply wi (E.MatrixTranspose surface.worldToTangent)) },
        u2.2)

/-- The function `SampleCosineWeightedHemisphere`. -/
def SampleCosineWeightedHemisphere (E : Collaborators) (r0 r1 : ℚ) : float3 :=
  let r := E.Sqrtf r0
  let theta := E.TwoPi_ * r1
  ⟨r * E.Cosf theta, E.Sqrtf (Max 0 (1 - r0)), r * E.Sinf theta⟩

/-- The function `SampleDisneyDiffuse`: `(returned bool, sample, sampler)`. The debug check
`Assert_(pdf > 0.0f)` of line 515 is not part of the returned value. -/
def SampleDisneyDiffuse (E : Collaborators) (sampler : CSampler) (surface : SurfaceParameters)
    (v : float3) (thin : Bool) (sample : BsdfSample) : Bool × BsdfSample × CSampler :=
  let wo := E.MatrixMultiply v surface.worldToTangent
  let sign := E.Sign (CosTheta wo)
  let u0 := sampler.UniformFloat
  let u1 := u0.2.UniformFloat
  let r0 := u0.1
  let r1 := u1.1
  let wi0 := sign * SampleCosineWeightedHemisphere E r0 r1
  let wm := E.Normalize (wi0 + wo)
  let dotNL := CosTheta wi0
  if dotNL = 0 then
    (false, { sample with forwardPdfW := 0, reversePdfW := 0, reflectance := float3.Zero_,
                          wi := float3.Zero_ }, u1.2)
  else
    let dotNV := CosTheta wo
    let u2 := u1.2.UniformFloat
    let p := u2.1
    -- `(wi, pdf, color, eventType, sample)` after the branch on `p`
    let r : float3 × ℚ × float3 × SurfaceEventFlags × BsdfSample :=
      if p ≤ surface.diffTrans then
        if thin then
          (-wi0, surface.diffTrans, E.Sqrt surface.baseColor,
            SurfaceEventFlags.eScatterEvent, sample)
        else
          (-wi0, surface.diffTrans, surface.baseColor, SurfaceEventFlags.eTransmissionEvent,
            { sample with
                medium := { phaseFunction := MediumPhaseFunction.eIsotropic
                            extinction := CalculateExtinction surface.transmittanceColor
                                            surface.scatterDistance } })
      else
        (wi0, 1 - surface.diffTrans, surface.baseColor, SurfaceEventFlags.eScatterEvent, sample)
    let wi := r.1
    let pdf := r.2.1
    let color := r.2.2.1
    let eventType := r.2.2.2.1
    let sample := r.2.2.2.2
    let sheen := EvaluateSheen E surface wo wm wi
    let diffuse := EvaluateDisneyDiffuse E surface wo wm wi thin
    (true, { sample with
              reflectance := sheen + color * (diffuse / pdf)
              wi := E.Normalize (E.MatrixMultiply wi (E.MatrixTranspose surface.worldToTangent))
              forwardPdfW := Absf dotNL * pdf
              reversePdfW := Absf dotNV * pdf
              flags := eventType }, u2.2)

/-- The three results of `EvaluateDisney`: the returned reflectance and the two out-parameters. -/
structure BsdfEvaluation where
  reflectance : float3
  forwardPdf : ℚ
  reversePdf : ℚ
deriving DecidableEq

/-- The function `EvaluateDisney`. The two locals that `EvaluateDisneyClearcoat` fills are passed
as `0`; the call is only made with `surface.clearcoat > 0`, where it overwrites both. -/
def EvaluateDisney (E : Collaborators) (surface : SurfaceParameters) (v l : float3)
    (thin : Bool) : BsdfEvaluation :=
  let wo := E.Normalize (E.MatrixMultiply v surface.worldToTangent)
  let wi := E.Normalize (E.MatrixMultiply l surface.worldToTangent)
  let wm := E.Normalize (wo + wi)
  let dotNV := CosTheta wo
  let dotNL := CosTheta wi
  let r0 : BsdfEvaluation := ⟨float3.Zero_, 0, 0⟩
  let lobes := CalculateLobePdfs surface
  let pBRDF := lobes.pSpecular
  let pDiffuse := lobes.pDiffuse
  let pClearcoat := lobes.pClearcoat
  let pSpecTrans := lobes.pSpecTrans
  let metallic := surface.metallic
  let specTrans := surface.specTrans
  let diffuseWeight := (1 - metallic) * (1 - specTrans)
  let transWeight := (1 - metallic) * specTrans
  -- clearcoat
  let upperHemisphere : Prop := dotNL > 0 ∧ dotNV > 0
  let r1 : BsdfEvaluation :=
    if upperHemisphere ∧ surface.clearcoat > 0 then
      let cc := EvaluateDisneyClearcoat E surface.clearcoat surface.clearcoatGloss wo wm wi 0 0
      ⟨r0.reflectance + float3.splat cc.1, r0.forwardPdf + pClearcoat * cc.2.1,
        r0.reversePdf + pClearcoat * cc.2.2⟩
    else r0
  -- diffuse
  let r2 : BsdfEvaluation :=
    if diffuseWeight > 0 then
      let forwardDiffusePdfW := AbsCosTheta wi
      let reverseDiffusePdfW := AbsCosTheta wo
      let diffuse := EvaluateDisneyDiffuse E surface wo wm wi thin
      let sheen := EvaluateSheen E surface wo wm wi
      ⟨r1.reflectance + diffuseWeight * (diffuse * surface.baseColor + sheen),
        r1.forwardPdf + pDiffuse * forwardDiffusePdfW,
        r1.reversePdf + pDiffuse * reverseDiffusePdfW⟩
    else r1
  -- transmission
  let r3 : BsdfEvaluation :=
    if transWeight > 0 then
      let rscaled := if thin then ThinTransmissionRoughness surface.ior surface.roughness
                     else surface.roughness
      let ta := CalculateAnisotropicParams E rscaled surface.anisotropic
      let transmission := EvaluateDisneySpecTransmission E surface wo wm wi ta.1 ta.2 thin
      let vndf := E.GgxVndfAnisotropicPdf wi wm wo ta.1 ta.2
      let dotLH := Dot wm wi
      let dotVH := Dot wm wo
      ⟨r2.reflectance + transWeight * transmission,
        r2.forwardPdf + pSpecTrans * vndf.1 / Square (dotLH + surface.relativeIOR * dotVH),
        r2.reversePdf + pSpecTrans * vndf.2 / Square (dotVH + surface.relativeIOR * dotLH)⟩
    else r2
  -- specular
  let r4 : BsdfEvaluation :=
    if upperHemisphere then
      let specular := EvaluateDisneyBRDF E surface wo wm wi
      ⟨r3.reflectance + specular.1,
        r3.forwardPdf + pBRDF * specular.2.1 / (4 * AbsDot wo wm),
        r3.reversePdf + pBRDF * specular.2.2 / (4 * AbsDot wi wm)⟩
    else r3
  { r4 with reflectance := r4.reflectance * Absf dotNL }

/-- Lines 652-656 of `SampleDisney`: the rescale by the probability of the chosen lobe. -/
def RescaleByLobePdf (pLobe : ℚ) (sample : BsdfSample) : BsdfSample :=
  if pLobe > 0 then
    { sample with
        reflectance := sample.reflectance * (1 / pLobe)
        forwardPdfW := sample.forwardPdfW * pLobe
        reversePdfW := sample.reversePdfW * pLobe }
  else sample

/-- The function `SampleDisney`: `(returned bool, sample, sampler)`. -/
def SampleDisney (E : Collaborators) (sampler : CSampler) (surface : SurfaceParameters)
    (v : float3) (thin : Bool) (sample : BsdfSample) : Bool × BsdfSample × CSampler :=
  let lobes := CalculateLobePdfs surface
  let pSpecular := lobes.pSpecular
  let pDiffuse := lobes.pDiffuse
  let pClearcoat := lobes.pClearcoat
  let pTransmission := lobes.pSpecTrans
  let u := sampler.UniformFloat
  let p := u.1
  -- `((success, sample, sampler), pLobe)` after the lobe has been chosen
  let r : (Bool × BsdfSample × CSampler) × ℚ :=
    if p ≤ pSpecular then
      (SampleDisneyBRDF E u.2 surface v sample, pSpecular)
    else if p > pSpecular ∧ p ≤ pSpecular + pClearcoat then
      (SampleDisneyClearcoat E u.2 surface v sample, pClearcoat)
    else if p > pSpecular + pClearcoat ∧ p ≤ pSpecular + pClearcoat + pDiffuse then
      (SampleDisneyDiffuse E u.2 surface v thin sample, pDiffuse)
    else if pTransmission ≥ 0 then
      (SampleDisneySpecTransmission E u.2 surface v thin sample, pTransmission)
    else
      ((false, { sample with reflectance := ⟨1000000, 0, 0⟩
                             forwardPdfW := 0.000000001
                             reversePdfW := 0.000000001 }, u.2), 0)
  (r.1.1, RescaleByLobePdf r.2 r.1.2.1, r.1.2.2)

/-! ## The lobe chosen by `SampleDisney` -/

/-- The five branches of the `if`/`else if` chain of `SampleDisney` (lines 629-650). -/
inductive Lobe where
  | specular
  | clearcoat
  | diffuse
  | transmission
  | flagged
deriving DecidableEq

/-- The branch of `SampleDisney` that the variate `p` takes: the conditions of lines 629, 633,
637 and 641, in their order. -/
def SelectLobe (lobes : LobePdfs) (p : ℚ) : Lobe :=
  if p ≤ lobes.pSpecular then Lobe.specular
  else if p > lobes.pSpecular ∧ p ≤ lobes.pSpecular + lobes.pClearcoat then Lobe.clearcoat
  else if p > lobes.pSpecular + lobes.pClearcoat
      ∧ p ≤ lobes.pSpecular + lobes.pClearcoat + lobes.pDiffuse then Lobe.diffuse
  else if lobes.pSpecTrans ≥ 0 then Lobe.transmission
  else Lobe.flagged

/-- The value that a branch of `SampleDisney` assigns to `pLobe` (it stays `0.0f` in the last
branch). -/
def LobePdfs.pLobe (lobes : LobePdfs) : Lobe → ℚ
  | Lobe.specular => lobes.pSpecular
  | Lobe.clearcoat => lobes.pClearcoat
  | Lobe.diffuse => lobes.pDiffuse
  | Lobe.transmission => lobes.pSpecTrans
  | Lobe.flagged => 0

/-- The call that a branch of `SampleDisney` makes (lines 630, 634, 638, 642), or the writes of
lines 647-649 in the last branch. -/
def SampleLobe (E : Collaborators) (lobe : Lobe) (sampler : CSampler)
    (surface : SurfaceParameters) (v : float3) (thin : Bool) (sample : BsdfSample) :
    Bool × BsdfSample × CSampler :=
  match lobe with
  | Lobe.specular => SampleDisneyBRDF E sampler surface v sample
  | Lobe.clearcoat => SampleDisneyClearcoat E sampler surface v sample
  | Lobe.diffuse => SampleDisneyDiffuse E sampler surface v thin sample
  | Lobe.transmission => SampleDisneySpecTransmission E sampler surface v thin sample
  | Lobe.flagged =>
    (false, { sample with reflectance := ⟨1000000, 0, 0⟩
                          forwardPdfW := 0.000000001
                          reversePdfW := 0.000000001 }, sampler)

/-! ## The branches inside the lobe samplers

The locals of `SampleDisneySpecTransmission` and `SampleDisneyDiffuse` that the statements about
their event flags name. Each is the expression of the sampler above; the lemmas
`SampleDisneySpecTransmission_eq_branch` and `SampleDisneyDiffuse_eq_branch` say so. -/

/-- The local `wm` of `SampleDisneySpecTransmission` (line 367). -/
def SpecTransmissionNormal (E : Collaborators) (sampler : CSampler)
    (surface : SurfaceParameters) (v : float3) (thin : Bool) : float3 :=
  let wo := E.MatrixMultiply v surface.worldToTangent
  let rscaled := if thin then ThinTransmissionRoughness surface.ior surface.roughness
                 else surface.roughness
  let ta := CalculateAnisotropicParams E rscaled surface.anisotropic
  E.SampleGgxVndfAnisotropic wo ta.1 ta.2 sampler.UniformFloat.1
    sampler.UniformFloat.2.UniformFloat.1

/-- The local `dotVH` of `SampleDisneySpecTransmission` after line 372. -/
def SpecTransmissionDotVH (E : Collaborators) (sampler : CSampler)
    (surface : SurfaceParameters) (v : float3) (thin : Bool) : ℚ :=
  let wo := E.MatrixMultiply v surface.worldToTangent
  let wm := SpecTransmissionNormal E sampler surface v thin
  if wm.y < 0 then -(Dot wo wm) else Dot wo wm

/-- The local `F` of `SampleDisneySpecTransmission` (line 380). -/
def SpecTransmissionFresnel (E : Collaborators) (sampler : CSampler)
    (surface : SurfaceParameters) (v : float3) (thin : Bool) : ℚ :=
  E.Dielectric (SpecTransmissionDotVH E sampler surface v thin) 1 surface.ior

/-- The call `Transmit(wm, wo, relativeIOR, wi)` of line 411. -/
def SpecTransmissionTransmit (E : Collaborators) (sampler : CSampler)
    (surface : SurfaceParameters) (v : float3) (thin : Bool) : Option float3 :=
  let wo := E.MatrixMultiply v surface.worldToTangent
  let ni : ℚ := if wo.y > 0 then 1 else surface.ior
  let nt : ℚ := if wo.y > 0 then surface.ior else 1
  E.Transmit (SpecTransmissionNormal E sampler surface v thin) wo (ni / nt)

/-- Lines 387-429 of `SampleDisneySpecTransmission`: `(wi, pdf, sample)` after the branch on the
third variate. -/
def SpecTransmissionBranch (E : Collaborators) (sampler : CSampler)
    (surface : SurfaceParameters) (v : float3) (thin : Bool) (sample : BsdfSample) :
    float3 × ℚ × BsdfSample :=
  let wo := E.MatrixMultiply v surface.worldToTangent
  let rscaled := if thin then ThinTransmissionRoughness surface.ior surface.roughness
                 else surface.roughness
  let ta := CalculateAnisotropicParams E rscaled surface.anisotropic
  let wm := SpecTransmissionNormal E sampler surface v thin
  let dotVH := SpecTransmissionDotVH E sampler surface v thin
  let F := SpecTransmissionFresnel E sampler surface v thin
  let G1v := E.SeparableSmithGGXG1 wo wm ta.1 ta.2
  if sampler.UniformFloat.2.UniformFloat.2.UniformFloat.1 ≤ F then
    (E.Normalize (E.Reflect wm wo), F / (4 * AbsDot wo wm),
      { sample with flags := SurfaceEventFlags.eScatterEvent
                    reflectance := G1v * surface.baseColor })
  else
    let q : float3 × BsdfSample :=
      if thin then
        ({ E.Reflect wm wo with y := -(E.Reflect wm wo).y },
          { sample with reflectance := G1v * E.Sqrt surface.baseColor
                        flags := SurfaceEventFlags.eScatterEvent })
      else
        match SpecTransmissionTransmit E sampler surface v thin with
        | some wi =>
          (wi, { sample with
                  flags := SurfaceEventFlags.eTransmissionEvent
                  medium :=
                    { phaseFunction := if dotVH > 0 then MediumPhaseFunction.eIsotropic
                                       else MediumPhaseFunction.eVacuum
                      extinction := CalculateExtinction surface.transmittanceColor
                                      surface.scatterDistance }
                  reflectance := G1v * surface.baseColor })
        | none =>
          (E.Reflect wm wo,
            { sample with flags := SurfaceEventFlags.eScatterEvent
                          reflectance := G1v * surface.baseColor })
    (E.Normalize q.1,
      (1 - F) / (Absf (Dot (E.Normalize q.1) wm)
        / Square (Absf (Dot (E.Normalize q.1) wm) + surface.relativeIOR * dotVH)),
      q.2)

/-- The local `wi` of `SampleDisneyDiffuse` as sampled in line 473, before the flip of line
495. -/
def DiffuseDirection (E : Collaborators) (sampler : CSampler) (surface : SurfaceParameters)
    (v : float3) : float3 :=
  E.Sign (CosTheta (E.MatrixMultiply v surface.worldToTangent))
    * SampleCosineWeightedHemisphere E sampler.UniformFloat.1
        sampler.UniformFloat.2.UniformFloat.1

/-- Lines 487-509 of `SampleDisneyDiffuse`: `(wi, pdf, color, eventType, sample)` after the
branch on the third variate. -/
def DiffuseBranch (E : Collaborators) (sampler : CSampler) (surface : SurfaceParameters)
    (v : float3) (thin : Bool) (sample : BsdfSample) :
    float3 × ℚ × float3 × SurfaceEventFlags × BsdfSample :=
  let wi0 := DiffuseDirection E sampler surface v
  if sampler.UniformFloat.2.UniformFloat.2.UniformFloat.1 ≤ surface.diffTrans then
    if thin then
      (-wi0, surface.diffTrans, E.Sqrt surface.baseColor, SurfaceEventFlags.eScatterEvent, sample)
    else
      (-wi0, surface.diffTrans, surface.baseColor, SurfaceEventFlags.eTransmissionEvent,
        { sample with
            medium := { phaseFunction := MediumPhaseFunction.eIsotropic
                        extinction := CalculateExtinction surface.transmittanceColor
                                        surface.scatterDistance } })
  else
    (wi0, 1 - surface.diffTrans, surface.baseColor, SurfaceEventFlags.eScatterEvent, sample)

/-! ## `VCMCommon.cpp`

`uint` values are natural numbers; where the source computes in `uint32` the result is taken
modulo `2^32`. An `Assert_` that fails ends the call: the seeders return `none` then. -/

/-- Modelled from the spec: the record `LightEmissionSample` (`Shading/AreaLighting.h` is
missing): position, direction, radiance, emission pdf, directional pdf component and cosine at
the light. -/
structure LightEmissionSample where
  position : float3
  direction : float3
  radiance : float3
  emissionPdfW : ℚ
  directionPdfA : ℚ
  cosThetaLight : ℚ
deriving DecidableEq

/-- Modelled from the spec: the record `Ray` (`GeometryLib/Ray.h` is missing), of which
`GenerateCameraSample` reads the origin and the direction. -/
structure Ray where
  origin : float3
  direction : float3
deriving DecidableEq

/-- Modelled from the spec: the fields of `RayCastCameraSettings` (`GeometryLib/Camera.h` is
missing) that `GenerateCameraSample` reads; `viewportWidth` is the value of the cast
`(uint32)camera->viewportWidth`. -/
structure RayCastCameraSettings where
  forward : float3
  virtualImagePlaneDistance : ℚ
  viewportWidth : ℕ

/-- Modelled from the spec: what the seeders reach through `GIIntegratorContext`
(`Shading/IntegratorContexts.h` is missing): the camera, the sample that
`EmitIblLightSample(context, sample)` writes, and the ray that
`JitteredCameraRay(camera, &context->sampler, (float)x, (float)y)` returns. -/
structure GIIntegratorContext where
  camera : RayCastCameraSettings
  EmitIblLightSample : LightEmissionSample
  JitteredCameraRay : ℚ → ℚ → Ray

/-- Modelled from the spec: the record `PathState` (`VCMCommon.h` is missing). The spec describes
`index` as bit-packed with the path length; it is a field of `PathStateIndexBitCount_` bits, so a
value stored in it is kept modulo `2^PathStateIndexBitCount_` (see `PathState.packIndex`). -/
structure PathState where
  position : float3
  direction : float3
  throughput : float3
  dVCM : ℚ
  dVC : ℚ
  dVM : ℚ
  pathLength : ℕ
  isAreaMeasure : ℕ
  index : ℕ
deriving DecidableEq

/-- Modelled from the spec: the value that the packed field `index` of
`PathStateIndexBitCount_` bits holds after `state.index = value`. -/
def PathState.packIndex (PathStateIndexBitCount_ value : ℕ) : ℕ :=
  value % 2 ^ PathStateIndexBitCount_

/-- The function `VCMCommon::GenerateLightSample`: the state written to `state`, or `none` when
`Assert_(index < (1 << PathStateIndexBitCount_))` fails. -/
def GenerateLightSample (PathStateIndexBitCount_ : ℕ) (context : GIIntegratorContext)
    (vcWeight : ℚ) (index : ℕ) : Option PathState :=
  if index < 2 ^ PathStateIndexBitCount_ then
    let lightSampleWeight : ℚ := 1
    let sample0 := context.EmitIblLightSample
    let sample : LightEmissionSample :=
      { sample0 with emissionPdfW := sample0.emissionPdfW * lightSampleWeight
                     directionPdfA := sample0.directionPdfA * lightSampleWeight }
    some
      { position := sample.position
        direction := sample.direction
        throughput := sample.radiance * (1 / sample.emissionPdfW)
        dVCM := sample.directionPdfA / sample.emissionPdfW
        dVC := sample.cosThetaLight / sample.emissionPdfW
        dVM := sample.cosThetaLight / sample.emissionPdfW * vcWeight
        pathLength := 1
        isAreaMeasure := 0
        index := PathState.packIndex PathStateIndexBitCount_ index }
  else none

/-- The function `VCMCommon::GenerateCameraSample`: the state written to `state`, or `none` when
`Assert_(state.index < (1 << PathStateIndexBitCount_))`, made after the store into the packed
field, fails. -/
def GenerateCameraSample (PathStateIndexBitCount_ : ℕ) (context : GIIntegratorContext)
    (x y : ℕ) (lightPathCount : ℚ) : Option PathState :=
  let camera := context.camera
  let cameraRay := context.JitteredCameraRay (x : ℚ) (y : ℚ)
  let cosThetaCamera := Dot camera.forward cameraRay.direction
  let imagePointToCameraDistance := camera.virtualImagePlaneDistance / cosThetaCamera
  let invSolidAngleMeasure :=
    imagePointToCameraDistance * imagePointToCameraDistance / cosThetaCamera
  let revCameraPdfW := 1 / invSolidAngleMeasure
  let state : PathState :=
    { position := cameraRay.origin
      direction := cameraRay.direction
      throughput := float3.One_
      dVCM := lightPathCount * revCameraPdfW
      dVC := 0
      dVM := 0
      pathLength := 1
      isAreaMeasure := 1
      index := PathState.packIndex PathStateIndexBitCount_
                 ((y * camera.viewportWidth + x) % 2 ^ 32) }
  if state.index < 2 ^ PathStateIndexBitCount_ then some state else none

/-- The function `VCMCommon::SearchRadius`. -/
def SearchRadius (E : Collaborators) (baseRadius radiusAlpha iterationIndex : ℚ) : ℚ :=
  baseRadius / E.Powf iterationIndex (0.5 * (1 - radiusAlpha))

/-- Modelled from the spec: the record `VCMIterationConstants` (`VCMCommon.h` is missing). -/
structure VCMIterationConstants where
  vmCount : ℕ
  vcCount : ℕ
  vmSearchRadius : ℚ
  vmSearchRadiusSqr : ℚ
  vmNormalization : ℚ
  vmWeight : ℚ
  vcWeight : ℚ
deriving DecidableEq

/-- The function `VCMCommon::CalculateIterationConstants`. -/
def CalculateIterationConstants (E : Collaborators) (vmCount vcCount : ℕ)
    (baseRadius radiusAlpha iterationIndex : ℚ) : VCMIterationConstants :=
  let vmSearchRadius := SearchRadius E baseRadius radiusAlpha iterationIndex
  let vmSearchRadiusSqr := vmSearchRadius * vmSearchRadius
  { vmCount := vmCount
    vcCount := vcCount
    vmSearchRadius := vmSearchRadius
    vmSearchRadiusSqr := vmSearchRadiusSqr
    vmNormalization := 1 / (E.Pi_ * vmSearchRadiusSqr * vmCount)
    vmWeight := E.Pi_ * vmSearchRadiusSqr * vmCount / vcCount
    vcWeight := vcCount / (E.Pi_ * vmSearchRadiusSqr * vmCount) }

/-! ## `SurfaceParameters.cpp`

The scene, the geometry and texture caches, embree and Ptex are reached through the record
`SceneCollaborators`; the calls that only load or release cache entries
(`EnsureSubsceneGeometryLoaded`, `FinishUsingSubceneGeometry`, `ReleaseTexture`, `release`) do not
change the record that is written and have no counterpart here. A bit test `flags & F` used as a
condition is `flags &&& F ≠ 0`. -/

/-- The type `float2`. -/
structure float2 where
  x : ℚ
  y : ℚ
deriving DecidableEq

/-- The type `float4`. -/
structure float4 where
  x : ℚ
  y : ℚ
  z : ℚ
  w : ℚ
deriving DecidableEq

/-- The member `float4::XYZ()`. -/
def float4.XYZ (v : float4) : float3 := ⟨v.x, v.y, v.z⟩

/-- The type `float4x4`, four rows. -/
structure float4x4 where
  r0 : float4
  r1 : float4
  r2 : float4
  r3 : float4
deriving DecidableEq

/-- Modelled from the spec: the pixel formats of `TextureResourceData`
(`TextureLib/TextureResource.h` is missing): the four values that `SurfaceParameters.cpp` compares
with, and `Other` for every further value. -/
inductive TextureFormat where
  | Float
  | Float2
  | Float3
  | Float4
  | Other
deriving DecidableEq

/-- Modelled from the spec: the record `TextureResourceData`: its format and a handle of its
texels, which only `TextureFiltering::Triangle` reads. -/
structure TextureResourceData where
  format : TextureFormat
  texture : ℕ
deriving DecidableEq

/-- Modelled from the spec: the record `TextureResource`. -/
structure TextureResource where
  data : TextureResourceData
deriving DecidableEq

/-- Modelled from the spec: the indices of `scalarAttributeValues` that `CalculateSurfaceParams`
reads (the enumeration is declared in `SceneLib/SceneResource.h`, which is missing). -/
inductive MaterialProperty where
  | eSheen
  | eSheenTint
  | eClearcoat
  | eClearcoatGloss
  | eSpecTrans
  | eDiffuseTrans
  | eFlatness
  | eAnisotropic
  | eSpecularTint
  | eRoughness
  | eMetallic
  | eScatterDistance
  | eIor
deriving DecidableEq

/-- Modelled from the spec: the "resolved material descriptor" `MaterialResourceData`: the fields
that `CalculateSurfaceParams` reads. -/
structure MaterialResourceData where
  flags : ℕ
  shader : ℕ
  baseColor : float3
  transmittanceColor : float3
  scalarAttributeValues : MaterialProperty → ℚ

/-- Modelled from the spec: the record `ModelGeometryUserData`: the fields that
`CalculateSurfaceParams` reads. -/
structure ModelGeometryUserData where
  flags : ℕ
  material : MaterialResourceData
  lightSetIndex : ℕ
  baseColorTextureHandle : ℕ
  rtcGeometry : ℕ
  subscene : ℕ

/-- Modelled from the spec: the "ray-hit record" `HitParameters`: position, geometric normal,
barycentric coordinates, instance, geometry and primitive identifiers, positional error bound and
incoming view direction. -/
structure HitParameters where
  position : float3
  normal : float3
  view : float3
  error : ℚ
  baryCoords : float2
  primId : ℕ
  instId : ℕ
  geomId : ℕ

/-- Modelled from the spec: a `Ptex::PtexFilter`, of which the source calls
`eval(&sample.x, 0, 3, faceid, u, v, 0, 0, 0, 0)`: the three floats it writes. -/
structure PtexFilter where
  eval : ℕ → ℚ → ℚ → float3

/-- The constants and functions that `SurfaceParameters.cpp` uses and whose declarations are not
in the sources at hand. -/
structure SceneCollaborators where
  /-- The flag `HasNormals` of `ModelGeometryUserData::flags`. -/
  HasNormals : ℕ
  /-- The flag `HasTangents`. -/
  HasTangents : ℕ
  /-- The flag `HasUvs`. -/
  HasUvs : ℕ
  /-- The material flag `eUsesPtex`. -/
  eUsesPtex : ℕ
  /-- The material flag `eTransparent`. -/
  eTransparent : ℕ
  /-- `ModelDataFromRayIds(context->scene, instId, geomId, localToWorld&, modelData&)`: the pair
  it writes. -/
  ModelDataFromRayIds : ℕ → ℕ → float4x4 × ModelGeometryUserData
  /-- `rtcInterpolate0(rtcGeometry, primId, u, v, RTC_BUFFER_TYPE_VERTEX_ATTRIBUTE, slot, &out,
  count)`: the floats it writes, of which the caller reads the first `count`. -/
  rtcInterpolate0 : ℕ → ℕ → ℚ → ℚ → ℕ → float4
  /-- `MatrixMultiplyVector(v, m)`. -/
  MatrixMultiplyVector : float3 → float4x4 → float3
  /-- `Cross(a, b)`. -/
  Cross : float3 → float3 → float3
  /-- `MakeOrthogonalCoordinateSystem(n, &t, &b)`: the pair `(t, b)` it writes. -/
  MakeOrthogonalCoordinateSystem : float3 → float3 × float3
  /-- `MakeFloat3x3(a, b, c)`. -/
  MakeFloat3x3 : float3 → float3 → float3 → float3x3
  /-- `Pow(v, e)` on `float3`. -/
  Pow : float3 → ℚ → float3
  /-- `textureCache->FetchTexture(handle)`; `none` is the null pointer. -/
  FetchTexture : ℕ → Option TextureResource
  /-- `textureCache->FetchPtex(handle)` followed by `Ptex::PtexFilter::getFilter` with the
  b-spline options. -/
  FetchPtexFilter : ℕ → PtexFilter
  /-- `TextureFiltering::Triangle(data, 0, uvs, sample)` for a `float` sample. -/
  TriangleFloat : TextureResourceData → float2 → ℚ
  /-- `TextureFiltering::Triangle(data, 0, uvs, sample)` for a `float3` sample. -/
  TriangleFloat3 : TextureResourceData → float2 → float3
  /-- `TextureFiltering::Triangle(data, 0, uvs, sample)` for a `float4` sample. -/
  TriangleFloat4 : TextureResourceData → float2 → float4
  /-- `Math::SrgbToLinearPrecise` on `float`. -/
  SrgbToLinearPreciseFloat : ℚ → ℚ
  /-- `Math::SrgbToLinearPrecise` on `float3`. -/
  SrgbToLinearPreciseFloat3 : float3 → float3
  /-- `Math::SrgbToLinearPrecise` on `float4`. -/
  SrgbToLinearPreciseFloat4 : float4 → float4

/-- The template `SampleTexture<Type_>` (lines 59-73); the two functions are
`TextureFiltering::Triangle` and `Math::SrgbToLinearPrecise` at the type `Type_`. -/
def SampleTexture {Type_ : Type} (Triangle : TextureResourceData → float2 → Type_)
    (SrgbToLinearPrecise : Type_ → Type_) (texture : Option TextureResource) (uvs : float2)
    (sRGB : Bool) (defaultValue : Type_) : Type_ :=
  match texture with
  | none => defaultValue
  | some t =>
    let sample := Triangle t.data uvs
    if sRGB then SrgbToLinearPrecise sample else sample

/-- The function `SampleTextureFloat3` (lines 99-119). The debug check `Assert_(false)` of line
117 is not part of the returned value, which is `float3(0.0f)` there. -/
def SampleTextureFloat3 (S : SceneCollaborators) (texture : Option TextureResource)
    (uvs : float2) (sRGB : Bool) (defaultValue : float3) : float3 :=
  match texture with
  | none => defaultValue
  | some t =>
    if t.data.format = TextureFormat.Float then
      let val := SampleTexture S.TriangleFloat S.SrgbToLinearPreciseFloat texture uvs sRGB 0
      ⟨val, val, val⟩
    else if t.data.format = TextureFormat.Float3 then
      SampleTexture S.TriangleFloat3 S.SrgbToLinearPreciseFloat3 texture uvs sRGB defaultValue
    else if t.data.format = TextureFormat.Float4 then
      (SampleTexture S.TriangleFloat4 S.SrgbToLinearPreciseFloat4 texture uvs sRGB
        ⟨defaultValue.x, defaultValue.y, defaultValue.z, 1⟩).XYZ
    else float3.splat 0

/-- Lines 160-171 (263-274 in the second overload) of `CalculateSurfaceParams`: the normalised
normal `n` of the frame. -/
def FrameNormal (E : Collaborators) (S : SceneCollaborators) (hit : HitParameters)
    (modelData : ModelGeometryUserData) (localToWorld : float4x4) : float3 :=
  let normal :=
    if modelData.flags &&& S.HasNormals ≠ 0 then
      S.MatrixMultiplyVector
        (S.rtcInterpolate0 modelData.rtcGeometry hit.primId hit.baryCoords.x hit.baryCoords.y
          0).XYZ localToWorld
    else S.MatrixMultiplyVector hit.normal localToWorld
  E.Normalize normal

/-- Lines 172-184 (275-287) of `CalculateSurfaceParams`: the pair `(t, b)` of the frame. -/
def FrameTangents (S : SceneCollaborators) (hit : HitParameters)
    (modelData : ModelGeometryUserData) (localToWorld : float4x4) (n : float3) :
    float3 × float3 :=
  if modelData.flags &&& S.HasTangents ≠ 0 then
    let localTangent :=
      S.rtcInterpolate0 modelData.rtcGeometry hit.primId hit.baryCoords.x hit.baryCoords.y 1
    let t := S.MatrixMultiplyVector localTangent.XYZ localToWorld
    (t, S.Cross n t * localTangent.w)
  else S.MakeOrthogonalCoordinateSystem n

/-- Lines 186-190 (289-293) of `CalculateSurfaceParams`: the texture coordinates. -/
def HitUvs (S : SceneCollaborators) (hit : HitParameters) (modelData : ModelGeometryUserData) :
    float2 :=
  if modelData.flags &&& S.HasUvs ≠ 0 then
    let r := S.rtcInterpolate0 modelData.rtcGeometry hit.primId hit.baryCoords.x hit.baryCoords.y 2
    ⟨r.x, r.y⟩
  else ⟨0, 0⟩

/-- The function `CalculateSurfaceParams(context, hit, surface)` (lines 144-247):
`(returned bool, surface)`. -/
def CalculateSurfaceParams (E : Collaborators) (S : SceneCollaborators) (hit : HitParameters)
    (surface : SurfaceParameters) : Bool × SurfaceParameters :=
  let localToWorld := (S.ModelDataFromRayIds hit.instId hit.geomId).1
  let modelData := (S.ModelDataFromRayIds hit.instId hit.geomId).2
  let materialResource := modelData.material
  let n := FrameNormal E S hit modelData localToWorld
  let tb := FrameTangents S hit modelData localToWorld n
  let t := tb.1
  let b := tb.2
  let uvs := HitUvs S hit modelData
  let baseColor :=
    if materialResource.flags &&& S.eUsesPtex ≠ 0 then
      let filter := S.FetchPtexFilter modelData.baseColorTextureHandle
      let sample := filter.eval hit.primId hit.baryCoords.x hit.baryCoords.y
      S.Pow sample 2.2
    else
      let baseColorTexture := S.FetchTexture modelData.baseColorTextureHandle
      S.Pow (SampleTextureFloat3 S baseColorTexture uvs true materialResource.baseColor) 2.2
  let tangentToWorld := S.MakeFloat3x3 t n b
  let ior := materialResource.scalarAttributeValues MaterialProperty.eIor
  (true,
    { surface with
        baseColor := baseColor
        worldToTangent := E.MatrixTranspose tangentToWorld
        position := hit.position
        error := hit.error
        materialFlags := materialResource.flags
        transmittanceColor := materialResource.transmittanceColor
        sheen := materialResource.scalarAttributeValues MaterialProperty.eSheen
        sheenTint := materialResource.scalarAttributeValues MaterialProperty.eSheenTint
        clearcoat := materialResource.scalarAttributeValues MaterialProperty.eClearcoat
        clearcoatGloss := materialResource.scalarAttributeValues MaterialProperty.eClearcoatGloss
        specTrans := Saturate (materialResource.scalarAttributeValues MaterialProperty.eSpecTrans)
        diffTrans := materialResource.scalarAttributeValues MaterialProperty.eDiffuseTrans * 0.5
        flatness := materialResource.scalarAttributeValues MaterialProperty.eFlatness
        anisotropic := materialResource.scalarAttributeValues MaterialProperty.eAnisotropic
        specularTint := materialResource.scalarAttributeValues MaterialProperty.eSpecularTint
        roughness := materialResource.scalarAttributeValues MaterialProperty.eRoughness
        metallic := Saturate (materialResource.scalarAttributeValues MaterialProperty.eMetallic)
        scatterDistance := materialResource.scalarAttributeValues MaterialProperty.eScatterDistance
        ior := ior
        lightSetIndex := modelData.lightSetIndex
        shader := materialResource.shader
        view := hit.view
        relativeIOR :=
          if materialResource.flags &&& S.eTransparent ≠ 0 ∧ Dot hit.view n < 0 then ior
          else 1 / ior })

/-- The overload `CalculateSurfaceParams(context, hit, modelData, localToWorld, filter, surface)`
(lines 250-342): `(returned bool, surface)`. -/
def CalculateSurfaceParamsResolved (E : Collaborators) (S : SceneCollaborators)
    (hit : HitParameters) (modelData : ModelGeometryUserData) (localToWorld : float4x4)
    (filter : PtexFilter) (surface : SurfaceParameters) : Bool × SurfaceParameters :=
  let materialResource := modelData.material
  let n := FrameNormal E S hit modelData localToWorld
  let tb := FrameTangents S hit modelData localToWorld n
  let t := tb.1
  let b := tb.2
  let uvs := HitUvs S hit modelData
  let baseColor :=
    if materialResource.flags &&& S.eUsesPtex ≠ 0 then
      let sample := filter.eval hit.primId hit.baryCoords.x hit.baryCoords.y
      S.Pow sample 2.2
    else
      let baseColorTexture := S.FetchTexture modelData.baseColorTextureHandle
      S.Pow (SampleTextureFloat3 S baseColorTexture uvs true materialResource.baseColor) 2.2
  let tangentToWorld := S.MakeFloat3x3 t n b
  let ior := materialResource.scalarAttributeValues MaterialProperty.eIor
  (true,
    { surface with
        baseColor := baseColor
        worldToTangent := E.MatrixTranspose tangentToWorld
        position := hit.position
        error := hit.error
        materialFlags := materialResource.flags
        transmittanceColor := materialResource.transmittanceColor
        sheen := materialResource.scalarAttributeValues MaterialProperty.eSheen
        sheenTint := materialResource.scalarAttributeValues MaterialProperty.eSheenTint
        clearcoat := materialResource.scalarAttributeValues MaterialProperty.eClearcoat
        clearcoatGloss := materialResource.scalarAttributeValues MaterialProperty.eClearcoatGloss
        specTrans := Saturate (materialResource.scalarAttributeValues MaterialProperty.eSpecTrans)
        diffTrans := materialResource.scalarAttributeValues MaterialProperty.eDiffuseTrans * 0.5
        flatness := materialResource.scalarAttributeValues MaterialProperty.eFlatness
        anisotropic := materialResource.scalarAttributeValues MaterialProperty.eAnisotropic
        specularTint := materialResource.scalarAttributeValues MaterialProperty.eSpecularTint
        roughness := materialResource.scalarAttributeValues MaterialProperty.eRoughness
        metallic := Saturate (materialResource.scalarAttributeValues MaterialProperty.eMetallic)
        scatterDistance := materialResource.scalarAttributeValues MaterialProperty.eScatterDistance
        ior := ior
        lightSetIndex := modelData.lightSetIndex
        shader := materialResource.shader
        view := hit.view
        relativeIOR :=
          if materialResource.flags &&& S.eTransparent ≠ 0 ∧ Dot hit.view n < 0 then ior
          else 1 / ior })

/-- The function `GeometricTangent`. -/
def GeometricTangent (surface : SurfaceParameters) : float3 :=
  ⟨surface.worldToTangent.r0.x, surface.worldToTangent.r1.x, surface.worldToTangent.r2.x⟩

/-- The function `GeometricNormal`. -/
def GeometricNormal (surface : SurfaceParameters) : float3 :=
  ⟨surface.worldToTangent.r0.y, surface.worldToTangent.r1.y, surface.worldToTangent.r2.y⟩

/-- The function `GeometricBitangent`. -/
def GeometricBitangent (surface : SurfaceParameters) : float3 :=
  ⟨surface.worldToTangent.r0.z, surface.worldToTangent.r1.z, surface.worldToTangent.r2.z⟩

/-- The function `OffsetRayOrigin(surface, direction, biasScale)` (lines 403-408). -/
def OffsetRayOrigin (surface : SurfaceParameters) (direction : float3) (biasScale : ℚ) :
    float3 :=
  let directionOffset : ℚ := if Dot direction (GeometricNormal surface) < 0 then -1 else 1
  let offset := (directionOffset * surface.error * biasScale) * GeometricNormal surface
  surface.position + offset

/-- The overload `OffsetRayOrigin(surface, direction, biasScale, signedBiasDistance&)` (lines
411-417): `(returned point, signedBiasDistance)`. -/
def OffsetRayOriginSigned (surface : SurfaceParameters) (direction : float3) (biasScale : ℚ) :
    float3 × ℚ :=
  let directionOffset : ℚ := if Dot direction (GeometricNormal surface) < 0 then -1 else 1
  let signedBiasDistance := directionOffset * surface.error * biasScale
  let offset := signedBiasDistance * GeometricNormal surface
  (surface.position + offset, signedBiasDistance)

/-- The function `ContinuationProbability` (lines 420-424). -/
def ContinuationProbability (surface : SurfaceParameters) : ℚ :=
  let value := surface.baseColor
  Saturate (Max (Max value.x value.y) value.z)

/-! ## A rational collaborator record

The embedded code is parametric in `Collaborators`. To run it on concrete inputs the record below
gives every collaborator its textbook body over `ℚ`. Where the real function is irrational the
body is exact on the arguments named in its comment and an approximation elsewhere; the concrete
inputs used further down only reach arguments on which the bodies are exact. -/

namespace Textbook

/-- The `float` nearest to `π`, `3.1415927410125732421875`. -/
def Pi_ : ℚ := 13176795 / 4194304

/-- Square root: exact on the square of a rational. -/
def Sqrtf (x : ℚ) : ℚ := Rat.sqrt x

/-- Power: exact for an integer exponent. -/
def Powf (b e : ℚ) : ℚ := b ^ ⌊e⌋

/-- Binary logarithm: exact on the powers of two. -/
def Log2 (x : ℚ) : ℚ := (Int.log 2 x : ℤ)

/-- Cosine: the Taylor polynomial of degree two, exact at `0`. -/
def Cosf (x : ℚ) : ℚ := 1 - x * x / 2

/-- Sine: the Taylor polynomial of degree one, exact at `0`. -/
def Sinf (x : ℚ) : ℚ := x

/-- Sign: `-1` below zero and `1` elsewhere. -/
def Sign (x : ℚ) : ℚ := if x < 0 then -1 else 1

/-- Channel-wise square root. -/
def Sqrt (v : float3) : float3 := ⟨Sqrtf v.x, Sqrtf v.y, Sqrtf v.z⟩

/-- The vector scaled by the inverse of its length. -/
def Normalize (v : float3) : float3 := v * (1 / Sqrtf (Dot v v))

/-- The cross product. -/
def Cross (a b : float3) : float3 :=
  ⟨a.y * b.z - a.z * b.y, a.z * b.x - a.x * b.z, a.x * b.y - a.y * b.x⟩

/-- Row vector times matrix. -/
def MatrixMultiply (v : float3) (m : float3x3) : float3 :=
  ⟨v.x * m.r0.x + v.y * m.r1.x + v.z * m.r2.x,
   v.x * m.r0.y + v.y * m.r1.y + v.z * m.r2.y,
   v.x * m.r0.z + v.y * m.r1.z + v.z * m.r2.z⟩

/-- The transposed matrix. -/
def MatrixTranspose (m : float3x3) : float3x3 :=
  ⟨⟨m.r0.x, m.r1.x, m.r2.x⟩, ⟨m.r0.y, m.r1.y, m.r2.y⟩, ⟨m.r0.z, m.r1.z, m.r2.z⟩⟩

/-- Mirror image of `l` about `n`: `2 (n · l) n - l`. -/
def Reflect (n l : float3) : float3 := (2 * Dot n l) * n - l

/-- Refraction of `wi` at the normal `wm` with relative index `n`; `none` on total internal
reflection. -/
def Transmit (wm wi : float3) (n : ℚ) : Option float3 :=
  let c0 := Dot wi wm
  let c := if c0 < 0 then -c0 else c0
  let m := if c0 < 0 then -wm else wm
  let root := 1 - n * n * (1 - c * c)
  if root ≤ 0 then none else some ((n * c - Sqrtf root) * m - n * wi)

/-- The anisotropic GGX distribution `1 / (π ax ay (x²/ax² + z²/ay² + y²)²)`. -/
def GgxAnisotropicD (wm : float3) (ax ay : ℚ) : ℚ :=
  1 / (Pi_ * ax * ay * Square (Square wm.x / Square ax + Square wm.z / Square ay + Square wm.y))

/-- The Smith masking term `1 / (1 + Λ(w))` of the anisotropic GGX distribution. -/
def SeparableSmithGGXG1 (w wm : float3) (ax ay : ℚ) : ℚ :=
  if Dot w wm ≤ 0 then 0
  else if w.y = 0 then 0
  else
    let a2Tan2Theta := (Square ax * Square w.x + Square ay * Square w.z) / Square w.y
    1 / (1 + (1 / 2) * (-1 + Sqrtf (1 + a2Tan2Theta)))

/-- The isotropic Smith masking term `2 / (1 + sqrt(a² + (1 - a²) cos²θ))`. -/
def SeparableSmithGGXG1a (w : float3) (a : ℚ) : ℚ :=
  let a2 := a * a
  2 / (1 + Sqrtf (a2 + (1 - a2) * AbsCosTheta w * AbsCosTheta w))

/-- The density of the visible normals seen from `wo` and, reversed, from `wi`. -/
def GgxVndfAnisotropicPdf (wi wm wo : float3) (ax ay : ℚ) : ℚ × ℚ :=
  let D := GgxAnisotropicD wm ax ay
  (SeparableSmithGGXG1 wo wm ax ay * AbsDot wo wm * D / AbsCosTheta wo,
   SeparableSmithGGXG1 wi wm ax ay * AbsDot wi wm * D / AbsCosTheta wi)

/-- Sampling of the visible normals by projection of a disk (Heitz 2018), `y` up. -/
def SampleGgxVndfAnisotropic (wo : float3) (ax ay u1 u2 : ℚ) : float3 :=
  let v := Normalize ⟨wo.x * ax, wo.y, wo.z * ay⟩
  let t1 : float3 := if v.y < 0.9999 then Normalize (Cross v ⟨0, 1, 0⟩) else ⟨1, 0, 0⟩
  let t2 := Cross t1 v
  let a := 1 / (1 + v.y)
  let r := Sqrtf u1
  let phi := if u2 < a then (u2 / a) * Pi_ else Pi_ + (u2 - a) / (1 - a) * Pi_
  let p1 := r * Cosf phi
  let p2 := r * Sinf phi * (if u2 < a then 1 else v.y)
  let n := p1 * t1 + p2 * t2 + Sqrtf (Max 0 (1 - p1 * p1 - p2 * p2)) * v
  Normalize ⟨ax * n.x, n.y, ay * n.z⟩

/-- Schlick weight `(1 - u)^5` with `1 - u` clamped to `[0,1]`. -/
def SchlickWeight (u : ℚ) : ℚ := Saturate (1 - u) ^ 5

/-- Schlick approximation `r0 + (1 - r0) (1 - u)^5`. -/
def Schlick (r0 u : ℚ) : ℚ := r0 + (1 - r0) * SchlickWeight u

/-- Schlick approximation, channel by channel. -/
def Schlick3 (r0 : float3) (u : ℚ) : float3 :=
  ⟨Schlick r0.x u, Schlick r0.y u, Schlick r0.z u⟩

/-- Reflectance at normal incidence `((η - 1) / (η + 1))²`. -/
def SchlickR0FromRelativeIOR (eta : ℚ) : ℚ := Square (eta - 1) / Square (eta + 1)

/-- Unpolarised Fresnel reflectance of a dielectric boundary. -/
def Dielectric (cosThetaI0 ni0 nt0 : ℚ) : ℚ :=
  let cosThetaI := if cosThetaI0 < 0 then -cosThetaI0 else cosThetaI0
  let ni := if cosThetaI0 < 0 then nt0 else ni0
  let nt := if cosThetaI0 < 0 then ni0 else nt0
  let sinThetaI := Sqrtf (Max 0 (1 - cosThetaI * cosThetaI))
  let sinThetaT := ni / nt * sinThetaI
  if sinThetaT ≥ 1 then 1
  else
    let cosThetaT := Sqrtf (Max 0 (1 - sinThetaT * sinThetaT))
    let rParallel := (nt * cosThetaI - ni * cosThetaT) / (nt * cosThetaI + ni * cosThetaT)
    let rPerpendicular := (ni * cosThetaI - nt * cosThetaT) / (ni * cosThetaI + nt * cosThetaT)
    (rParallel * rParallel + rPerpendicular * rPerpendicular) / 2

/-- The record of the textbook bodies. -/
def collaborators : Collaborators where
  Pi_ := Pi_
  InvPi_ := 1 / Pi_
  TwoPi_ := 2 * Pi_
  Sqrtf := Sqrtf
  Powf := Powf
  Log2 := Log2
  Cosf := Cosf
  Sinf := Sinf
  Sign := Sign
  Sqrt := Sqrt
  Normalize := Normalize
  MatrixMultiply := MatrixMultiply
  MatrixTranspose := MatrixTranspose
  Reflect := Reflect
  Transmit := Transmit
  GgxAnisotropicD := GgxAnisotropicD
  SeparableSmithGGXG1 := SeparableSmithGGXG1
  SeparableSmithGGXG1a := SeparableSmithGGXG1a
  GgxVndfAnisotropicPdf := GgxVndfAnisotropicPdf
  SampleGgxVndfAnisotropic := SampleGgxVndfAnisotropic
  Schlick := Schlick
  Schlick3 := Schlick3
  SchlickWeight := SchlickWeight
  SchlickR0FromRelativeIOR := SchlickR0FromRelativeIOR
  Dielectric := Dielectric

end Textbook

/-! ## Concrete inputs -/

/-- The identity matrix: world space and tangent space coincide. -/
def identity3x3 : float3x3 := ⟨⟨1, 0, 0⟩, ⟨0, 1, 0⟩, ⟨0, 0, 1⟩⟩

/-- A white dielectric with `ior = 1.5` seen from the air side, `roughness = 1`, every other
scalar attribute `0`; the concrete surfaces below override single fields of it. -/
def plainSurface : SurfaceParameters where
  position := ⟨0, 0, 0⟩
  error := 0
  worldToTangent := identity3x3
  view := ⟨0, 1, 0⟩
  baseColor := ⟨1, 1, 1⟩
  transmittanceColor := ⟨1, 1, 1⟩
  sheen := 0
  sheenTint := 0
  clearcoat := 0
  clearcoatGloss := 0
  metallic := 0
  specTrans := 0
  diffTrans := 0
  flatness := 0
  anisotropic := 0
  relativeIOR := 2 / 3
  specularTint := 0
  roughness := 1
  scatterDistance := 0
  ior := 3 / 2
  shader := 0
  materialFlags := 0
  lightSetIndex := 0

/-- An output record with reflectance `(1,1,1)` and both pdfs `1`, as a caller may pass it. -/
def usedSample : BsdfSample where
  flags := ⟨false, false, false⟩
  medium := ⟨MediumPhaseFunction.eVacuum, ⟨0, 0, 0⟩⟩
  reflectance := ⟨1, 1, 1⟩
  wi := ⟨0, 0, 0⟩
  forwardPdfW := 1
  reversePdfW := 1

/-- The surface `plainSurface` with `specTrans = 1`: only the transmission lobe has weight. -/
def glassSurface : SurfaceParameters := { plainSurface with specTrans := 1 }

/-- The surface `plainSurface` with `clearcoat = 1`. -/
def coatedSurface : SurfaceParameters := { plainSurface with clearcoat := 1 }

/-- The surface `plainSurface` with `metallic = 1`: only the specular lobe has weight. -/
def metalSurface : SurfaceParameters := { plainSurface with metallic := 1 }

/-- The sampler that returns `p` first and `0` from then on. -/
def samplerFrom (p : ℚ) : CSampler := ⟨fun n => if n = 0 then p else 0, 0⟩

/-- A power function that is exact at the exponent `1/4` on the fourth powers of rationals (the
root is taken twice) and is `Textbook.Powf` elsewhere. -/
def Textbook.PowfRoot (b e : ℚ) : ℚ :=
  if e = 1 / 4 then Textbook.Sqrtf (Textbook.Sqrtf b) else Textbook.Powf b e

/-- The record `Textbook.collaborators` with `Textbook.PowfRoot` for `Math::Powf`. -/
def rootCollaborators : Collaborators :=
  { Textbook.collaborators with Powf := Textbook.PowfRoot }

/-- A pinhole camera that looks down the z axis through the centre of its pixels, a viewport that
is 16384 pixels wide, and an environment light whose emitted sample has all three pdf terms 1 and
radiance `(1, 1, 1)`. -/
def pinholeContext : GIIntegratorContext where
  camera := { forward := ⟨0, 0, 1⟩, virtualImagePlaneDistance := 1, viewportWidth := 16384 }
  EmitIblLightSample :=
    { position := float3.Zero_
      direction := ⟨0, -1, 0⟩
      radiance := float3.One_
      emissionPdfW := 1
      directionPdfA := 1
      cosThetaLight := 1 }
  JitteredCameraRay := fun _ _ => { origin := float3.Zero_, direction := ⟨0, 0, 1⟩ }

/-! ## Orthonormal frames and unit vectors -/

/-- The rows of the matrix are unit vectors, orthogonal in pairs. -/
def float3x3.RowsOrthonormal (m : float3x3) : Prop :=
  Dot m.r0 m.r0 = 1 ∧ Dot m.r1 m.r1 = 1 ∧ Dot m.r2 m.r2 = 1
    ∧ Dot m.r0 m.r1 = 0 ∧ Dot m.r0 m.r2 = 0 ∧ Dot m.r1 m.r2 = 0

instance (m : float3x3) : Decidable m.RowsOrthonormal := by
  unfold float3x3.RowsOrthonormal
  infer_instance

/-- Modelled from the spec: an orthonormal `worldToTangent` ("tangent frame"): the rows of the
matrix are orthonormal and so are its columns. -/
def float3x3.Orthonormal (m : float3x3) : Prop :=
  m.RowsOrthonormal ∧ (Textbook.MatrixTranspose m).RowsOrthonormal

instance (m : float3x3) : Decidable m.Orthonormal := by
  unfold float3x3.Orthonormal
  infer_instance

/-- Lines 298-306 of `SampleDisneyClearcoat`: the half vector `wm` built from the two variates,
before the flip of line 308. -/
def SampleClearcoatNormal (E : Collaborators) (r0 r1 : ℚ) : float3 :=
  let a : ℚ := 0.25
  let a2 := a * a
  let cosTheta := E.Sqrtf (Max 0 ((1 - E.Powf a2 (1 - r0)) / (1 - a2)))
  let sinTheta := E.Sqrtf (Max 0 (1 - cosTheta * cosTheta))
  let phi := E.TwoPi_ * r1
  ⟨sinTheta * E.Cosf phi, cosTheta, sinTheta * E.Sinf phi⟩

/-- A `Normalize` whose value is a unit vector on every input: `Textbook.Normalize` where that is
exact (the length of the vector is rational), the up vector elsewhere. -/
def Textbook.NormalizeUnit (v : float3) : float3 :=
  if Dot (Textbook.Normalize v) (Textbook.Normalize v) = 1 then Textbook.Normalize v
  else ⟨0, 1, 0⟩

/-- The record `Textbook.collaborators` with `Textbook.NormalizeUnit` for `Normalize`. -/
def unitCollaborators : Collaborators :=
  { Textbook.collaborators with Normalize := Textbook.NormalizeUnit }

/-! ## A scene for the examples -/

/-- The identity transform. -/
def identity4x4 : float4x4 := ⟨⟨1, 0, 0, 0⟩, ⟨0, 1, 0, 0⟩, ⟨0, 0, 1, 0⟩, ⟨0, 0, 0, 1⟩⟩

/-- Row vector times the upper 3×3 block of the matrix. -/
def Textbook.MatrixMultiplyVector (v : float3) (m : float4x4) : float3 :=
  ⟨v.x * m.r0.x + v.y * m.r1.x + v.z * m.r2.x,
   v.x * m.r0.y + v.y * m.r1.y + v.z * m.r2.y,
   v.x * m.r0.z + v.y * m.r1.z + v.z * m.r2.z⟩

/-- A pair of vectors orthogonal to `n` and to each other; of unit length when `n` is the y
axis. -/
def Textbook.MakeOrthogonalCoordinateSystem (n : float3) : float3 × float3 :=
  let t : float3 := if n.x = 0 ∧ n.z = 0 then ⟨1, 0, 0⟩ else ⟨n.z, 0, -n.x⟩
  (t, Textbook.Cross n t)

/-- The power of each channel. -/
def Textbook.Pow (v : float3) (e : ℚ) : float3 :=
  ⟨Textbook.Powf v.x e, Textbook.Powf v.y e, Textbook.Powf v.z e⟩

/-- A transparent material with `ior = 3/2`; its `metallic = 2` and `specTrans = -1` lie outside
`[0,1]`, its `diffuseTrans` is `1/2`, every other scalar attribute is `1/4`. -/
def glassMaterial : MaterialResourceData where
  flags := 2
  shader := 0
  baseColor := ⟨1, 1, 1⟩
  transmittanceColor := ⟨1, 1, 1⟩
  scalarAttributeValues := fun p =>
    match p with
    | MaterialProperty.eIor => 3 / 2
    | MaterialProperty.eMetallic => 2
    | MaterialProperty.eSpecTrans => -1
    | MaterialProperty.eDiffuseTrans => 1 / 2
    | _ => 1 / 4

/-- A model without vertex normals, tangents or texture coordinates, made of `glassMaterial`. -/
def glassModel : ModelGeometryUserData where
  flags := 0
  material := glassMaterial
  lightSetIndex := 0
  baseColorTextureHandle := 0
  rtcGeometry := 0
  subscene := 0

/-- The filter of a Ptex texture that is white everywhere. -/
def whiteFilter : PtexFilter := ⟨fun _ _ _ => ⟨1, 1, 1⟩⟩

/-- A scene of one untextured model, `glassModel`, placed by the identity transform. The flag
values are `HasNormals = 1`, `HasTangents = 2`, `HasUvs = 4`, `eTransparent = 2`,
`eUsesPtex = 16`. Every texel is white, and `SrgbToLinearPrecise` is the identity, which is its
value at `0` and at `1`. -/
def Textbook.scene : SceneCollaborators where
  HasNormals := 1
  HasTangents := 2
  HasUvs := 4
  eUsesPtex := 16
  eTransparent := 2
  ModelDataFromRayIds := fun _ _ => (identity4x4, glassModel)
  rtcInterpolate0 := fun _ _ _ _ _ => ⟨0, 1, 0, 1⟩
  MatrixMultiplyVector := Textbook.MatrixMultiplyVector
  Cross := Textbook.Cross
  MakeOrthogonalCoordinateSystem := Textbook.MakeOrthogonalCoordinateSystem
  MakeFloat3x3 := fun a b c => ⟨a, b, c⟩
  Pow := Textbook.Pow
  FetchTexture := fun _ => none
  FetchPtexFilter := fun _ => whiteFilter
  TriangleFloat := fun _ _ => 1
  TriangleFloat3 := fun _ _ => ⟨1, 1, 1⟩
  TriangleFloat4 := fun _ _ => ⟨1, 1, 1, 1⟩
  SrgbToLinearPreciseFloat := fun x => x
  SrgbToLinearPreciseFloat3 := fun x => x
  SrgbToLinearPreciseFloat4 := fun x => x

/-- A hit at the origin on a surface whose normal is the y axis, seen from below
(`view = (0,-1,0)`). -/
def backHit : HitParameters where
  position := ⟨0, 0, 0⟩
  normal := ⟨0, 1, 0⟩
  view := ⟨0, -1, 0⟩
  error := 1 / 1000
  baryCoords := ⟨0, 0⟩
  primId := 0
  instId := 0
  geomId := 0

/-- The sampler that returns the variates of the list in turn, and `0` after its end. -/
def samplerOf (xs : List ℚ) : CSampler := ⟨fun n => xs.getD n 0, 0⟩

/-- The surface `plainSurface` with `diffTrans = 1/2`. -/
def translucentSurface : SurfaceParameters := { plainSurface with diffTrans := 1 / 2 }

/-- The record `Textbook.collaborators` with a `Math::Powf` that returns `53/80` at the exponent
`3/20` (the value `0.6598` of `(1/16)^(3/20)` approximated by `0.6625`), which makes the half
vector that `SampleDisneyClearcoat` draws at `r0 = 17/20` the rational unit vector
`(4/5, 3/5, 0)`. -/
def grazingCollaborators : Collaborators :=
  { Textbook.collaborators with
      Powf := fun b e => if e = 3 / 20 then 53 / 80 else Textbook.Powf b e }

/-- A power that interpolates linearly between the integer powers of the base: exact for an
integer exponent, as `Textbook.Powf`, and not constant between two of them. -/
def Textbook.PowfLinear (b e : ℚ) : ℚ := b ^ ⌊e⌋ * (1 + Int.fract e * (b - 1))

/-- The record `Textbook.collaborators` with `Textbook.PowfLinear` for `Math::Powf`. -/
def linearCollaborators : Collaborators :=
  { Textbook.collaborators with Powf := Textbook.PowfLinear }

/-- The local `wm` of `SampleDisneyClearcoat` after the flip of line 308. -/
def ClearcoatNormal (E : Collaborators) (sampler : CSampler) (surface : SurfaceParameters)
    (v : float3) : float3 :=
  let wo := E.Normalize (E.MatrixMultiply v surface.worldToTangent)
  let wm := SampleClearcoatNormal E sampler.UniformFloat.1 sampler.UniformFloat.2.UniformFloat.1
  if Dot wm wo < 0 then -wm else wm

/-- A model with vertex normals and vertex tangents (`flags = HasNormals | HasTangents`), made of
`glassMaterial`. -/
def tangentModel : ModelGeometryUserData := { glassModel with flags := 3 }

/-- The scene `Textbook.scene` with the model `tangentModel`, a triangle whose interpolated normal
(slot 0) is the y axis and whose vertices carry the unit tangents `(1,0,0)`, `(0,0,1)` and
`(1,0,0)` with sign `1`: at the barycentric coordinates `(u, v)` the interpolated tangent (slot 1)
is `(1 - u, 0, u, 1)`. -/
def tangentScene : SceneCollaborators :=
  { Textbook.scene with
      ModelDataFromRayIds := fun _ _ => (identity4x4, tangentModel)
      rtcInterpolate0 := fun _ _ u _ slot =>
        if slot = 1 then ⟨1 - u, 0, u, 1⟩ else ⟨0, 1, 0, 1⟩ }

/-- A hit half way along the edge between the first two vertices of the triangle, seen from
above. -/
def edgeHit : HitParameters := { backHit with baryCoords := ⟨1 / 2, 0⟩, view := ⟨0, 1, 0⟩ }

/-- The transfer function of sRGB, `x / 12.92` up to `0.04045` and `((x + 0.055) / 1.055)^2.4`
above, with `Textbook.Powf` for the power: exact on the linear segment. -/
def Textbook.SrgbToLinearPrecise (x : ℚ) : ℚ :=
  if x ≤ 0.04045 then x / 12.92 else Textbook.Powf ((x + 0.055) / 1.055) 2.4

/-- The transfer function of sRGB on each channel. -/
def Textbook.SrgbToLinearPrecise3 (v : float3) : float3 :=
  ⟨Textbook.SrgbToLinearPrecise v.x, Textbook.SrgbToLinearPrecise v.y,
    Textbook.SrgbToLinearPrecise v.z⟩

/-- The dark grey `(1/100, 1/100, 1/100)`, on the linear segment of the sRGB transfer
function. -/
def darkGrey : float3 := ⟨1 / 100, 1 / 100, 1 / 100⟩

/-- A three-channel texture. -/
def greyTexture : TextureResource := ⟨⟨TextureFormat.Float3, 0⟩⟩

/-- The scene `Textbook.scene` in which every texture handle is bound to `greyTexture`, whose
filtered sample is `darkGrey` everywhere, and `SrgbToLinearPrecise` on `float3` is the sRGB
transfer function. -/
def texturedScene : SceneCollaborators :=
  { Textbook.scene with
      FetchTexture := fun _ => some greyTexture
      TriangleFloat3 := fun _ _ => darkGrey
      SrgbToLinearPreciseFloat3 := Textbook.SrgbToLinearPrecise3 }

/-- The filter of a Ptex texture that is `darkGrey` everywhere. -/
def greyFilter : PtexFilter := ⟨fun _ _ _ => darkGrey⟩

/-- The model `glassModel` with a material that has the flag `eUsesPtex` (16) only. -/
def ptexModel : ModelGeometryUserData :=
  { glassModel with material := { glassMaterial with flags := 16 } }

/-! ## The lobe selection in machine arithmetic

`CalculateLobePdfs` and the branch conditions of `SampleDisney` once more, with the result of
every `float` addition, subtraction, multiplication and division passed through a rounding `fl`.
With `fl x = x` these are `CalculateLobePdfs` and `SelectLobe`. -/

/-- Every channel is `>= 0`. -/
def float3.Nonneg (a : float3) : Prop := 0 ≤ a.x ∧ 0 ≤ a.y ∧ 0 ≤ a.z

/-- The three results are `>= 0`, channel by channel. -/
def BsdfEvaluation.Nonneg (r : BsdfEvaluation) : Prop :=
  r.reflectance.Nonneg ∧ 0 ≤ r.forwardPdf ∧ 0 ≤ r.reversePdf

/-! ## Lemmas -/

namespace float3

theorem add_def (a b : float3) : a + b = ⟨a.x + b.x, a.y + b.y, a.z + b.z⟩ := rfl

theorem sub_def (a b : float3) : a - b = ⟨a.x - b.x, a.y - b.y, a.z - b.z⟩ := rfl

theorem neg_def (a : float3) : -a = ⟨-a.x, -a.y, -a.z⟩ := rfl

theorem mul_def (a b : float3) : a * b = ⟨a.x * b.x, a.y * b.y, a.z * b.z⟩ := rfl

theorem smul_def (s : ℚ) (a : float3) : s * a = ⟨s * a.x, s * a.y, s * a.z⟩ := rfl

theorem mul_scalar_def (a : float3) (s : ℚ) : a * s = ⟨a.x * s, a.y * s, a.z * s⟩ := rfl

theorem div_scalar_def (a : float3) (s : ℚ) : a / s = ⟨a.x / s, a.y / s, a.z / s⟩ := rfl

theorem scalar_div_def (s : ℚ) (a : float3) : s / a = ⟨s / a.x, s / a.y, s / a.z⟩ := rfl

theorem zero_mul_scalar (s : ℚ) : float3.Zero_ * s = float3.Zero_ := by
  simp [mul_scalar_def, Zero_]

end float3

theorem Saturate_nonneg (x : ℚ) : 0 ≤ Saturate x := by
  unfold Saturate
  split_ifs with h1 h2
  · exact le_refl 0
  · exact zero_le_one
  · exact not_lt.mp h1

theorem Saturate_le_one (x : ℚ) : Saturate x ≤ 1 := by
  unfold Saturate
  split_ifs with h1 h2
  · exact zero_le_one
  · exact le_refl 1
  · exact not_lt.mp h2

/-- The sum of the four lobe weights is `metallic + (1 - metallic) (2 - specTrans)` plus the
saturated clearcoat. -/
theorem LobeWeights_sum_eq (surface : SurfaceParameters) :
    (CalculateLobeWeights surface).sum
      = surface.metallic + (1 - surface.metallic) * (2 - surface.specTrans)
        + Saturate surface.clearcoat := by
  simp only [CalculateLobeWeights, LobeWeights.sum]
  ring

theorem LobeWeights_sum_ge_one (surface : SurfaceParameters)
    (hm0 : 0 ≤ surface.metallic) (hm1 : surface.metallic ≤ 1) (hs1 : surface.specTrans ≤ 1) :
    1 ≤ (CalculateLobeWeights surface).sum := by
  rw [LobeWeights_sum_eq]
  have hc := Saturate_nonneg surface.clearcoat
  nlinarith [mul_nonneg (sub_nonneg.mpr hm1) (sub_nonneg.mpr hs1)]

/-- `SampleDisney` is the call of the selected branch followed by the rescale. -/
theorem SampleDisney_eq_SampleLobe (E : Collaborators) (sampler : CSampler)
    (surface : SurfaceParameters) (v : float3) (thin : Bool) (sample : BsdfSample) :
    SampleDisney E sampler surface v thin sample
      = let lobes := CalculateLobePdfs surface
        let u := sampler.UniformFloat
        let lobe := SelectLobe lobes u.1
        let r := SampleLobe E lobe u.2 surface v thin sample
        (r.1, RescaleByLobePdf (lobes.pLobe lobe) r.2.1, r.2.2) := by
  simp only [SampleDisney, SelectLobe]
  split_ifs <;> simp [SampleLobe, LobePdfs.pLobe]

theorem LobePdfs_sum (surface : SurfaceParameters)
    (hm0 : 0 ≤ surface.metallic) (hm1 : surface.metallic ≤ 1) (hs1 : surface.specTrans ≤ 1) :
    (CalculateLobePdfs surface).pSpecular + (CalculateLobePdfs surface).pSpecTrans
      + (CalculateLobePdfs surface).pDiffuse + (CalculateLobePdfs surface).pClearcoat = 1 := by
  have h := LobeWeights_sum_ge_one surface hm0 hm1 hs1
  have hne : (CalculateLobeWeights surface).sum ≠ 0 := by linarith
  simp only [CalculateLobePdfs]
  rw [← add_mul, ← add_mul, ← add_mul]
  exact mul_one_div_cancel hne

theorem LobePdfs_nonneg (surface : SurfaceParameters)
    (hm0 : 0 ≤ surface.metallic) (hm1 : surface.metallic ≤ 1)
    (hs0 : 0 ≤ surface.specTrans) (hs1 : surface.specTrans ≤ 1) :
    0 ≤ (CalculateLobePdfs surface).pSpecular ∧ 0 ≤ (CalculateLobePdfs surface).pDiffuse
      ∧ 0 ≤ (CalculateLobePdfs surface).pClearcoat
      ∧ 0 ≤ (CalculateLobePdfs surface).pSpecTrans := by
  have h := LobeWeights_sum_ge_one surface hm0 hm1 hs1
  have hn : 0 ≤ 1 / (CalculateLobeWeights surface).sum := by
    apply div_nonneg zero_le_one; linarith
  have hc := Saturate_nonneg surface.clearcoat
  have h1m := sub_nonneg.mpr hm1
  have h1s := sub_nonneg.mpr hs1
  refine ⟨?_, ?_, ?_, ?_⟩ <;> simp only [CalculateLobePdfs] <;> apply mul_nonneg _ hn
  · simp only [CalculateLobeWeights]; nlinarith [mul_nonneg h1s h1m]
  · simp only [CalculateLobeWeights]; exact mul_nonneg h1s h1m
  · simp only [CalculateLobeWeights]; linarith
  · simp only [CalculateLobeWeights]; exact mul_nonneg h1m hs0

/-- The lobe probabilities of `plainSurface`: specular and diffuse, one half each. -/
theorem plainSurface_lobes :
    (CalculateLobePdfs plainSurface).pSpecular = 1 / 2
      ∧ (CalculateLobePdfs plainSurface).pClearcoat = 0
      ∧ (CalculateLobePdfs plainSurface).pDiffuse = 1 / 2
      ∧ (CalculateLobePdfs plainSurface).pSpecTrans = 0 := by
  norm_num [CalculateLobePdfs, CalculateLobeWeights, LobeWeights.sum, plainSurface, Saturate]

/-- The lobe probabilities of `coatedSurface`: specular, clearcoat and diffuse, one third each. -/
theorem coatedSurface_lobes :
    (CalculateLobePdfs coatedSurface).pSpecular = 1 / 3
      ∧ (CalculateLobePdfs coatedSurface).pClearcoat = 1 / 3
      ∧ (CalculateLobePdfs coatedSurface).pDiffuse = 1 / 3
      ∧ (CalculateLobePdfs coatedSurface).pSpecTrans = 0 := by
  norm_num [CalculateLobePdfs, CalculateLobeWeights, LobeWeights.sum, coatedSurface,
    plainSurface, Saturate]

/-- The lobe probabilities of `metalSurface`: the specular lobe alone. -/
theorem metalSurface_lobes :
    (CalculateLobePdfs metalSurface).pSpecular = 1
      ∧ (CalculateLobePdfs metalSurface).pClearcoat = 0
      ∧ (CalculateLobePdfs metalSurface).pDiffuse = 0
      ∧ (CalculateLobePdfs metalSurface).pSpecTrans = 0 := by
  norm_num [CalculateLobePdfs, CalculateLobeWeights, LobeWeights.sum, metalSurface,
    plainSurface, Saturate]

/-- A rejected clearcoat sample returns the record it was given. -/
theorem SampleDisneyClearcoat_reject (E : Collaborators) (sampler : CSampler)
    (surface : SurfaceParameters) (v : float3) (sample : BsdfSample)
    (h : (SampleDisneyClearcoat E sampler surface v sample).1 = false) :
    (SampleDisneyClearcoat E sampler surface v sample).2.1 = sample := by
  revert h
  simp only [SampleDisneyClearcoat]
  split_ifs <;> simp

namespace Textbook

theorem Sqrtf_zero : Sqrtf 0 = 0 := by
  have h := Rat.sqrt_eq 0
  rw [mul_zero, abs_zero] at h
  exact h

theorem Sqrtf_one : Sqrtf 1 = 1 := by
  have h := Rat.sqrt_eq 1
  rw [mul_one, abs_one] at h
  exact h

theorem Sqrtf_four : Sqrtf 4 = 2 := by
  have h := Rat.sqrt_eq 2
  rw [show (2 : ℚ) * 2 = 4 by norm_num, show |(2 : ℚ)| = 2 by norm_num] at h
  exact h

end Textbook

/-- At the input `coatedSurface`, `wo = (4/5, 3/5, 0)`, `r0 = r1 = 0` the clearcoat sampler draws
`wm = (0,1,0)`, reflects to `wi = (-4/5, 3/5, 0)` with `Dot(wi, wo) = -7/25` and returns
`false`. -/
theorem SampleDisneyClearcoat_rejects_at_example :
    (SampleDisneyClearcoat Textbook.collaborators (samplerFrom (1 / 2)).UniformFloat.2
        coatedSurface ⟨4 / 5, 3 / 5, 0⟩ usedSample).1 = false := by
  simp only [SampleDisneyClearcoat, Textbook.collaborators, samplerFrom, CSampler.UniformFloat,
    coatedSurface, plainSurface, identity3x3, Textbook.MatrixMultiply, Textbook.Normalize, Dot,
    Textbook.Reflect, float3.add_def, float3.sub_def, float3.neg_def, float3.smul_def,
    float3.mul_scalar_def]
  norm_num [Textbook.Sqrtf_one, Textbook.Sqrtf_zero, Textbook.Powf, Max]

namespace Textbook

theorem MatrixMultiply_identity (v : float3) : MatrixMultiply v identity3x3 = v := by
  simp [MatrixMultiply, identity3x3]

theorem MatrixTranspose_identity : MatrixTranspose identity3x3 = identity3x3 := by
  simp [MatrixTranspose, identity3x3]

theorem Normalize_up : Normalize ⟨0, 1, 0⟩ = ⟨0, 1, 0⟩ := by
  norm_num [Normalize, Dot, Sqrtf_one, float3.mul_scalar_def]

theorem Normalize_two_up : Normalize ⟨0, 2, 0⟩ = ⟨0, 1, 0⟩ := by
  norm_num [Normalize, Dot, Sqrtf_four, float3.mul_scalar_def]

theorem Pi_pos : 0 < Pi_ := by norm_num [Pi_]

/-- With `roughness = 1` and `anisotropic = 0` both GGX widths are `1`. -/
theorem anisotropicParams_one :
    CalculateAnisotropicParams collaborators 1 0 = (1, 1) := by
  norm_num [CalculateAnisotropicParams, collaborators, Sqrtf_one, Max, Square]

theorem GgxAnisotropicD_up : GgxAnisotropicD ⟨0, 1, 0⟩ 1 1 = 1 / Pi_ := by
  norm_num [GgxAnisotropicD, Square]

theorem SeparableSmithGGXG1_up : SeparableSmithGGXG1 ⟨0, 1, 0⟩ ⟨0, 1, 0⟩ 1 1 = 1 := by
  norm_num [SeparableSmithGGXG1, Dot, Square, Sqrtf_one]

theorem GgxVndfAnisotropicPdf_up :
    GgxVndfAnisotropicPdf ⟨0, 1, 0⟩ ⟨0, 1, 0⟩ ⟨0, 1, 0⟩ 1 1 = (1 / Pi_, 1 / Pi_) := by
  norm_num [GgxVndfAnisotropicPdf, GgxAnisotropicD_up, SeparableSmithGGXG1_up, AbsDot, Dot, Absf,
    AbsCosTheta, CosTheta]

theorem SampleGgxVndfAnisotropic_up :
    SampleGgxVndfAnisotropic ⟨0, 1, 0⟩ 1 1 0 0 = ⟨0, 1, 0⟩ := by
  norm_num [SampleGgxVndfAnisotropic, Normalize_up, Sqrtf_zero, Sqrtf_one, Max, Cross,
    float3.add_def, float3.smul_def]

theorem Reflect_up : Reflect ⟨0, 1, 0⟩ ⟨0, 1, 0⟩ = ⟨0, 1, 0⟩ := by
  norm_num [Reflect, Dot, float3.sub_def, float3.smul_def]

end Textbook

theorem tangent_up (s : SurfaceParameters) (h : s.worldToTangent = identity3x3) :
    Textbook.collaborators.Normalize
        (Textbook.collaborators.MatrixMultiply ⟨0, 1, 0⟩ s.worldToTangent) = ⟨0, 1, 0⟩ := by
  rw [h]
  show Textbook.Normalize (Textbook.MatrixMultiply ⟨0, 1, 0⟩ identity3x3) = ⟨0, 1, 0⟩
  rw [Textbook.MatrixMultiply_identity, Textbook.Normalize_up]

theorem half_up :
    Textbook.collaborators.Normalize ((⟨0, 1, 0⟩ : float3) + ⟨0, 1, 0⟩) = ⟨0, 1, 0⟩ := by
  show Textbook.Normalize ((⟨0, 1, 0⟩ : float3) + ⟨0, 1, 0⟩) = ⟨0, 1, 0⟩
  rw [float3.add_def]
  norm_num [Textbook.Normalize_two_up]

theorem EvaluateDisneyBRDF_metal_up :
    (EvaluateDisneyBRDF Textbook.collaborators metalSurface ⟨0, 1, 0⟩ ⟨0, 1, 0⟩ ⟨0, 1, 0⟩).2
      = (1 / (4 * Textbook.Pi_), 1 / (4 * Textbook.Pi_)) := by
  have ha : CalculateAnisotropicParams Textbook.collaborators metalSurface.roughness
      metalSurface.anisotropic = (1, 1) := Textbook.anisotropicParams_one
  have hv : Textbook.collaborators.GgxVndfAnisotropicPdf ⟨0, 1, 0⟩ ⟨0, 1, 0⟩ ⟨0, 1, 0⟩ 1 1
      = (1 / Textbook.Pi_, 1 / Textbook.Pi_) := Textbook.GgxVndfAnisotropicPdf_up
  simp only [EvaluateDisneyBRDF, ha, hv]
  norm_num [CosTheta, AbsDot, Dot, Absf]

/-- The specular sampler on `metalSurface` seen along the normal with `r0 = r1 = 0`: the sampled
normal and the reflected direction are the normal itself. -/
theorem SampleDisneyBRDF_metal_up :
    (SampleDisneyBRDF Textbook.collaborators (samplerFrom (1 / 2)).UniformFloat.2 metalSurface
        ⟨0, 1, 0⟩ usedSample).1 = true
      ∧ (SampleDisneyBRDF Textbook.collaborators (samplerFrom (1 / 2)).UniformFloat.2
          metalSurface ⟨0, 1, 0⟩ usedSample).2.1.wi = ⟨0, 1, 0⟩
      ∧ (SampleDisneyBRDF Textbook.collaborators (samplerFrom (1 / 2)).UniformFloat.2
          metalSurface ⟨0, 1, 0⟩ usedSample).2.1.forwardPdfW = 1 / (4 * Textbook.Pi_) := by
  have ha : CalculateAnisotropicParams Textbook.collaborators metalSurface.roughness
      metalSurface.anisotropic = (1, 1) := Textbook.anisotropicParams_one
  have hwo := tangent_up metalSurface rfl
  have hwm : Textbook.collaborators.SampleGgxVndfAnisotropic ⟨0, 1, 0⟩ 1 1 0 0 = ⟨0, 1, 0⟩ :=
    Textbook.SampleGgxVndfAnisotropic_up
  have hwi : Textbook.collaborators.Normalize
      (Textbook.collaborators.Reflect ⟨0, 1, 0⟩ ⟨0, 1, 0⟩) = ⟨0, 1, 0⟩ := by
    show Textbook.Normalize (Textbook.Reflect ⟨0, 1, 0⟩ ⟨0, 1, 0⟩) = ⟨0, 1, 0⟩
    rw [Textbook.Reflect_up, Textbook.Normalize_up]
  have hback : Textbook.collaborators.Normalize (Textbook.collaborators.MatrixMultiply
      ⟨0, 1, 0⟩ (Textbook.collaborators.MatrixTranspose metalSurface.worldToTangent))
      = ⟨0, 1, 0⟩ := by
    show Textbook.Normalize (Textbook.MatrixMultiply ⟨0, 1, 0⟩
      (Textbook.MatrixTranspose identity3x3)) = ⟨0, 1, 0⟩
    rw [Textbook.MatrixTranspose_identity, Textbook.MatrixMultiply_identity,
      Textbook.Normalize_up]
  have hv : Textbook.collaborators.GgxVndfAnisotropicPdf ⟨0, 1, 0⟩ ⟨0, 1, 0⟩ ⟨0, 1, 0⟩ 1 1
      = (1 / Textbook.Pi_, 1 / Textbook.Pi_) := Textbook.GgxVndfAnisotropicPdf_up
  have hs0 : (samplerFrom (1 / 2)).UniformFloat.2.UniformFloat.1 = 0 := by
    simp [samplerFrom, CSampler.UniformFloat]
  have hs1 : (samplerFrom (1 / 2)).UniformFloat.2.UniformFloat.2.UniformFloat.1 = 0 := by
    simp [samplerFrom, CSampler.UniformFloat]
  simp only [SampleDisneyBRDF, hwo, ha, hs0, hs1, hwm, hwi, hback, hv]
  norm_num [CosTheta, AbsDot, Dot, Absf]

theorem RescaleByLobePdf_wi (pLobe : ℚ) (sample : BsdfSample) :
    (RescaleByLobePdf pLobe sample).wi = sample.wi := by
  unfold RescaleByLobePdf
  split_ifs <;> rfl

theorem RescaleByLobePdf_one_forwardPdfW (sample : BsdfSample) :
    (RescaleByLobePdf 1 sample).forwardPdfW = sample.forwardPdfW := by
  simp [RescaleByLobePdf]

theorem float3.ext_iff3 (a b : float3) : a = b ↔ a.x = b.x ∧ a.y = b.y ∧ a.z = b.z := by
  cases a; cases b; simp

namespace Textbook

theorem SchlickWeight_one : SchlickWeight 1 = 0 := by
  norm_num [SchlickWeight, Saturate]

theorem Dielectric_up : Dielectric 1 1 (3 / 2) = 1 / 25 := by
  norm_num [Dielectric, Max, Sqrtf_zero, Sqrtf_one]

end Textbook

/-- The Fresnel term of a white dielectric with `ior = 1.5` seen along the normal is
`((1.5 - 1)/(1.5 + 1))² = 1/25`. -/
theorem DisneyFresnel_dielectric_up (s : SurfaceParameters)
    (hb : s.baseColor = ⟨1, 1, 1⟩) (hrel : s.relativeIOR = 2 / 3) (hst : s.specularTint = 0)
    (hm : s.metallic = 0) (hior : s.ior = 3 / 2) :
    DisneyFresnel Textbook.collaborators s ⟨0, 1, 0⟩ ⟨0, 1, 0⟩ ⟨0, 1, 0⟩
      = float3.splat (1 / 25) := by
  simp only [DisneyFresnel, Textbook.collaborators, hb, hrel, hst, hm, hior, Dot, CalculateTint]
  norm_num [Textbook.Dielectric_up, Textbook.Schlick3, Textbook.Schlick,
    Textbook.SchlickWeight_one, Textbook.SchlickR0FromRelativeIOR, Square, Lerp3, Lerp,
    float3.splat, float3.smul_def, float3.mul_scalar_def]

/-- The specular term of that dielectric with `roughness = 1`, both directions along the normal:
`D G1 G1 F / 4 = 1 / (100 π)`. -/
theorem EvaluateDisneyBRDF_dielectric_up (s : SurfaceParameters)
    (hb : s.baseColor = ⟨1, 1, 1⟩) (hrel : s.relativeIOR = 2 / 3) (hst : s.specularTint = 0)
    (hm : s.metallic = 0) (hior : s.ior = 3 / 2) (hr : s.roughness = 1)
    (han : s.anisotropic = 0) :
    (EvaluateDisneyBRDF Textbook.collaborators s ⟨0, 1, 0⟩ ⟨0, 1, 0⟩ ⟨0, 1, 0⟩).1
      = float3.splat (1 / (100 * Textbook.Pi_)) := by
  have ha : CalculateAnisotropicParams Textbook.collaborators 1 0 = (1, 1) :=
    Textbook.anisotropicParams_one
  have hd : Textbook.collaborators.GgxAnisotropicD ⟨0, 1, 0⟩ 1 1 = 1 / Textbook.Pi_ :=
    Textbook.GgxAnisotropicD_up
  have hg : Textbook.collaborators.SeparableSmithGGXG1 ⟨0, 1, 0⟩ ⟨0, 1, 0⟩ 1 1 = 1 :=
    Textbook.SeparableSmithGGXG1_up
  simp only [EvaluateDisneyBRDF, DisneyFresnel_dielectric_up s hb hrel hst hm hior]
  simp only [hr, han, ha, hd, hg]
  norm_num [CosTheta, float3.splat, float3.smul_def, float3.div_scalar_def]
  ring

namespace float3

theorem Nonneg.mul {a b : float3} (ha : a.Nonneg) (hb : b.Nonneg) : (a * b).Nonneg :=
  ⟨mul_nonneg ha.1 hb.1, mul_nonneg ha.2.1 hb.2.1, mul_nonneg ha.2.2 hb.2.2⟩

theorem Nonneg.splat {s : ℚ} (hs : 0 ≤ s) : (float3.splat s).Nonneg := ⟨hs, hs, hs⟩

end float3

namespace Textbook

end Textbook

/-- The divisor `π r² vmCount` of `vmNormalization` and `vcWeight` is positive for a radius that is
not zero and a positive count. -/
theorem vm_divisor_pos (E : Collaborators) (vmCount : ℕ) (r : ℚ) (hPi : 0 < E.Pi_)
    (hr : r ≠ 0) (hvm : 0 < vmCount) : 0 < E.Pi_ * (r * r) * vmCount := by
  have h1 : 0 < r * r := mul_self_pos.mpr hr
  have h2 : (0 : ℚ) < vmCount := by exact_mod_cast hvm
  exact mul_pos (mul_pos hPi h1) h2

theorem SearchRadius_ne_zero (E : Collaborators) (baseRadius radiusAlpha iterationIndex : ℚ)
    (hPowf : ∀ x e, 0 < x → 0 < E.Powf x e) (hb : 0 < baseRadius) (hi : 1 ≤ iterationIndex) :
    SearchRadius E baseRadius radiusAlpha iterationIndex ≠ 0 := by
  have hp := hPowf iterationIndex (0.5 * (1 - radiusAlpha)) (by linarith)
  simp only [SearchRadius]
  exact ne_of_gt (div_pos hb hp)

namespace Textbook

theorem Powf_pos (x e : ℚ) (hx : 0 < x) : 0 < Powf x e := by
  simp only [Powf]
  exact zpow_pos hx _

theorem Powf_mono (x y e : ℚ) (hx : 0 < x) (hxy : x ≤ y) (he : 0 ≤ e) :
    Powf x e ≤ Powf y e := by
  simp only [Powf]
  have hfl : 0 ≤ ⌊e⌋ := Int.floor_nonneg.mpr he
  obtain ⟨n, hn⟩ := Int.eq_ofNat_of_zero_le hfl
  rw [hn, zpow_natCast, zpow_natCast]
  exact pow_le_pow_left₀ (le_of_lt hx) hxy n

theorem Sqrtf_sixteenth : Sqrtf (1 / 16) = 1 / 4 := by
  have h := Rat.sqrt_eq (1 / 4)
  rw [show (1 / 4 : ℚ) * (1 / 4) = 1 / 16 by norm_num,
    show |(1 / 4 : ℚ)| = 1 / 4 by norm_num [abs_of_pos]] at h
  exact h

theorem Sqrtf_quarter : Sqrtf (1 / 4) = 1 / 2 := by
  have h := Rat.sqrt_eq (1 / 2)
  rw [show (1 / 2 : ℚ) * (1 / 2) = 1 / 4 by norm_num,
    show |(1 / 2 : ℚ)| = 1 / 2 by norm_num [abs_of_pos]] at h
  exact h

end Textbook

/-- The search radius of a larger index is not larger, for every positive index. -/
theorem SearchRadius_le_of_le (E : Collaborators) (baseRadius radiusAlpha i j : ℚ)
    (hPos : ∀ x e, 0 < x → 0 < E.Powf x e)
    (hMono : ∀ x y e, 0 < x → x ≤ y → 0 ≤ e → E.Powf x e ≤ E.Powf y e)
    (hb : 0 ≤ baseRadius) (ha1 : radiusAlpha < 1) (hi : 0 < i) (hij : i ≤ j) :
    SearchRadius E baseRadius radiusAlpha j ≤ SearchRadius E baseRadius radiusAlpha i := by
  have he : (0 : ℚ) ≤ 0.5 * (1 - radiusAlpha) := by
    have : (0 : ℚ) ≤ 1 - radiusAlpha := by linarith
    norm_num
    linarith
  have hpi := hPos i (0.5 * (1 - radiusAlpha)) hi
  have hle := hMono i j (0.5 * (1 - radiusAlpha)) hi hij he
  simp only [SearchRadius]
  exact div_le_div_of_nonneg_left hb hpi hle

theorem rootCollaborators_Powf (b e : ℚ) : rootCollaborators.Powf b e = Textbook.PowfRoot b e :=
  rfl

theorem PathState.packIndex_of_lt (bits value : ℕ) (h : value < 2 ^ bits) :
    PathState.packIndex bits value = value := by
  simp only [PathState.packIndex]
  exact Nat.mod_eq_of_lt h

theorem PathState.packIndex_lt (bits value : ℕ) : PathState.packIndex bits value < 2 ^ bits := by
  simp only [PathState.packIndex]
  exact Nat.mod_lt _ (Nat.pos_of_ne_zero (by positivity))

/-- The assertion of `GenerateCameraSample` reads the packed field after the store, so it holds on
every input: the call always returns its state. -/
theorem GenerateCameraSample_eq (bits : ℕ) (context : GIIntegratorContext) (x y : ℕ)
    (lightPathCount : ℚ) :
    GenerateCameraSample bits context x y lightPathCount
      = some
          { position := (context.JitteredCameraRay x y).origin
            direction := (context.JitteredCameraRay x y).direction
            throughput := float3.One_
            dVCM := lightPathCount
              * (1 / (context.camera.virtualImagePlaneDistance
                    / Dot context.camera.forward (context.JitteredCameraRay x y).direction
                  * (context.camera.virtualImagePlaneDistance
                    / Dot context.camera.forward (context.JitteredCameraRay x y).direction)
                  / Dot context.camera.forward (context.JitteredCameraRay x y).direction))
            dVC := 0
            dVM := 0
            pathLength := 1
            isAreaMeasure := 1
            index := PathState.packIndex bits
              ((y * context.camera.viewportWidth + x) % 2 ^ 32) } := by
  simp only [GenerateCameraSample]
  rw [if_pos (PathState.packIndex_lt _ _)]

/-- The state that `GenerateLightSample` writes for an index that passes its assertion. -/
theorem GenerateLightSample_of_lt (bits : ℕ) (context : GIIntegratorContext) (vcWeight : ℚ)
    (index : ℕ) (h : index < 2 ^ bits) :
    GenerateLightSample bits context vcWeight index
      = some
          { position := context.EmitIblLightSample.position
            direction := context.EmitIblLightSample.direction
            throughput :=
              context.EmitIblLightSample.radiance / context.EmitIblLightSample.emissionPdfW
            dVCM :=
              context.EmitIblLightSample.directionPdfA / context.EmitIblLightSample.emissionPdfW
            dVC :=
              context.EmitIblLightSample.cosThetaLight / context.EmitIblLightSample.emissionPdfW
            dVM :=
              context.EmitIblLightSample.cosThetaLight / context.EmitIblLightSample.emissionPdfW
                * vcWeight
            pathLength := 1
            isAreaMeasure := 0
            index := index } := by
  simp only [GenerateLightSample]
  rw [if_pos h, PathState.packIndex_of_lt _ _ h]
  simp only [mul_one, float3.mul_scalar_def, float3.div_scalar_def, mul_one_div]

/-! ### Unit length of the sampled direction -/

theorem float3.ne_zero_of_y (u : float3) (h : u.y ≠ 0) : u ≠ float3.Zero_ := by
  intro hu
  rw [hu] at h
  exact h rfl

theorem float3.dot_self_pos (u : float3) (h : u ≠ float3.Zero_) : 0 < Dot u u := by
  rcases u with ⟨x, y, z⟩
  simp only [Dot]
  by_contra hn
  have hx := mul_self_nonneg x
  have hy := mul_self_nonneg y
  have hz := mul_self_nonneg z
  have h0 : x * x = 0 ∧ y * y = 0 ∧ z * z = 0 := by
    refine ⟨?_, ?_, ?_⟩ <;> linarith
  apply h
  have ex : x = 0 := mul_self_eq_zero.mp h0.1
  have ey : y = 0 := mul_self_eq_zero.mp h0.2.1
  have ez : z = 0 := mul_self_eq_zero.mp h0.2.2
  simp only [ex, ey, ez, float3.Zero_]

theorem float3.ne_zero_of_dot_self (u : float3) (h : Dot u u ≠ 0) : u ≠ float3.Zero_ := by
  intro hu
  apply h
  rw [hu]
  simp [Dot, float3.Zero_]

/-- A row vector keeps its length under a matrix with orthonormal rows. -/
theorem MatrixMultiply_dot_self (u : float3) (m : float3x3) (h : m.RowsOrthonormal) :
    Dot (Textbook.MatrixMultiply u m) (Textbook.MatrixMultiply u m) = Dot u u := by
  obtain ⟨h00, h11, h22, h01, h02, h12⟩ := h
  simp only [Dot, Textbook.MatrixMultiply] at *
  linear_combination u.x ^ 2 * h00 + u.y ^ 2 * h11 + u.z ^ 2 * h22 + 2 * u.x * u.y * h01
    + 2 * u.x * u.z * h02 + 2 * u.y * u.z * h12

theorem MatrixMultiply_ne_zero (u : float3) (m : float3x3) (h : m.RowsOrthonormal)
    (hu : u ≠ float3.Zero_) : Textbook.MatrixMultiply u m ≠ float3.Zero_ := by
  apply float3.ne_zero_of_dot_self
  rw [MatrixMultiply_dot_self u m h]
  exact ne_of_gt (float3.dot_self_pos u hu)

/-- The last step of every lobe sampler: a tangent-space direction that is not zero comes back
as a unit vector in world space. -/
theorem wi_unit_of_ne_zero (E : Collaborators) (surface : SurfaceParameters) (wi : float3)
    (hMul : E.MatrixMultiply = Textbook.MatrixMultiply)
    (hTr : E.MatrixTranspose = Textbook.MatrixTranspose)
    (hNorm : ∀ u, u ≠ float3.Zero_ → Dot (E.Normalize u) (E.Normalize u) = 1)
    (hW : surface.worldToTangent.Orthonormal) (hwi : wi ≠ float3.Zero_) :
    Dot (E.Normalize (E.MatrixMultiply wi (E.MatrixTranspose surface.worldToTangent)))
      (E.Normalize (E.MatrixMultiply wi (E.MatrixTranspose surface.worldToTangent))) = 1 := by
  rw [hMul, hTr]
  exact hNorm _ (MatrixMultiply_ne_zero wi _ hW.2 hwi)

theorem SampleDisneyBRDF_wi_unit (E : Collaborators) (sampler : CSampler)
    (surface : SurfaceParameters) (v : float3) (sample : BsdfSample)
    (hMul : E.MatrixMultiply = Textbook.MatrixMultiply)
    (hTr : E.MatrixTranspose = Textbook.MatrixTranspose)
    (hNorm : ∀ u, u ≠ float3.Zero_ → Dot (E.Normalize u) (E.Normalize u) = 1)
    (hW : surface.worldToTangent.Orthonormal)
    (hOk : (SampleDisneyBRDF E sampler surface v sample).1 = true) :
    Dot (SampleDisneyBRDF E sampler surface v sample).2.1.wi
      (SampleDisneyBRDF E sampler surface v sample).2.1.wi = 1 := by
  simp only [SampleDisneyBRDF] at hOk ⊢
  split_ifs at hOk ⊢ with hc
  apply wi_unit_of_ne_zero E surface _ hMul hTr hNorm hW
  apply float3.ne_zero_of_y
  intro h0
  apply hc
  simp only [CosTheta, h0, le_refl]

/-- A sampler that ends in `if c then (false, ...) else X` and reports success took the branch
`X`. -/
theorem ite_false_left (c : Prop) [Decidable c] (A : BsdfSample × CSampler)
    (X : Bool × BsdfSample × CSampler)
    (hOk : (if c then ((false, A) : Bool × BsdfSample × CSampler) else X).1 = true) :
    ¬c ∧ (if c then ((false, A) : Bool × BsdfSample × CSampler) else X) = X := by
  by_cases h : c
  · rw [if_pos h] at hOk
    exact absurd hOk (by simp)
  · exact ⟨h, if_neg h⟩

theorem SampleDisneyDiffuse_wi_unit (E : Collaborators) (sampler : CSampler)
    (surface : SurfaceParameters) (v : float3) (thin : Bool) (sample : BsdfSample)
    (hMul : E.MatrixMultiply = Textbook.MatrixMultiply)
    (hTr : E.MatrixTranspose = Textbook.MatrixTranspose)
    (hNorm : ∀ u, u ≠ float3.Zero_ → Dot (E.Normalize u) (E.Normalize u) = 1)
    (hW : surface.worldToTangent.Orthonormal)
    (hOk : (SampleDisneyDiffuse E sampler surface v thin sample).1 = true) :
    Dot (SampleDisneyDiffuse E sampler surface v thin sample).2.1.wi
      (SampleDisneyDiffuse E sampler surface v thin sample).2.1.wi = 1 := by
  simp only [SampleDisneyDiffuse] at hOk ⊢
  obtain ⟨hc, he⟩ := ite_false_left _ _ _ hOk
  rw [he]
  apply wi_unit_of_ne_zero E surface _ hMul hTr hNorm hW
  apply float3.ne_zero_of_y
  simp only [CosTheta] at hc
  split_ifs
  · simpa only [float3.neg_def, ne_eq, neg_eq_zero] using hc
  · simpa only [float3.neg_def, ne_eq, neg_eq_zero] using hc
  · exact hc

theorem SampleDisneySpecTransmission_wi_unit (E : Collaborators) (sampler : CSampler)
    (surface : SurfaceParameters) (v : float3) (thin : Bool) (sample : BsdfSample)
    (hMul : E.MatrixMultiply = Textbook.MatrixMultiply)
    (hTr : E.MatrixTranspose = Textbook.MatrixTranspose)
    (hNorm : ∀ u, u ≠ float3.Zero_ → Dot (E.Normalize u) (E.Normalize u) = 1)
    (hW : surface.worldToTangent.Orthonormal)
    (hOk : (SampleDisneySpecTransmission E sampler surface v thin sample).1 = true) :
    Dot (SampleDisneySpecTransmission E sampler surface v thin sample).2.1.wi
      (SampleDisneySpecTransmission E sampler surface v thin sample).2.1.wi = 1 := by
  simp only [SampleDisneySpecTransmission] at hOk ⊢
  obtain ⟨hc1, he1⟩ := ite_false_left _ _ _ hOk
  rw [he1] at hOk ⊢
  obtain ⟨hc2, he2⟩ := ite_false_left _ _ _ hOk
  rw [he2]
  exact wi_unit_of_ne_zero E surface _ hMul hTr hNorm hW (float3.ne_zero_of_y _ hc2)

theorem Dot_neg_neg (a : float3) : Dot (-a) (-a) = Dot a a := by
  simp only [Dot, float3.neg_def]
  ring

/-- The mirror image of a vector that is not zero about a vector of length at least 1 is not
zero. -/
theorem Reflect_ne_zero (n l : float3) (hn : 1 ≤ Dot n n) (hl : l ≠ float3.Zero_) :
    Textbook.Reflect n l ≠ float3.Zero_ := by
  intro h
  simp only [Textbook.Reflect, float3.smul_def, float3.sub_def, float3.Zero_,
    float3.mk.injEq] at h
  obtain ⟨hx, hy, hz⟩ := h
  have hc : Dot n l * (2 * Dot n n - 1) = 0 := by
    simp only [Dot] at hx hy hz ⊢
    linear_combination n.x * hx + n.y * hy + n.z * hz
  have hc0 : Dot n l = 0 := by
    rcases mul_eq_zero.mp hc with h0 | h0
    · exact h0
    · linarith
  rw [hc0] at hx hy hz
  apply hl
  rcases l with ⟨lx, ly, lz⟩
  simp only [float3.Zero_, float3.mk.injEq]
  simp only [mul_zero, zero_mul, zero_sub, neg_eq_zero] at hx hy hz
  exact ⟨hx, hy, hz⟩

theorem SampleDisneyClearcoat_wi_unit (E : Collaborators) (sampler : CSampler)
    (surface : SurfaceParameters) (v : float3) (sample : BsdfSample)
    (hMul : E.MatrixMultiply = Textbook.MatrixMultiply)
    (hTr : E.MatrixTranspose = Textbook.MatrixTranspose)
    (hRefl : E.Reflect = Textbook.Reflect)
    (hNorm : ∀ u, u ≠ float3.Zero_ → Dot (E.Normalize u) (E.Normalize u) = 1)
    (hNormal : 1 ≤ Dot
      (SampleClearcoatNormal E sampler.UniformFloat.1 sampler.UniformFloat.2.UniformFloat.1)
      (SampleClearcoatNormal E sampler.UniformFloat.1 sampler.UniformFloat.2.UniformFloat.1))
    (hW : surface.worldToTangent.Orthonormal) (hv : v ≠ float3.Zero_)
    (hOk : (SampleDisneyClearcoat E sampler surface v sample).1 = true) :
    Dot (SampleDisneyClearcoat E sampler surface v sample).2.1.wi
      (SampleDisneyClearcoat E sampler surface v sample).2.1.wi = 1 := by
  have hwo : E.Normalize (E.MatrixMultiply v surface.worldToTangent) ≠ float3.Zero_ := by
    apply float3.ne_zero_of_dot_self
    rw [hNorm _ (by rw [hMul]; exact MatrixMultiply_ne_zero v _ hW.1 hv)]
    exact one_ne_zero
  simp only [SampleClearcoatNormal] at hNormal
  simp only [SampleDisneyClearcoat] at hOk ⊢
  obtain ⟨hc, he⟩ := ite_false_left _ _ _ hOk
  rw [he]
  apply wi_unit_of_ne_zero E surface _ hMul hTr hNorm hW
  rw [hRefl]
  apply Reflect_ne_zero _ _ _ hwo
  split_ifs
  · rw [Dot_neg_neg]
    exact hNormal
  · exact hNormal

theorem NormalizeUnit_unit (u : float3) :
    Dot (Textbook.NormalizeUnit u) (Textbook.NormalizeUnit u) = 1 := by
  simp only [Textbook.NormalizeUnit]
  split_ifs with h
  · exact h
  · norm_num [Dot]

theorem NormalizeUnit_up : Textbook.NormalizeUnit ⟨0, 1, 0⟩ = ⟨0, 1, 0⟩ := by
  simp only [Textbook.NormalizeUnit, Textbook.Normalize_up, ite_self]

theorem identity3x3_Orthonormal : identity3x3.Orthonormal := by
  norm_num [float3x3.Orthonormal, float3x3.RowsOrthonormal, Textbook.MatrixTranspose,
    identity3x3, Dot]

/-- With both variates 0 the clearcoat half vector is the up vector. -/
theorem SampleClearcoatNormal_zero :
    SampleClearcoatNormal unitCollaborators 0 0 = ⟨0, 1, 0⟩ := by
  simp only [SampleClearcoatNormal, unitCollaborators, Textbook.collaborators]
  norm_num [Textbook.Sqrtf_one, Textbook.Sqrtf_zero, Textbook.Powf, Max]

/-- At `coatedSurface`, `v = (0,1,0)` and the variates `1/2, 0, 0` the clearcoat lobe is chosen
and its sampler returns `true`. -/
theorem SampleDisney_coated_up_succeeds :
    (SampleDisney unitCollaborators (samplerFrom (1 / 2)) coatedSurface ⟨0, 1, 0⟩ false
      usedSample).1 = true := by
  rw [SampleDisney_eq_SampleLobe]
  have hl : SelectLobe (CalculateLobePdfs coatedSurface) (samplerFrom (1 / 2)).UniformFloat.1
      = Lobe.clearcoat := by
    obtain ⟨h1, h2, h3, h4⟩ := coatedSurface_lobes
    simp only [SelectLobe, h1, h2, h3, h4, samplerFrom, CSampler.UniformFloat]
    norm_num
  simp only [hl, SampleLobe]
  simp only [SampleDisneyClearcoat, unitCollaborators, Textbook.collaborators, samplerFrom,
    CSampler.UniformFloat, coatedSurface, plainSurface, identity3x3, Textbook.MatrixMultiply,
    Dot, Textbook.Reflect, float3.add_def, float3.sub_def, float3.neg_def, float3.smul_def,
    float3.mul_scalar_def]
  norm_num [Textbook.Sqrtf_one, Textbook.Sqrtf_zero, Textbook.Powf, Max, NormalizeUnit_up]

/-- The first overload is the second one at the model data that `ModelDataFromRayIds` returns and
the filter of the Ptex texture of that model. -/
theorem CalculateSurfaceParams_eq_Resolved (E : Collaborators) (S : SceneCollaborators)
    (hit : HitParameters) (surface : SurfaceParameters) :
    CalculateSurfaceParams E S hit surface
      = CalculateSurfaceParamsResolved E S hit (S.ModelDataFromRayIds hit.instId hit.geomId).2
          (S.ModelDataFromRayIds hit.instId hit.geomId).1
          (S.FetchPtexFilter (S.ModelDataFromRayIds hit.instId hit.geomId).2.baseColorTextureHandle)
          surface := rfl

theorem Saturate_eq_clamp (x : ℚ) : Saturate x = max 0 (min x 1) := by
  simp only [Saturate]
  split_ifs with h1 h2
  · rw [min_eq_left (by linarith), max_eq_left h1.le]
  · rw [min_eq_right h2.le, max_eq_right zero_le_one]
  · rw [min_eq_left (not_lt.mp h2), max_eq_right (not_lt.mp h1)]

theorem Max_eq_max (a b : ℚ) : Max a b = max a b := by
  simp only [Max]
  split_ifs with h
  · exact (max_eq_right h.le).symm
  · exact (max_eq_left (not_lt.mp h)).symm

theorem FrameNormal_backHit :
    FrameNormal Textbook.collaborators Textbook.scene backHit glassModel identity4x4
      = ⟨0, 1, 0⟩ := by
  simp only [FrameNormal, Textbook.scene, glassModel, backHit, Textbook.MatrixMultiplyVector,
    identity4x4, Textbook.collaborators]
  norm_num [Textbook.Normalize_up]

/-! ### The sampler after a call -/

theorem CSampler.UniformFloat_stream (s : CSampler) : s.UniformFloat.2.stream = s.stream := rfl

theorem CSampler.UniformFloat_drawn (s : CSampler) : s.UniformFloat.2.drawn = s.drawn + 1 := rfl

theorem SampleDisneyBRDF_sampler (E : Collaborators) (sampler : CSampler)
    (surface : SurfaceParameters) (v : float3) (sample : BsdfSample) :
    (SampleDisneyBRDF E sampler surface v sample).2.2
      = sampler.UniformFloat.2.UniformFloat.2 := by
  simp only [SampleDisneyBRDF, apply_ite Prod.snd, ite_self]

theorem SampleDisneyClearcoat_sampler (E : Collaborators) (sampler : CSampler)
    (surface : SurfaceParameters) (v : float3) (sample : BsdfSample) :
    (SampleDisneyClearcoat E sampler surface v sample).2.2
      = sampler.UniformFloat.2.UniformFloat.2 := by
  simp only [SampleDisneyClearcoat, apply_ite Prod.snd, ite_self]

theorem SampleDisneyDiffuse_sampler (E : Collaborators) (sampler : CSampler)
    (surface : SurfaceParameters) (v : float3) (thin : Bool) (sample : BsdfSample) :
    (SampleDisneyDiffuse E sampler surface v thin sample).2.2
      = if CosTheta (E.Sign (CosTheta (E.MatrixMultiply v surface.worldToTangent))
            * SampleCosineWeightedHemisphere E sampler.UniformFloat.1
                sampler.UniformFloat.2.UniformFloat.1) = 0
        then sampler.UniformFloat.2.UniformFloat.2
        else sampler.UniformFloat.2.UniformFloat.2.UniformFloat.2 := by
  simp only [SampleDisneyDiffuse, apply_ite Prod.snd]

theorem SampleDisneySpecTransmission_sampler (E : Collaborators) (sampler : CSampler)
    (surface : SurfaceParameters) (v : float3) (thin : Bool) (sample : BsdfSample) :
    (SampleDisneySpecTransmission E sampler surface v thin sample).2.2
      = if CosTheta (E.MatrixMultiply v surface.worldToTangent) = 0 then sampler
        else sampler.UniformFloat.2.UniformFloat.2.UniformFloat.2 := by
  simp only [SampleDisneySpecTransmission, apply_ite Prod.snd, ite_self]

/-! ### The branches inside the lobe samplers -/

theorem SampleDisneySpecTransmission_eq_branch (E : Collaborators) (sampler : CSampler)
    (surface : SurfaceParameters) (v : float3) (thin : Bool) (sample : BsdfSample) :
    SampleDisneySpecTransmission E sampler surface v thin sample
      = if CosTheta (E.MatrixMultiply v surface.worldToTangent) = 0 then
          (false, { sample with forwardPdfW := 0, reversePdfW := 0, reflectance := float3.Zero_,
                                wi := float3.Zero_ }, sampler)
        else
          if CosTheta (SpecTransmissionBranch E sampler surface v thin sample).1 = 0 then
            (false,
              { (SpecTransmissionBranch E sampler surface v thin sample).2.2 with
                  forwardPdfW := 0, reversePdfW := 0, reflectance := float3.Zero_,
                  wi := float3.Zero_ },
              sampler.UniformFloat.2.UniformFloat.2.UniformFloat.2)
          else
            (true,
              { (SpecTransmissionBranch E sampler surface v thin sample).2.2 with
                  flags :=
                    if surface.roughness < 0.01 then
                      (SpecTransmissionBranch E sampler surface v thin sample).2.2.flags.or
                        SurfaceEventFlags.eDiracEvent
                    else (SpecTransmissionBranch E sampler surface v thin sample).2.2.flags
                  forwardPdfW :=
                    (E.GgxVndfAnisotropicPdf
                        (SpecTransmissionBranch E sampler surface v thin sample).1
                        (SpecTransmissionNormal E sampler surface v thin)
                        (E.MatrixMultiply v surface.worldToTangent)
                        (CalculateAnisotropicParams E
                          (if thin then ThinTransmissionRoughness surface.ior surface.roughness
                           else surface.roughness) surface.anisotropic).1
                        (CalculateAnisotropicParams E
                          (if thin then ThinTransmissionRoughness surface.ior surface.roughness
                           else surface.roughness) surface.anisotropic).2).1
                      * (SpecTransmissionBranch E sampler surface v thin sample).2.1
                  reversePdfW :=
                    (E.GgxVndfAnisotropicPdf
                        (SpecTransmissionBranch E sampler surface v thin sample).1
                        (SpecTransmissionNormal E sampler surface v thin)
                        (E.MatrixMultiply v surface.worldToTangent)
                        (CalculateAnisotropicParams E
                          (if thin then ThinTransmissionRoughness surface.ior surface.roughness
                           else surface.roughness) surface.anisotropic).1
                        (CalculateAnisotropicParams E
                          (if thin then ThinTransmissionRoughness surface.ior surface.roughness
                           else surface.roughness) surface.anisotropic).2).2
                      * (SpecTransmissionBranch E sampler surface v thin sample).2.1
                  wi := E.Normalize (E.MatrixMultiply
                    (SpecTransmissionBranch E sampler surface v thin sample).1
                    (E.MatrixTranspose surface.worldToTangent)) },
              sampler.UniformFloat.2.UniformFloat.2.UniformFloat.2) := rfl

theorem SampleDisneyDiffuse_eq_branch (E : Collaborators) (sampler : CSampler)
    (surface : SurfaceParameters) (v : float3) (thin : Bool) (sample : BsdfSample) :
    SampleDisneyDiffuse E sampler surface v thin sample
      = if CosTheta (DiffuseDirection E sampler surface v) = 0 then
          (false, { sample with forwardPdfW := 0, reversePdfW := 0, reflectance := float3.Zero_,
                                wi := float3.Zero_ }, sampler.UniformFloat.2.UniformFloat.2)
        else
          (true,
            { (DiffuseBranch E sampler surface v thin sample).2.2.2.2 with
                reflectance :=
                  EvaluateSheen E surface (E.MatrixMultiply v surface.worldToTangent)
                      (E.Normalize (DiffuseDirection E sampler surface v
                        + E.MatrixMultiply v surface.worldToTangent))
                      (DiffuseBranch E sampler surface v thin sample).1
                    + (DiffuseBranch E sampler surface v thin sample).2.2.1
                      * (EvaluateDisneyDiffuse E surface (E.MatrixMultiply v surface.worldToTangent)
                          (E.Normalize (DiffuseDirection E sampler surface v
                            + E.MatrixMultiply v surface.worldToTangent))
                          (DiffuseBranch E sampler surface v thin sample).1 thin
                        / (DiffuseBranch E sampler surface v thin sample).2.1)
                wi := E.Normalize (E.MatrixMultiply
                  (DiffuseBranch E sampler surface v thin sample).1
                  (E.MatrixTranspose surface.worldToTangent))
                forwardPdfW := Absf (CosTheta (DiffuseDirection E sampler surface v))
                  * (DiffuseBranch E sampler surface v thin sample).2.1
                reversePdfW := Absf (CosTheta (E.MatrixMultiply v surface.worldToTangent))
                  * (DiffuseBranch E sampler surface v thin sample).2.1
                flags := (DiffuseBranch E sampler surface v thin sample).2.2.2.1 },
            sampler.UniformFloat.2.UniformFloat.2.UniformFloat.2) := rfl

/-- What a successful `SampleDisneySpecTransmission` call writes to the flags, the medium and the
direction. -/
theorem SampleDisneySpecTransmission_of_success (E : Collaborators) (sampler : CSampler)
    (surface : SurfaceParameters) (v : float3) (thin : Bool) (sample : BsdfSample)
    (hOk : (SampleDisneySpecTransmission E sampler surface v thin sample).1 = true) :
    CosTheta (E.MatrixMultiply v surface.worldToTangent) ≠ 0
      ∧ CosTheta (SpecTransmissionBranch E sampler surface v thin sample).1 ≠ 0
      ∧ (SampleDisneySpecTransmission E sampler surface v thin sample).2.1.flags
          = (if surface.roughness < 0.01 then
              (SpecTransmissionBranch E sampler surface v thin sample).2.2.flags.or
                SurfaceEventFlags.eDiracEvent
             else (SpecTransmissionBranch E sampler surface v thin sample).2.2.flags)
      ∧ (SampleDisneySpecTransmission E sampler surface v thin sample).2.1.medium
          = (SpecTransmissionBranch E sampler surface v thin sample).2.2.medium
      ∧ (SampleDisneySpecTransmission E sampler surface v thin sample).2.1.wi
          = E.Normalize (E.MatrixMultiply
              (SpecTransmissionBranch E sampler surface v thin sample).1
              (E.MatrixTranspose surface.worldToTangent)) := by
  rw [SampleDisneySpecTransmission_eq_branch] at hOk ⊢
  obtain ⟨hc1, he1⟩ := ite_false_left _ _ _ hOk
  rw [he1] at hOk ⊢
  obtain ⟨hc2, he2⟩ := ite_false_left _ _ _ hOk
  rw [he2]
  exact ⟨hc1, hc2, rfl, rfl, rfl⟩

/-- The converse: the two cosine tests decide the success of the call. -/
theorem SampleDisneySpecTransmission_success (E : Collaborators) (sampler : CSampler)
    (surface : SurfaceParameters) (v : float3) (thin : Bool) (sample : BsdfSample)
    (h1 : CosTheta (E.MatrixMultiply v surface.worldToTangent) ≠ 0)
    (h2 : CosTheta (SpecTransmissionBranch E sampler surface v thin sample).1 ≠ 0) :
    (SampleDisneySpecTransmission E sampler surface v thin sample).1 = true := by
  rw [SampleDisneySpecTransmission_eq_branch, if_neg h1, if_neg h2]

/-- What a successful `SampleDisneyDiffuse` call writes. -/
theorem SampleDisneyDiffuse_of_success (E : Collaborators) (sampler : CSampler)
    (surface : SurfaceParameters) (v : float3) (thin : Bool) (sample : BsdfSample)
    (hOk : (SampleDisneyDiffuse E sampler surface v thin sample).1 = true) :
    CosTheta (DiffuseDirection E sampler surface v) ≠ 0
      ∧ (SampleDisneyDiffuse E sampler surface v thin sample).2.1.flags
          = (DiffuseBranch E sampler surface v thin sample).2.2.2.1
      ∧ (SampleDisneyDiffuse E sampler surface v thin sample).2.1.medium
          = (DiffuseBranch E sampler surface v thin sample).2.2.2.2.medium
      ∧ (SampleDisneyDiffuse E sampler surface v thin sample).2.1.wi
          = E.Normalize (E.MatrixMultiply (DiffuseBranch E sampler surface v thin sample).1
              (E.MatrixTranspose surface.worldToTangent))
      ∧ (SampleDisneyDiffuse E sampler surface v thin sample).2.1.reflectance
          = EvaluateSheen E surface (E.MatrixMultiply v surface.worldToTangent)
                (E.Normalize (DiffuseDirection E sampler surface v
                  + E.MatrixMultiply v surface.worldToTangent))
                (DiffuseBranch E sampler surface v thin sample).1
              + (DiffuseBranch E sampler surface v thin sample).2.2.1
                * (EvaluateDisneyDiffuse E surface (E.MatrixMultiply v surface.worldToTangent)
                    (E.Normalize (DiffuseDirection E sampler surface v
                      + E.MatrixMultiply v surface.worldToTangent))
                    (DiffuseBranch E sampler surface v thin sample).1 thin
                  / (DiffuseBranch E sampler surface v thin sample).2.1) := by
  rw [SampleDisneyDiffuse_eq_branch] at hOk ⊢
  obtain ⟨hc, he⟩ := ite_false_left _ _ _ hOk
  rw [he]
  exact ⟨hc, rfl, rfl, rfl, rfl⟩

theorem SampleDisneyDiffuse_success (E : Collaborators) (sampler : CSampler)
    (surface : SurfaceParameters) (v : float3) (thin : Bool) (sample : BsdfSample)
    (h : CosTheta (DiffuseDirection E sampler surface v) ≠ 0) :
    (SampleDisneyDiffuse E sampler surface v thin sample).1 = true := by
  rw [SampleDisneyDiffuse_eq_branch, if_neg h]

/-- No branch of lines 387-429 sets the Dirac flag. -/
theorem SpecTransmissionBranch_diracEvent (E : Collaborators) (sampler : CSampler)
    (surface : SurfaceParameters) (v : float3) (thin : Bool) (sample : BsdfSample) :
    (SpecTransmissionBranch E sampler surface v thin sample).2.2.flags.diracEvent = false := by
  simp only [SpecTransmissionBranch]
  split_ifs
  all_goals first | rfl | (split <;> rfl)

/-- On a thin surface both branches of lines 387-429 write the scatter flag and leave the
medium alone. -/
theorem SpecTransmissionBranch_thin (E : Collaborators) (sampler : CSampler)
    (surface : SurfaceParameters) (v : float3) (sample : BsdfSample) :
    (SpecTransmissionBranch E sampler surface v true sample).2.2.flags
        = SurfaceEventFlags.eScatterEvent
      ∧ (SpecTransmissionBranch E sampler surface v true sample).2.2.medium = sample.medium := by
  simp only [SpecTransmissionBranch]
  split_ifs <;> exact ⟨rfl, rfl⟩

/-- On a surface that is not thin the flag written by lines 387-429 follows the Fresnel test and
the result of `Transmit`. -/
theorem SpecTransmissionBranch_flags (E : Collaborators) (sampler : CSampler)
    (surface : SurfaceParameters) (v : float3) (sample : BsdfSample) :
    (SpecTransmissionBranch E sampler surface v false sample).2.2.flags
      = if sampler.UniformFloat.2.UniformFloat.2.UniformFloat.1
            ≤ SpecTransmissionFresnel E sampler surface v false
          ∨ SpecTransmissionTransmit E sampler surface v false = none
        then SurfaceEventFlags.eScatterEvent else SurfaceEventFlags.eTransmissionEvent := by
  simp only [SpecTransmissionBranch]
  by_cases hF : sampler.UniformFloat.2.UniformFloat.2.UniformFloat.1
      ≤ SpecTransmissionFresnel E sampler surface v false
  · rw [if_pos hF, if_pos (Or.inl hF)]
  · rw [if_neg hF]
    simp only [Bool.false_eq_true, if_false]
    cases hT : SpecTransmissionTransmit E sampler surface v false with
    | none => simp only [or_true, if_true]
    | some w => simp only [hF, reduceCtorEq, or_self, if_false]

/-- When the Fresnel test chooses refraction and `Transmit` fails, the direction is the
normalised reflection. -/
theorem SpecTransmissionBranch_fallback (E : Collaborators) (sampler : CSampler)
    (surface : SurfaceParameters) (v : float3) (sample : BsdfSample)
    (hF : ¬ sampler.UniformFloat.2.UniformFloat.2.UniformFloat.1
      ≤ SpecTransmissionFresnel E sampler surface v false)
    (hT : SpecTransmissionTransmit E sampler surface v false = none) :
    (SpecTransmissionBranch E sampler surface v false sample).1
      = E.Normalize (E.Reflect (SpecTransmissionNormal E sampler surface v false)
          (E.MatrixMultiply v surface.worldToTangent)) := by
  simp only [SpecTransmissionBranch]
  rw [if_neg hF, hT]
  simp only [Bool.false_eq_true, if_false]

/-! ### A refraction through `glassSurface` along the normal -/

theorem Textbook.SampleGgxVndfAnisotropic_up_any (ax ay : ℚ) :
    Textbook.SampleGgxVndfAnisotropic ⟨0, 1, 0⟩ ax ay 0 0 = ⟨0, 1, 0⟩ := by
  norm_num [Textbook.SampleGgxVndfAnisotropic, Textbook.Normalize_up, Textbook.Sqrtf_zero,
    Textbook.Sqrtf_one, Max, Textbook.Cross, float3.add_def, float3.smul_def]

theorem Textbook.Normalize_down : Textbook.Normalize ⟨0, -1, 0⟩ = ⟨0, -1, 0⟩ := by
  norm_num [Textbook.Normalize, Dot, Textbook.Sqrtf_one, float3.mul_scalar_def]

theorem samplerOf_variates (a b c : ℚ) :
    (samplerOf [a, b, c]).UniformFloat.1 = a
      ∧ (samplerOf [a, b, c]).UniformFloat.2.UniformFloat.1 = b
      ∧ (samplerOf [a, b, c]).UniformFloat.2.UniformFloat.2.UniformFloat.1 = c := by
  simp [samplerOf, CSampler.UniformFloat]

theorem glass_tangent_up :
    Textbook.collaborators.MatrixMultiply ⟨0, 1, 0⟩ glassSurface.worldToTangent = ⟨0, 1, 0⟩ :=
  Textbook.MatrixMultiply_identity _

theorem glass_normal_up (thin : Bool) :
    SpecTransmissionNormal Textbook.collaborators (samplerOf [0, 0, 1 / 2]) glassSurface
      ⟨0, 1, 0⟩ thin = ⟨0, 1, 0⟩ := by
  obtain ⟨h0, h1, _⟩ := samplerOf_variates 0 0 (1 / 2)
  simp only [SpecTransmissionNormal, glass_tangent_up, h0, h1]
  exact Textbook.SampleGgxVndfAnisotropic_up_any _ _

theorem glass_dotVH (thin : Bool) :
    SpecTransmissionDotVH Textbook.collaborators (samplerOf [0, 0, 1 / 2]) glassSurface
      ⟨0, 1, 0⟩ thin = 1 := by
  simp only [SpecTransmissionDotVH, glass_normal_up, glass_tangent_up]
  norm_num [Dot]

theorem glass_fresnel (thin : Bool) :
    SpecTransmissionFresnel Textbook.collaborators (samplerOf [0, 0, 1 / 2]) glassSurface
      ⟨0, 1, 0⟩ thin = 1 / 25 := by
  simp only [SpecTransmissionFresnel, glass_dotVH]
  exact Textbook.Dielectric_up

theorem glass_transmit :
    SpecTransmissionTransmit Textbook.collaborators (samplerOf [0, 0, 1 / 2]) glassSurface
      ⟨0, 1, 0⟩ false = some ⟨0, -1, 0⟩ := by
  simp only [SpecTransmissionTransmit, glass_normal_up, glass_tangent_up]
  norm_num [Textbook.collaborators, Textbook.Transmit, Dot, glassSurface, plainSurface,
    Textbook.Sqrtf_one, float3.smul_def, float3.sub_def, float3.neg_def]

theorem glass_refracted_direction :
    (SpecTransmissionBranch Textbook.collaborators (samplerOf [0, 0, 1 / 2]) glassSurface
      ⟨0, 1, 0⟩ false usedSample).1 = ⟨0, -1, 0⟩ := by
  obtain ⟨_, _, h2⟩ := samplerOf_variates 0 0 (1 / 2)
  simp only [SpecTransmissionBranch, glass_fresnel, glass_transmit, h2]
  rw [if_neg (by norm_num)]
  simp only [Bool.false_eq_true, if_false]
  exact Textbook.Normalize_down

/-- At `glassSurface`, `v = (0,1,0)` and the variates `0, 0, 1/2` the Fresnel test
(`1/2 > F = 1/25`) chooses refraction, `Transmit` returns `(0,-1,0)` and the call succeeds. -/
theorem glass_refraction_succeeds :
    (SampleDisneySpecTransmission Textbook.collaborators (samplerOf [0, 0, 1 / 2]) glassSurface
      ⟨0, 1, 0⟩ false usedSample).1 = true := by
  apply SampleDisneySpecTransmission_success
  · rw [glass_tangent_up]
    norm_num [CosTheta]
  · rw [glass_refracted_direction]
    norm_num [CosTheta]

theorem glass_thin_direction :
    (SpecTransmissionBranch Textbook.collaborators (samplerOf [0, 0, 1 / 2]) glassSurface
      ⟨0, 1, 0⟩ true usedSample).1 = ⟨0, -1, 0⟩ := by
  obtain ⟨_, _, h2⟩ := samplerOf_variates 0 0 (1 / 2)
  simp only [SpecTransmissionBranch, glass_fresnel, glass_normal_up, glass_tangent_up, h2]
  rw [if_neg (by norm_num)]
  simp only [if_true]
  have hr : Textbook.collaborators.Reflect ⟨0, 1, 0⟩ ⟨0, 1, 0⟩ = ⟨0, 1, 0⟩ := Textbook.Reflect_up
  rw [hr]
  exact Textbook.Normalize_down

theorem glass_thin_succeeds :
    (SampleDisneySpecTransmission Textbook.collaborators (samplerOf [0, 0, 1 / 2]) glassSurface
      ⟨0, 1, 0⟩ true usedSample).1 = true := by
  apply SampleDisneySpecTransmission_success
  · rw [glass_tangent_up]
    norm_num [CosTheta]
  · rw [glass_thin_direction]
    norm_num [CosTheta]

/-! ### A diffuse sample of `translucentSurface` along the normal -/

theorem translucent_direction (xs : List ℚ) (h0 : (samplerOf xs).UniformFloat.1 = 0)
    (h1 : (samplerOf xs).UniformFloat.2.UniformFloat.1 = 0) :
    DiffuseDirection Textbook.collaborators (samplerOf xs) translucentSurface ⟨0, 1, 0⟩
      = ⟨0, 1, 0⟩ := by
  have hwo : Textbook.collaborators.MatrixMultiply ⟨0, 1, 0⟩ translucentSurface.worldToTangent
      = ⟨0, 1, 0⟩ := Textbook.MatrixMultiply_identity _
  simp only [DiffuseDirection, hwo, h0, h1, SampleCosineWeightedHemisphere]
  norm_num [Textbook.collaborators, Textbook.Sign, CosTheta, Textbook.Sqrtf_zero,
    Textbook.Sqrtf_one, Max, Textbook.Cosf, Textbook.Sinf, float3.smul_def]

theorem translucent_succeeds (thin : Bool) :
    (SampleDisneyDiffuse Textbook.collaborators (samplerOf [0, 0, 1 / 4]) translucentSurface
      ⟨0, 1, 0⟩ thin usedSample).1 = true := by
  apply SampleDisneyDiffuse_success
  rw [translucent_direction _ (samplerOf_variates 0 0 (1 / 4)).1
    (samplerOf_variates 0 0 (1 / 4)).2.1]
  norm_num [CosTheta]

theorem Textbook.Sign_contract (x : ℚ) :
    (0 < x → 0 < Textbook.Sign x) ∧ (x < 0 → Textbook.Sign x < 0) := by
  simp only [Textbook.Sign]
  constructor
  · intro h
    rw [if_neg (not_lt.mpr h.le)]
    exact one_pos
  · intro h
    rw [if_pos h]
    norm_num

theorem Textbook.Sqrtf_nonneg (x : ℚ) : 0 ≤ Textbook.Sqrtf x := Rat.sqrt_nonneg x

/-- The cosine of the direction sampled by line 473 has the sign of the cosine of `wo`. -/
theorem DiffuseDirection_same_side (E : Collaborators) (sampler : CSampler)
    (surface : SurfaceParameters) (v : float3)
    (hSign : ∀ x, (0 < x → 0 < E.Sign x) ∧ (x < 0 → E.Sign x < 0))
    (hSqrtf : ∀ x, 0 ≤ E.Sqrtf x)
    (hwo : CosTheta (E.MatrixMultiply v surface.worldToTangent) ≠ 0)
    (hwi : CosTheta (DiffuseDirection E sampler surface v) ≠ 0) :
    0 < CosTheta (DiffuseDirection E sampler surface v)
          * CosTheta (E.MatrixMultiply v surface.worldToTangent) := by
  have hy : CosTheta (DiffuseDirection E sampler surface v)
      = E.Sign (CosTheta (E.MatrixMultiply v surface.worldToTangent))
          * E.Sqrtf (Max 0 (1 - sampler.UniformFloat.1)) := rfl
  rw [hy] at hwi ⊢
  have hs0 := hSqrtf (Max 0 (1 - sampler.UniformFloat.1))
  have hs : 0 < E.Sqrtf (Max 0 (1 - sampler.UniformFloat.1)) := by
    rcases lt_or_eq_of_le hs0 with h | h
    · exact h
    · exact absurd (by rw [← h, mul_zero]) hwi
  rcases lt_or_gt_of_ne hwo with h | h
  · have := (hSign _).2 h
    nlinarith [mul_pos (neg_pos.mpr this) (neg_pos.mpr h)]
  · have := (hSign _).1 h
    nlinarith [mul_pos this h]

/-! ### A clearcoat sample below the horizon -/

theorem Textbook.Sqrtf_nine_twentyfifths : Textbook.Sqrtf (9 / 25) = 3 / 5 := by
  have h := Rat.sqrt_eq (3 / 5)
  rw [show (3 / 5 : ℚ) * (3 / 5) = 9 / 25 by norm_num,
    show |(3 / 5 : ℚ)| = 3 / 5 by norm_num [abs_of_pos]] at h
  exact h

theorem Textbook.Sqrtf_sixteen_twentyfifths : Textbook.Sqrtf (16 / 25) = 4 / 5 := by
  have h := Rat.sqrt_eq (4 / 5)
  rw [show (4 / 5 : ℚ) * (4 / 5) = 16 / 25 by norm_num,
    show |(4 / 5 : ℚ)| = 4 / 5 by norm_num [abs_of_pos]] at h
  exact h

theorem SampleClearcoatNormal_grazing :
    SampleClearcoatNormal grazingCollaborators (17 / 20) 0 = ⟨4 / 5, 3 / 5, 0⟩ := by
  simp only [SampleClearcoatNormal, grazingCollaborators, Textbook.collaborators]
  norm_num [Max, Textbook.Sqrtf_nine_twentyfifths, Textbook.Sqrtf_sixteen_twentyfifths,
    Textbook.Cosf, Textbook.Sinf]

theorem grazing_tangent :
    grazingCollaborators.Normalize
        (grazingCollaborators.MatrixMultiply ⟨9 / 41, 40 / 41, 0⟩ coatedSurface.worldToTangent)
      = ⟨9 / 41, 40 / 41, 0⟩ := by
  have hm : grazingCollaborators.MatrixMultiply ⟨9 / 41, 40 / 41, 0⟩
      coatedSurface.worldToTangent = ⟨9 / 41, 40 / 41, 0⟩ := Textbook.MatrixMultiply_identity _
  rw [hm]
  show Textbook.Normalize ⟨9 / 41, 40 / 41, 0⟩ = ⟨9 / 41, 40 / 41, 0⟩
  norm_num [Textbook.Normalize, Dot, Textbook.Sqrtf_one, float3.mul_scalar_def]

/-- The divisor `s · scatterDistance` of `CalculateExtinction` exceeds `scatterDistance` in every
channel: `s - 1 = 3.5 (a - 0.8)² - (a - 0.8) + 0.1` has discriminant `1 - 1.4 < 0`. -/
theorem extinction_term_gt_one (a : ℚ) : 1 < 1.9 - a + 3.5 * (a - 0.8) * (a - 0.8) := by
  nlinarith [sq_nonneg (a - 33 / 35), sq_nonneg (a - 0.8)]

theorem one_div_lt_one_div_of_gt_one (s d : ℚ) (hs : 1 < s) (hd : 0 < d) :
    0 < 1 / (s * d) ∧ 1 / (s * d) < 1 / d := by
  have hsd : 0 < s * d := mul_pos (by linarith) hd
  refine ⟨one_div_pos.mpr hsd, ?_⟩
  apply one_div_lt_one_div_of_lt hd
  nlinarith

/-! ### Contracts of the power and of the square root -/

theorem Textbook.PowfLinear_pos (x e : ℚ) (hx : 0 < x) : 0 < Textbook.PowfLinear x e := by
  simp only [Textbook.PowfLinear]
  apply mul_pos (zpow_pos hx _)
  have hf0 := Int.fract_nonneg e
  have hf1 := Int.fract_lt_one e
  nlinarith [mul_nonneg hf0 hx.le]

theorem Textbook.PowfLinear_one (e : ℚ) : Textbook.PowfLinear 1 e = 1 := by
  simp only [Textbook.PowfLinear, one_zpow, sub_self, mul_zero, add_zero, mul_one]

/-- For a base `≥ 1` the interpolated power does not decrease with the exponent. -/
theorem Textbook.PowfLinear_exp_mono (x e1 e2 : ℚ) (hx : 1 ≤ x) (he : e1 ≤ e2) :
    Textbook.PowfLinear x e1 ≤ Textbook.PowfLinear x e2 := by
  have hx0 : 0 < x := by linarith
  have hf1 := Int.fract_nonneg e1
  have hf1' := Int.fract_lt_one e1
  have hf2 := Int.fract_nonneg e2
  have hfl : ⌊e1⌋ ≤ ⌊e2⌋ := Int.floor_le_floor he
  simp only [Textbook.PowfLinear]
  rcases eq_or_lt_of_le hfl with heq | hlt
  · have hfr : Int.fract e1 ≤ Int.fract e2 := by
      have h1 := Int.floor_add_fract e1
      have h2 := Int.floor_add_fract e2
      have hc : ((⌊e1⌋ : ℤ) : ℚ) = ((⌊e2⌋ : ℤ) : ℚ) := by rw [heq]
      linarith
    rw [heq]
    apply mul_le_mul_of_nonneg_left _ (zpow_pos hx0 _).le
    nlinarith [mul_le_mul_of_nonneg_right hfr (sub_nonneg.mpr hx)]
  · have hstep : ⌊e1⌋ + 1 ≤ ⌊e2⌋ := hlt
    have hp1 : 0 < x ^ ⌊e1⌋ := zpow_pos hx0 _
    have hp2 : 0 < x ^ ⌊e2⌋ := zpow_pos hx0 _
    have h1 : x ^ ⌊e1⌋ * (1 + Int.fract e1 * (x - 1)) ≤ x ^ ⌊e1⌋ * x := by
      apply mul_le_mul_of_nonneg_left _ hp1.le
      nlinarith [mul_le_mul_of_nonneg_right hf1'.le (sub_nonneg.mpr hx)]
    have h2 : x ^ ⌊e1⌋ * x = x ^ (⌊e1⌋ + 1) := (zpow_add_one₀ (ne_of_gt hx0) _).symm
    have h3 : x ^ (⌊e1⌋ + 1) ≤ x ^ ⌊e2⌋ := zpow_le_zpow_right₀ hx hstep
    have h4 : x ^ ⌊e2⌋ ≤ x ^ ⌊e2⌋ * (1 + Int.fract e2 * (x - 1)) := by
      have : 0 ≤ Int.fract e2 * (x - 1) := mul_nonneg hf2 (sub_nonneg.mpr hx)
      nlinarith
    linarith

/-- On `(0,1]` the square root `Textbook.Sqrtf` takes its values in `(0,1]`. -/
theorem Textbook.Sqrtf_unit_interval (x : ℚ) (h0 : 0 < x) (h1 : x ≤ 1) :
    0 < Textbook.Sqrtf x ∧ Textbook.Sqrtf x ≤ 1 := by
  have hnum : 0 < x.num := Rat.num_pos.mpr h0
  have hden : (0 : ℚ) < (x.den : ℚ) := by exact_mod_cast x.den_pos
  have hq : (x.num : ℚ) / (x.den : ℚ) ≤ 1 := by
    rw [Rat.num_div_den]
    exact h1
  have hle : x.num ≤ (x.den : ℤ) := by exact_mod_cast (div_le_one hden).mp hq
  have hsn : 0 < Int.sqrt x.num := by
    simp only [Int.sqrt]
    have : 0 < x.num.toNat := by omega
    exact_mod_cast Nat.sqrt_pos.mpr this
  have hsd : Int.sqrt x.num ≤ (Nat.sqrt x.den : ℤ) := by
    simp only [Int.sqrt]
    have : x.num.toNat ≤ x.den := by omega
    exact_mod_cast Nat.sqrt_le_sqrt this
  have hd : (0 : ℚ) < (Nat.sqrt x.den : ℚ) := by
    have : (0 : ℤ) < (Nat.sqrt x.den : ℤ) := lt_of_lt_of_le hsn hsd
    exact_mod_cast this
  simp only [Textbook.Sqrtf, Rat.sqrt, Rat.mkRat_eq_div]
  constructor
  · apply div_pos _ hd
    exact_mod_cast hsn
  · rw [div_le_one hd]
    exact_mod_cast hsd

/-- The local `pdf` of `SampleDisneyDiffuse` (lines 496 and 508). -/
theorem DiffuseBranch_pdf (E : Collaborators) (sampler : CSampler) (surface : SurfaceParameters)
    (v : float3) (thin : Bool) (sample : BsdfSample) :
    (DiffuseBranch E sampler surface v thin sample).2.1
      = if sampler.UniformFloat.2.UniformFloat.2.UniformFloat.1 ≤ surface.diffTrans
        then surface.diffTrans else 1 - surface.diffTrans := by
  simp only [DiffuseBranch]
  split_ifs <;> rfl

theorem plain_direction :
    DiffuseDirection Textbook.collaborators (samplerOf [0, 0, 0]) plainSurface ⟨0, 1, 0⟩
      = ⟨0, 1, 0⟩ := by
  have hwo : Textbook.collaborators.MatrixMultiply ⟨0, 1, 0⟩ plainSurface.worldToTangent
      = ⟨0, 1, 0⟩ := Textbook.MatrixMultiply_identity _
  obtain ⟨h0, h1, _⟩ := samplerOf_variates 0 0 0
  simp only [DiffuseDirection, hwo, h0, h1, SampleCosineWeightedHemisphere]
  norm_num [Textbook.collaborators, Textbook.Sign, CosTheta, Textbook.Sqrtf_zero,
    Textbook.Sqrtf_one, Max, Textbook.Cosf, Textbook.Sinf, float3.smul_def]

/-! ### The event flags after a call -/

theorem RescaleByLobePdf_flags (pLobe : ℚ) (sample : BsdfSample) :
    (RescaleByLobePdf pLobe sample).flags = sample.flags := by
  simp only [RescaleByLobePdf]
  split_ifs <;> rfl

/-- No statement of `SampleDisneyClearcoat` assigns `sample.flags`: on both returns the flags are
the ones the record held before the call. -/
theorem SampleDisneyClearcoat_flags (E : Collaborators) (sampler : CSampler)
    (surface : SurfaceParameters) (v : float3) (sample : BsdfSample) :
    (SampleDisneyClearcoat E sampler surface v sample).2.1.flags = sample.flags := by
  simp only [SampleDisneyClearcoat]
  split_ifs <;> rfl

/-- Whether `SampleDisneyClearcoat` succeeds does not depend on the record. -/
theorem SampleDisneyClearcoat_success_frame (E : Collaborators) (sampler : CSampler)
    (surface : SurfaceParameters) (v : float3) (sample sample' : BsdfSample) :
    (SampleDisneyClearcoat E sampler surface v sample').1
      = (SampleDisneyClearcoat E sampler surface v sample).1 := by
  simp only [SampleDisneyClearcoat]
  split_ifs <;> rfl

/-- A successful `SampleDisneyBRDF` call writes the scatter flag (line 202), whatever the record
held. -/
theorem SampleDisneyBRDF_flags (E : Collaborators) (sampler : CSampler)
    (surface : SurfaceParameters) (v : float3) (sample sample' : BsdfSample)
    (hOk : (SampleDisneyBRDF E sampler surface v sample).1 = true) :
    (SampleDisneyBRDF E sampler surface v sample).2.1.flags = SurfaceEventFlags.eScatterEvent
      ∧ (SampleDisneyBRDF E sampler surface v sample').2.1.flags
          = SurfaceEventFlags.eScatterEvent := by
  simp only [SampleDisneyBRDF] at hOk ⊢
  split_ifs at hOk ⊢
  exact ⟨rfl, rfl⟩

/-- The flag chosen by lines 487-509 of `SampleDisneyDiffuse` does not depend on the record, and
is the scatter or the transmission flag. -/
theorem DiffuseBranch_flags (E : Collaborators) (sampler : CSampler)
    (surface : SurfaceParameters) (v : float3) (thin : Bool) (sample sample' : BsdfSample) :
    (DiffuseBranch E sampler surface v thin sample').2.2.2.1
        = (DiffuseBranch E sampler surface v thin sample).2.2.2.1
      ∧ ((DiffuseBranch E sampler surface v thin sample).2.2.2.1.scatterEvent = true
          ∨ (DiffuseBranch E sampler surface v thin sample).2.2.2.1.transmissionEvent = true) := by
  simp only [DiffuseBranch]
  split_ifs
  · exact ⟨rfl, Or.inl rfl⟩
  · exact ⟨rfl, Or.inr rfl⟩
  · exact ⟨rfl, Or.inl rfl⟩

theorem SampleDisneyDiffuse_flags (E : Collaborators) (sampler : CSampler)
    (surface : SurfaceParameters) (v : float3) (thin : Bool) (sample sample' : BsdfSample)
    (hOk : (SampleDisneyDiffuse E sampler surface v thin sample).1 = true) :
    (SampleDisneyDiffuse E sampler surface v thin sample').2.1.flags
        = (SampleDisneyDiffuse E sampler surface v thin sample).2.1.flags
      ∧ ((SampleDisneyDiffuse E sampler surface v thin sample).2.1.flags.scatterEvent = true
          ∨ (SampleDisneyDiffuse E sampler surface v thin sample).2.1.flags.transmissionEvent
              = true) := by
  obtain ⟨hc, hflags, _⟩ := SampleDisneyDiffuse_of_success E sampler surface v thin sample hOk
  have hOk' := SampleDisneyDiffuse_success E sampler surface v thin sample' hc
  obtain ⟨_, hflags', _⟩ := SampleDisneyDiffuse_of_success E sampler surface v thin sample' hOk'
  obtain ⟨hsame, hkind⟩ := DiffuseBranch_flags E sampler surface v thin sample sample'
  rw [hflags, hflags']
  exact ⟨hsame, hkind⟩

/-- The direction and the flag chosen by lines 387-429 of `SampleDisneySpecTransmission` do not
depend on the record, and the flag is the scatter or the transmission flag. -/
theorem SpecTransmissionBranch_frame (E : Collaborators) (sampler : CSampler)
    (surface : SurfaceParameters) (v : float3) (thin : Bool) (sample sample' : BsdfSample) :
    (SpecTransmissionBranch E sampler surface v thin sample').1
        = (SpecTransmissionBranch E sampler surface v thin sample).1
      ∧ (SpecTransmissionBranch E sampler surface v thin sample').2.2.flags
          = (SpecTransmissionBranch E sampler surface v thin sample).2.2.flags
      ∧ ((SpecTransmissionBranch E sampler surface v thin sample).2.2.flags.scatterEvent = true
          ∨ (SpecTransmissionBranch E sampler surface v thin sample).2.2.flags.transmissionEvent
              = true) := by
  simp only [SpecTransmissionBranch]
  split_ifs
  all_goals first
    | exact ⟨rfl, rfl, Or.inl rfl⟩
    | (split
       · exact ⟨rfl, rfl, Or.inr rfl⟩
       · exact ⟨rfl, rfl, Or.inl rfl⟩)

theorem SampleDisneySpecTransmission_flags (E : Collaborators) (sampler : CSampler)
    (surface : SurfaceParameters) (v : float3) (thin : Bool) (sample sample' : BsdfSample)
    (hOk : (SampleDisneySpecTransmission E sampler surface v thin sample).1 = true) :
    (SampleDisneySpecTransmission E sampler surface v thin sample').2.1.flags
        = (SampleDisneySpecTransmission E sampler surface v thin sample).2.1.flags
      ∧ ((SampleDisneySpecTransmission E sampler surface v thin sample).2.1.flags.scatterEvent
            = true
          ∨ (SampleDisneySpecTransmission E sampler surface v thin
              sample).2.1.flags.transmissionEvent = true) := by
  obtain ⟨hc1, hc2, hflags, _⟩ :=
    SampleDisneySpecTransmission_of_success E sampler surface v thin sample hOk
  obtain ⟨hwi, hsame, hkind⟩ := SpecTransmissionBranch_frame E sampler surface v thin sample sample'
  have hOk' := SampleDisneySpecTransmission_success E sampler surface v thin sample' hc1
    (by rw [hwi]; exact hc2)
  obtain ⟨_, _, hflags', _⟩ :=
    SampleDisneySpecTransmission_of_success E sampler surface v thin sample' hOk'
  rw [hflags, hflags', hsame]
  refine ⟨rfl, ?_⟩
  split_ifs
  · rcases hkind with h | h
    · exact Or.inl (by simp [SurfaceEventFlags.or, h])
    · exact Or.inr (by simp [SurfaceEventFlags.or, h])
  · exact hkind

/-- At `coatedSurface` the variate `1/2` selects the clearcoat lobe. -/
theorem coatedSurface_selects_clearcoat :
    SelectLobe (CalculateLobePdfs coatedSurface) (samplerFrom (1 / 2)).UniformFloat.1
      = Lobe.clearcoat := by
  obtain ⟨h1, h2, h3, h4⟩ := coatedSurface_lobes
  simp only [SelectLobe, h1, h2, h3, h4, samplerFrom, CSampler.UniformFloat]
  norm_num

/-! ### The clearcoat sampler and the clearcoat evaluation -/

theorem Absf_of_pos (x : ℚ) (h : 0 < x) : Absf x = x := by
  simp only [Absf]
  rw [if_neg (not_lt.mpr h.le)]

theorem Dot_comm (a b : float3) : Dot a b = Dot b a := by
  simp only [Dot]
  ring

/-- The function `SampleDisneyClearcoat` in terms of its local `wm`. -/
theorem SampleDisneyClearcoat_eq_branch (E : Collaborators) (sampler : CSampler)
    (surface : SurfaceParameters) (v : float3) (sample : BsdfSample) :
    SampleDisneyClearcoat E sampler surface v sample
      = let wo := E.Normalize (E.MatrixMultiply v surface.worldToTangent)
        let wm := ClearcoatNormal E sampler surface v
        let wi := E.Reflect wm wo
        let d := GTR1 E (Absf (CosTheta wm)) (Lerp 0.1 0.001 surface.clearcoatGloss)
        let f := E.Schlick 0.04 (Dot wm wi)
        let g := E.SeparableSmithGGXG1a wi 0.25 * E.SeparableSmithGGXG1a wo 0.25
        if Dot wi wo < 0 then (false, sample, sampler.UniformFloat.2.UniformFloat.2)
        else
          (true, { sample with
                    reflectance := float3.splat (0.25 * surface.clearcoat * g * f * d)
                                     / (d / (4 * Dot wo wm))
                    wi := E.Normalize (E.MatrixMultiply wi
                            (E.MatrixTranspose surface.worldToTangent))
                    forwardPdfW := d / (4 * Dot wo wm)
                    reversePdfW := d / (4 * Dot wi wm) },
            sampler.UniformFloat.2.UniformFloat.2) := rfl

theorem Textbook.Reflect_mirror (n l : float3) (hn : Dot n n = 1) :
    Dot (Textbook.Reflect n l) n = Dot l n := by
  simp only [Textbook.Reflect, Dot, float3.smul_def, float3.sub_def] at hn ⊢
  linear_combination (2 * (n.x * l.x + n.y * l.y + n.z * l.z)) * hn

/-- The inner call that `SampleDisney` makes at `coatedSurface`, `v = (0,1,0)` and the variates
`1/2, 0, 0` succeeds. -/
theorem SampleDisneyClearcoat_coated_up_succeeds :
    (SampleDisneyClearcoat unitCollaborators (samplerFrom (1 / 2)).UniformFloat.2 coatedSurface
      ⟨0, 1, 0⟩ usedSample).1 = true := by
  have h := SampleDisney_coated_up_succeeds
  rw [SampleDisney_eq_SampleLobe] at h
  simp only [coatedSurface_selects_clearcoat, SampleLobe] at h
  exact h

theorem ClearcoatNormal_coated_up :
    ClearcoatNormal unitCollaborators (samplerFrom (1 / 2)).UniformFloat.2 coatedSurface ⟨0, 1, 0⟩
      = ⟨0, 1, 0⟩ := by
  have h0 : (samplerFrom (1 / 2)).UniformFloat.2.UniformFloat.1 = 0 := by
    simp [samplerFrom, CSampler.UniformFloat]
  have h1 : (samplerFrom (1 / 2)).UniformFloat.2.UniformFloat.2.UniformFloat.1 = 0 := by
    simp [samplerFrom, CSampler.UniformFloat]
  simp only [ClearcoatNormal, h0, h1, SampleClearcoatNormal_zero]
  rw [if_neg]
  have hwo : unitCollaborators.Normalize
      (unitCollaborators.MatrixMultiply ⟨0, 1, 0⟩ coatedSurface.worldToTangent) = ⟨0, 1, 0⟩ := by
    have hm : unitCollaborators.MatrixMultiply ⟨0, 1, 0⟩ coatedSurface.worldToTangent
        = ⟨0, 1, 0⟩ := Textbook.MatrixMultiply_identity _
    rw [hm]
    exact NormalizeUnit_up
  rw [hwo]
  norm_num [Dot]

/-! ### The tangent frame of a hit -/

/-- Lagrange: the squared length of the scaled cross product. -/
theorem Cross_scaled_dot_self (n t : float3) (w : ℚ) :
    Dot (Textbook.Cross n t * w) (Textbook.Cross n t * w)
      = w * w * (Dot n n * Dot t t - Dot t n * Dot t n) := by
  simp only [Dot, Textbook.Cross, float3.mul_scalar_def]
  ring

theorem Cross_scaled_orthogonal (n t : float3) (w : ℚ) :
    Dot t (Textbook.Cross n t * w) = 0 ∧ Dot n (Textbook.Cross n t * w) = 0 := by
  simp only [Dot, Textbook.Cross, float3.mul_scalar_def]
  constructor <;> ring

/-- The vector `t` taken to the frame `(t, n, b)` with `b = Cross(n, t) · w` and back by the
transposed matrix. -/
theorem frame_round_trip (n t : float3) (w : ℚ) :
    Textbook.MatrixMultiply
        (Textbook.MatrixMultiply t (Textbook.MatrixTranspose ⟨t, n, Textbook.Cross n t * w⟩))
        (Textbook.MatrixTranspose (Textbook.MatrixTranspose ⟨t, n, Textbook.Cross n t * w⟩))
      = Dot t t * t + Dot t n * n := by
  simp only [Textbook.MatrixMultiply, Textbook.MatrixTranspose, Textbook.Cross, Dot,
    float3.mul_scalar_def, float3.smul_def, float3.add_def, float3.mk.injEq]
  refine ⟨?_, ?_, ?_⟩ <;> ring

theorem FrameNormal_edgeHit :
    FrameNormal Textbook.collaborators tangentScene edgeHit tangentModel identity4x4
      = ⟨0, 1, 0⟩ := by
  simp only [FrameNormal, tangentScene, Textbook.scene, tangentModel, glassModel, edgeHit,
    backHit, Textbook.MatrixMultiplyVector, identity4x4, Textbook.collaborators]
  norm_num [Textbook.Normalize_up, float4.XYZ]

/-! ### The base colour of a hit -/

/-- The base colour that `CalculateSurfaceParams` stores, by the path taken (lines 196-214
and 299-309). -/
theorem CalculateSurfaceParamsResolved_baseColor (E : Collaborators) (S : SceneCollaborators)
    (hit : HitParameters) (modelData : ModelGeometryUserData) (localToWorld : float4x4)
    (filter : PtexFilter) (surface : SurfaceParameters) :
    (CalculateSurfaceParamsResolved E S hit modelData localToWorld filter surface).2.baseColor
      = if modelData.material.flags &&& S.eUsesPtex ≠ 0 then
          S.Pow (filter.eval hit.primId hit.baryCoords.x hit.baryCoords.y) 2.2
        else
          S.Pow (SampleTextureFloat3 S (S.FetchTexture modelData.baseColorTextureHandle)
            (HitUvs S hit modelData) true modelData.material.baseColor) 2.2 := rfl

theorem SampleTextureFloat3_Float3 (S : SceneCollaborators) (texture : TextureResource)
    (uvs : float2) (defaultValue : float3) (hFormat : texture.data.format = TextureFormat.Float3) :
    SampleTextureFloat3 S (some texture) uvs true defaultValue
      = S.SrgbToLinearPreciseFloat3 (S.TriangleFloat3 texture.data uvs) := by
  simp only [SampleTextureFloat3, SampleTexture, hFormat]
  simp

/-! ### The lobe selection in machine arithmetic -/

/-- C1 (the code on a surface with the specular lobe alone). For `metallic = 1` and
`clearcoat = 0`, whenever `SampleDisney` succeeds with tangent-space directions `wo`, `wm`, `wi`
(and the world-space round trip gives `wi` and the half vector `wm` back, `CosTheta(wo) > 0`),
`EvaluateDisney` for the sampled direction returns the forward pdf of `SampleDisney` divided by
`4 * AbsDot(wo, wm)`, not that pdf itself. -/
theorem SampleDisney_specular_pdf_roundtrip (E : Collaborators) (sampler : CSampler)
    (surface : SurfaceParameters) (v : float3) (thin : Bool) (sample : BsdfSample)
    (wo wm wi : float3)
    (hm : surface.metallic = 1) (hc : surface.clearcoat = 0)
    (hp : sampler.UniformFloat.1 < 1)
    (hwo : wo = E.Normalize (E.MatrixMultiply v surface.worldToTangent))
    (hwm : wm = E.SampleGgxVndfAnisotropic wo
            (CalculateAnisotropicParams E surface.roughness surface.anisotropic).1
            (CalculateAnisotropicParams E surface.roughness surface.anisotropic).2
            sampler.UniformFloat.2.UniformFloat.1
            sampler.UniformFloat.2.UniformFloat.2.UniformFloat.1)
    (hwi : wi = E.Normalize (E.Reflect wm wo))
    (hsuccess : (SampleDisney E sampler surface v thin sample).1 = true)
    (hback : E.Normalize (E.MatrixMultiply
              (SampleDisney E sampler surface v thin sample).2.1.wi surface.worldToTangent) = wi)
    (hhalf : E.Normalize (wo + wi) = wm)
    (hNV : 0 < CosTheta wo) :
    (EvaluateDisney E surface v (SampleDisney E sampler surface v thin sample).2.1.wi
        thin).forwardPdf
      = (SampleDisney E sampler surface v thin sample).2.1.forwardPdfW / (4 * AbsDot wo wm) := by
  have hl : (CalculateLobePdfs surface).pSpecular = 1 := by
    simp [CalculateLobePdfs, CalculateLobeWeights, LobeWeights.sum, hm, hc, Saturate]
  have hS : SampleDisney E sampler surface v thin sample
      = ((SampleDisneyBRDF E sampler.UniformFloat.2 surface v sample).1,
         RescaleByLobePdf 1 (SampleDisneyBRDF E sampler.UniformFloat.2 surface v sample).2.1,
         (SampleDisneyBRDF E sampler.UniformFloat.2 surface v sample).2.2) := by
    simp only [SampleDisney, hl]
    rw [if_pos (le_of_lt hp)]
  rw [hS] at hsuccess hback ⊢
  have hNL : 0 < CosTheta wi := by
    by_contra hcon
    have hle : CosTheta wi ≤ 0 := not_lt.mp hcon
    revert hsuccess
    simp only [SampleDisneyBRDF, ← hwo, ← hwm, ← hwi, if_pos hle]
    simp
  have hnle : ¬ CosTheta wi ≤ 0 := not_le.mpr hNL
  have hf : (RescaleByLobePdf 1
        (SampleDisneyBRDF E sampler.UniformFloat.2 surface v sample).2.1).forwardPdfW
      = (E.GgxVndfAnisotropicPdf wi wm wo
          (CalculateAnisotropicParams E surface.roughness surface.anisotropic).1
          (CalculateAnisotropicParams E surface.roughness surface.anisotropic).2).1
        * (1 / (4 * AbsDot wo wm)) := by
    simp only [SampleDisneyBRDF, ← hwo, ← hwm, ← hwi, if_neg hnle, RescaleByLobePdf]
    simp
  have hup : CosTheta wi > 0 ∧ CosTheta wo > 0 := ⟨hNL, hNV⟩
  have hnor : ¬ (CosTheta wi ≤ 0 ∨ CosTheta wo ≤ 0) := by
    rintro (h | h) <;> linarith
  rw [hf]
  simp only [EvaluateDisney, hback, ← hwo, hhalf, hup, hm, hc, hl, sub_self, zero_mul,
    gt_iff_lt, lt_self_iff_false, if_false, and_false, EvaluateDisneyBRDF, if_neg hnor]
  simp

theorem SampleDisney_specular_pdf_roundtrip_witness :
    (SampleDisney Textbook.collaborators (samplerFrom (1 / 2)) metalSurface ⟨0, 1, 0⟩ false
        usedSample).2.1.forwardPdfW = 1 / (4 * Textbook.Pi_)
      ∧ (EvaluateDisney Textbook.collaborators metalSurface ⟨0, 1, 0⟩
          (SampleDisney Textbook.collaborators (samplerFrom (1 / 2)) metalSurface ⟨0, 1, 0⟩
            false usedSample).2.1.wi false).forwardPdf = 1 / (16 * Textbook.Pi_) := by
  have hS : SampleDisney Textbook.collaborators (samplerFrom (1 / 2)) metalSurface ⟨0, 1, 0⟩
      false usedSample
      = ((SampleDisneyBRDF Textbook.collaborators (samplerFrom (1 / 2)).UniformFloat.2
            metalSurface ⟨0, 1, 0⟩ usedSample).1,
         RescaleByLobePdf 1 (SampleDisneyBRDF Textbook.collaborators
            (samplerFrom (1 / 2)).UniformFloat.2 metalSurface ⟨0, 1, 0⟩ usedSample).2.1,
         (SampleDisneyBRDF Textbook.collaborators (samplerFrom (1 / 2)).UniformFloat.2
            metalSurface ⟨0, 1, 0⟩ usedSample).2.2) := by
    rw [SampleDisney_eq_SampleLobe]
    obtain ⟨h1, h2, h3, h4⟩ := metalSurface_lobes
    norm_num [SelectLobe, h1, h2, h3, h4, samplerFrom, CSampler.UniformFloat, SampleLobe,
      LobePdfs.pLobe]
  obtain ⟨hb1, hb2, hb3⟩ := SampleDisneyBRDF_metal_up
  have hwi : (SampleDisney Textbook.collaborators (samplerFrom (1 / 2)) metalSurface ⟨0, 1, 0⟩
      false usedSample).2.1.wi = ⟨0, 1, 0⟩ := by
    rw [hS]; exact (RescaleByLobePdf_wi _ _).trans hb2
  have hf : (SampleDisney Textbook.collaborators (samplerFrom (1 / 2)) metalSurface ⟨0, 1, 0⟩
      false usedSample).2.1.forwardPdfW = 1 / (4 * Textbook.Pi_) := by
    rw [hS]; exact (RescaleByLobePdf_one_forwardPdfW _).trans hb3
  have h := SampleDisney_specular_pdf_roundtrip Textbook.collaborators (samplerFrom (1 / 2))
    metalSurface ⟨0, 1, 0⟩ false usedSample ⟨0, 1, 0⟩ ⟨0, 1, 0⟩ ⟨0, 1, 0⟩ rfl rfl
    (by norm_num [samplerFrom, CSampler.UniformFloat])
    (tangent_up metalSurface rfl).symm
    (by
      have ha : CalculateAnisotropicParams Textbook.collaborators metalSurface.roughness
        metalSurface.anisotropic = (1, 1) := Textbook.anisotropicParams_one
      rw [ha]
      simp only [samplerFrom, CSampler.UniformFloat]
      norm_num
      exact Textbook.SampleGgxVndfAnisotropic_up.symm)
    (by
      show (⟨0, 1, 0⟩ : float3) = Textbook.Normalize (Textbook.Reflect ⟨0, 1, 0⟩ ⟨0, 1, 0⟩)
      rw [Textbook.Reflect_up, Textbook.Normalize_up])
    (by rw [hS]; exact hb1)
    (by rw [hwi]; exact tangent_up metalSurface rfl)
    half_up (by norm_num [CosTheta])
  refine ⟨hf, ?_⟩
  rw [h, hf]
  have hP := Textbook.Pi_pos
  norm_num [AbsDot, Dot, Absf]
  field_simp
  ring

/-- C2 (the code for both cosines positive). The forward and the reverse pdf of `EvaluateDisney`
are the sum of: `pClearcoat` times the clearcoat pdf when `clearcoat > 0`; `pDiffuse` times the
cosine when `diffuseWeight > 0`; `pSpecTrans` times the visible-normal pdf divided by
`Square(dotLH + relativeIOR * dotVH)` when `transWeight > 0`; and, for the specular lobe,
`pSpecular` times the pdf of `EvaluateDisneyBRDF` DIVIDED ONCE MORE by `4 * AbsDot(wo, wm)` (for
the reverse pdf by `4 * AbsDot(wi, wm)`). The specular term is therefore not `pSpecular` times
the pdf that `EvaluateDisneyBRDF` returns. -/
theorem EvaluateDisney_pdf_decomposition (E : Collaborators) (surface : SurfaceParameters)
    (v l : float3) (thin : Bool) (wo wi wm : float3)
    (hwo : wo = E.Normalize (E.MatrixMultiply v surface.worldToTangent))
    (hwi : wi = E.Normalize (E.MatrixMultiply l surface.worldToTangent))
    (hwm : wm = E.Normalize (wo + wi))
    (hNV : 0 < CosTheta wo) (hNL : 0 < CosTheta wi) :
    let lobes := CalculateLobePdfs surface
    let ta := CalculateAnisotropicParams E
      (if thin then ThinTransmissionRoughness surface.ior surface.roughness
       else surface.roughness) surface.anisotropic
    let clearcoat := EvaluateDisneyClearcoat E surface.clearcoat surface.clearcoatGloss
      wo wm wi 0 0
    let vndf := E.GgxVndfAnisotropicPdf wi wm wo ta.1 ta.2
    let specular := EvaluateDisneyBRDF E surface wo wm wi
    (EvaluateDisney E surface v l thin).forwardPdf
        = (if surface.clearcoat > 0 then lobes.pClearcoat * clearcoat.2.1 else 0)
          + (if (1 - surface.metallic) * (1 - surface.specTrans) > 0
              then lobes.pDiffuse * AbsCosTheta wi else 0)
          + (if (1 - surface.metallic) * surface.specTrans > 0
              then lobes.pSpecTrans * vndf.1
                    / Square (Dot wm wi + surface.relativeIOR * Dot wm wo) else 0)
          + lobes.pSpecular * specular.2.1 / (4 * AbsDot wo wm)
      ∧ (EvaluateDisney E surface v l thin).reversePdf
        = (if surface.clearcoat > 0 then lobes.pClearcoat * clearcoat.2.2 else 0)
          + (if (1 - surface.metallic) * (1 - surface.specTrans) > 0
              then lobes.pDiffuse * AbsCosTheta wo else 0)
          + (if (1 - surface.metallic) * surface.specTrans > 0
              then lobes.pSpecTrans * vndf.2
                    / Square (Dot wm wo + surface.relativeIOR * Dot wm wi) else 0)
          + lobes.pSpecular * specular.2.2 / (4 * AbsDot wi wm) := by
  intro lobes ta clearcoat vndf specular
  have hup : CosTheta wi > 0 ∧ CosTheta wo > 0 := ⟨hNL, hNV⟩
  simp only [EvaluateDisney, ← hwo, ← hwi, ← hwm, hup, true_and, if_true, and_self, lobes, ta,
    clearcoat, vndf, specular]
  cases thin <;> constructor <;> split_ifs <;> simp

theorem EvaluateDisney_pdf_decomposition_witness :
    (EvaluateDisney Textbook.collaborators metalSurface ⟨0, 1, 0⟩ ⟨0, 1, 0⟩ false).forwardPdf
        = 1 / (16 * Textbook.Pi_)
      ∧ (CalculateLobePdfs metalSurface).pSpecular
          * (EvaluateDisneyBRDF Textbook.collaborators metalSurface
              ⟨0, 1, 0⟩ ⟨0, 1, 0⟩ ⟨0, 1, 0⟩).2.1 = 1 / (4 * Textbook.Pi_) := by
  have h := (EvaluateDisney_pdf_decomposition Textbook.collaborators metalSurface ⟨0, 1, 0⟩
    ⟨0, 1, 0⟩ false ⟨0, 1, 0⟩ ⟨0, 1, 0⟩ ⟨0, 1, 0⟩ (tangent_up metalSurface rfl).symm
    (tangent_up metalSurface rfl).symm half_up.symm (by norm_num [CosTheta])
    (by norm_num [CosTheta])).1
  have hP := Textbook.Pi_pos
  rw [h, EvaluateDisneyBRDF_metal_up, metalSurface_lobes.1]
  norm_num [metalSurface, plainSurface, AbsDot, Dot, Absf]
  field_simp
  ring

/-- C3. For every surface with `metallic` and `specTrans` in `[0,1]` and any `clearcoat`, the
sum that `CalculateLobePdfs` divides by is at least `1`, and its four outputs add up to `1`. -/
theorem CalculateLobePdfs_sum_eq_one (surface : SurfaceParameters)
    (hm0 : 0 ≤ surface.metallic) (hm1 : surface.metallic ≤ 1)
    (hs0 : 0 ≤ surface.specTrans) (hs1 : surface.specTrans ≤ 1) :
    1 ≤ (CalculateLobeWeights surface).sum
      ∧ (CalculateLobePdfs surface).pSpecular + (CalculateLobePdfs surface).pSpecTrans
          + (CalculateLobePdfs surface).pDiffuse + (CalculateLobePdfs surface).pClearcoat = 1 := by
  exact ⟨LobeWeights_sum_ge_one surface hm0 hm1 hs1, LobePdfs_sum surface hm0 hm1 hs1⟩

theorem CalculateLobePdfs_sum_eq_one_witness :
    1 ≤ (CalculateLobeWeights plainSurface).sum
      ∧ (CalculateLobePdfs plainSurface).pSpecular + (CalculateLobePdfs plainSurface).pSpecTrans
          + (CalculateLobePdfs plainSurface).pDiffuse
          + (CalculateLobePdfs plainSurface).pClearcoat = 1 :=
  CalculateLobePdfs_sum_eq_one plainSurface (by norm_num [plainSurface])
    (by norm_num [plainSurface]) (by norm_num [plainSurface]) (by norm_num [plainSurface])

/-- C4 (the code at the failing input). When the variate selects the clearcoat lobe and
`SampleDisneyClearcoat` rejects its sample, `SampleDisney` returns `false` and the output record
is the record the caller passed in, rescaled by `pClearcoat`: its reflectance and pdfs are not
set to zero. -/
theorem SampleDisney_clearcoat_reject_keeps_sample (E : Collaborators) (sampler : CSampler)
    (surface : SurfaceParameters) (v : float3) (thin : Bool) (sample : BsdfSample)
    (hlobe : SelectLobe (CalculateLobePdfs surface) sampler.UniformFloat.1 = Lobe.clearcoat)
    (hrej : (SampleDisneyClearcoat E sampler.UniformFloat.2 surface v sample).1 = false) :
    (SampleDisney E sampler surface v thin sample).1 = false
      ∧ (SampleDisney E sampler surface v thin sample).2.1
          = RescaleByLobePdf (CalculateLobePdfs surface).pClearcoat sample := by
  rw [SampleDisney_eq_SampleLobe]
  simp only [hlobe, SampleLobe, LobePdfs.pLobe]
  exact ⟨hrej, by rw [SampleDisneyClearcoat_reject E _ surface v sample hrej]⟩

theorem SampleDisney_clearcoat_reject_keeps_sample_witness :
    (SampleDisney Textbook.collaborators (samplerFrom (1 / 2)) coatedSurface ⟨4 / 5, 3 / 5, 0⟩
        false usedSample).1 = false
      ∧ (SampleDisney Textbook.collaborators (samplerFrom (1 / 2)) coatedSurface
          ⟨4 / 5, 3 / 5, 0⟩ false usedSample).2.1
          = { usedSample with reflectance := ⟨3, 3, 3⟩, forwardPdfW := 1 / 3,
                              reversePdfW := 1 / 3 } := by
  have h := SampleDisney_clearcoat_reject_keeps_sample Textbook.collaborators
    (samplerFrom (1 / 2)) coatedSurface ⟨4 / 5, 3 / 5, 0⟩ false usedSample
    (by
      obtain ⟨h1, h2, h3, h4⟩ := coatedSurface_lobes
      norm_num [SelectLobe, h1, h2, h3, h4, samplerFrom, CSampler.UniformFloat])
    SampleDisneyClearcoat_rejects_at_example
  refine ⟨h.1, ?_⟩
  rw [h.2, coatedSurface_lobes.2.1]
  norm_num [RescaleByLobePdf, usedSample, float3.mul_scalar_def]

/-- C6 (counterexample). The white dielectric `plainSurface` (`metallic = 0`, `specTrans = 0`,
`clearcoat = 0`, `roughness = 1`, `sheen = 0`, `thin = false`) with both directions along the
normal: `EvaluateDisney` returns `101 / (100 π)` in every channel, the diffuse term `1/π` plus
the specular term `D G1 G1 F / 4 = 1 / (100 π)`, while `baseColor / π * |cos θ|` is `1/π`. -/
theorem EvaluateDisney_not_lambert :
    plainSurface.metallic = 0 ∧ plainSurface.specTrans = 0 ∧ plainSurface.clearcoat = 0
      ∧ plainSurface.roughness = 1 ∧ plainSurface.sheen = 0
      ∧ (EvaluateDisney Textbook.collaborators plainSurface ⟨0, 1, 0⟩ ⟨0, 1, 0⟩
          false).reflectance = float3.splat (101 / (100 * Textbook.Pi_))
      ∧ (plainSurface.baseColor / Textbook.collaborators.Pi_) * Absf (CosTheta ⟨0, 1, 0⟩)
          = float3.splat (1 / Textbook.Pi_)
      ∧ (EvaluateDisney Textbook.collaborators plainSurface ⟨0, 1, 0⟩ ⟨0, 1, 0⟩
          false).reflectance
          ≠ (plainSurface.baseColor / Textbook.collaborators.Pi_) * Absf (CosTheta ⟨0, 1, 0⟩) := by
  have hwo := tangent_up plainSurface rfl
  have hb := EvaluateDisneyBRDF_dielectric_up plainSurface rfl rfl rfl rfl rfl rfl rfl
  have hP := Textbook.Pi_pos
  have h1 : (EvaluateDisney Textbook.collaborators plainSurface ⟨0, 1, 0⟩ ⟨0, 1, 0⟩
      false).reflectance = float3.splat (101 / (100 * Textbook.Pi_)) := by
    simp only [EvaluateDisney, hwo, half_up, hb, EvaluateDisneyDiffuse,
      EvaluateDisneyRetroDiffuse, EvaluateSheen]
    norm_num [plainSurface, CosTheta, AbsCosTheta, Absf, Textbook.SchlickWeight_one, Lerp,
      float3.splat, float3.Zero_, float3.add_def, float3.smul_def, float3.mul_scalar_def,
      Textbook.collaborators]
    field_simp
    ring
  have h2 : (plainSurface.baseColor / Textbook.collaborators.Pi_) * Absf (CosTheta ⟨0, 1, 0⟩)
      = float3.splat (1 / Textbook.Pi_) := by
    norm_num [plainSurface, CosTheta, Absf, float3.splat, float3.div_scalar_def,
      float3.mul_scalar_def, Textbook.collaborators]
  refine ⟨rfl, rfl, rfl, rfl, rfl, h1, h2, ?_⟩
  rw [h1, h2]
  intro h
  have hx := congrArg float3.x h
  simp only [float3.splat] at hx
  field_simp at hx
  linarith

/-- C6 (amended). For every surface with `metallic = 0`, `specTrans = 0`, `clearcoat = 0`,
`roughness = 1` and `sheen = 0` (any `baseColor`, `thin = false`) and every pair of directions
whose tangent-space cosines are both positive, the reflectance returned by `EvaluateDisney` is
`(diffuse * baseColor + specular) * |cos θ_incoming|`, where
`diffuse = InvPi * (retro + (1 - fl/2) (1 - fv/2))`, `fl` and `fv` are the Schlick weights of the
incoming and the outgoing cosine, `retro = rr (fl + fv + fl fv (rr - 1))` with
`rr = 1/2 + 2 cos² θ_incoming`, and `specular` is the reflectance of `EvaluateDisneyBRDF`. -/
theorem EvaluateDisney_diffuse_scenario (E : Collaborators) (surface : SurfaceParameters)
    (v l : float3) (wo wi wm : float3)
    (hwo : wo = E.Normalize (E.MatrixMultiply v surface.worldToTangent))
    (hwi : wi = E.Normalize (E.MatrixMultiply l surface.worldToTangent))
    (hwm : wm = E.Normalize (wo + wi))
    (hm : surface.metallic = 0) (hs : surface.specTrans = 0) (hc : surface.clearcoat = 0)
    (hr : surface.roughness = 1) (hsh : surface.sheen = 0)
    (hNV : 0 < CosTheta wo) (hNL : 0 < CosTheta wi) :
    let fl := E.SchlickWeight (AbsCosTheta wi)
    let fv := E.SchlickWeight (AbsCosTheta wo)
    let rr := 0.5 + 2 * AbsCosTheta wi * AbsCosTheta wi
    let retro := rr * (fl + fv + fl * fv * (rr - 1))
    let diffuse := E.InvPi_ * (retro + (1 - 0.5 * fl) * (1 - 0.5 * fv))
    let specular := (EvaluateDisneyBRDF E surface wo wm wi).1
    (EvaluateDisney E surface v l false).reflectance
      = (diffuse * surface.baseColor + specular) * Absf (CosTheta wi) := by
  intro fl fv rr retro diffuse specular
  have hup : CosTheta wi > 0 ∧ CosTheta wo > 0 := ⟨hNL, hNV⟩
  simp only [EvaluateDisney, ← hwo, ← hwi, ← hwm, hup, hm, hs, hc, sub_zero, mul_one, mul_zero,
    gt_iff_lt, lt_self_iff_false, and_false, if_false, zero_lt_one, if_true,
    EvaluateDisneyDiffuse, EvaluateDisneyRetroDiffuse, EvaluateSheen, hsh, le_refl, hr, Lerp]
  simp only [float3.ext_iff3, float3.add_def, float3.smul_def, float3.mul_scalar_def,
    float3.Zero_, diffuse, retro, rr, fl, fv, specular]
  norm_num

theorem EvaluateDisney_diffuse_scenario_witness :
    (EvaluateDisney Textbook.collaborators plainSurface ⟨0, 1, 0⟩ ⟨0, 1, 0⟩ false).reflectance
      = (Textbook.collaborators.InvPi_ * plainSurface.baseColor
          + float3.splat (1 / (100 * Textbook.Pi_))) * (1 : ℚ) := by
  have h := EvaluateDisney_diffuse_scenario Textbook.collaborators plainSurface ⟨0, 1, 0⟩
    ⟨0, 1, 0⟩ ⟨0, 1, 0⟩ ⟨0, 1, 0⟩ ⟨0, 1, 0⟩ (tangent_up plainSurface rfl).symm
    (tangent_up plainSurface rfl).symm half_up.symm rfl rfl rfl rfl rfl
    (by norm_num [CosTheta]) (by norm_num [CosTheta])
  have hb := EvaluateDisneyBRDF_dielectric_up plainSurface rfl rfl rfl rfl rfl rfl rfl
  have hw : Textbook.collaborators.SchlickWeight 1 = 0 := Textbook.SchlickWeight_one
  rw [h, hb]
  norm_num [AbsCosTheta, CosTheta, Absf, hw]

/-- C8. For every surface with `metallic = 1` (so `diffuseWeight = transWeight = 0`) and every
pair of directions of which one has a tangent-space cosine `<= 0`, `EvaluateDisney` returns zero
reflectance, `forwardPdf = 0` and `reversePdf = 0`. -/
theorem EvaluateDisney_metal_zero_outside_upper_hemisphere (E : Collaborators)
    (surface : SurfaceParameters) (v l : float3) (thin : Bool)
    (hm : surface.metallic = 1)
    (hcos : CosTheta (E.Normalize (E.MatrixMultiply v surface.worldToTangent)) ≤ 0
      ∨ CosTheta (E.Normalize (E.MatrixMultiply l surface.worldToTangent)) ≤ 0) :
    (EvaluateDisney E surface v l thin).reflectance = float3.Zero_
      ∧ (EvaluateDisney E surface v l thin).forwardPdf = 0
      ∧ (EvaluateDisney E surface v l thin).reversePdf = 0 := by
  have hup : ¬ (CosTheta (E.Normalize (E.MatrixMultiply l surface.worldToTangent)) > 0
      ∧ CosTheta (E.Normalize (E.MatrixMultiply v surface.worldToTangent)) > 0) := by
    rintro ⟨h1, h2⟩
    rcases hcos with h | h <;> linarith
  simp only [EvaluateDisney, hm, sub_self, zero_mul, gt_iff_lt, lt_self_iff_false, if_false]
  simp only [gt_iff_lt] at hup
  simp [hup, float3.zero_mul_scalar]

theorem EvaluateDisney_metal_zero_outside_upper_hemisphere_witness :
    (EvaluateDisney Textbook.collaborators metalSurface ⟨0, -1, 0⟩ ⟨0, 1, 0⟩ false).reflectance
        = float3.Zero_
      ∧ (EvaluateDisney Textbook.collaborators metalSurface ⟨0, -1, 0⟩ ⟨0, 1, 0⟩ false).forwardPdf
        = 0
      ∧ (EvaluateDisney Textbook.collaborators metalSurface ⟨0, -1, 0⟩ ⟨0, 1, 0⟩ false).reversePdf
        = 0 :=
  EvaluateDisney_metal_zero_outside_upper_hemisphere Textbook.collaborators metalSurface
    ⟨0, -1, 0⟩ ⟨0, 1, 0⟩ false rfl
    (Or.inl (by
      norm_num [Textbook.collaborators, metalSurface, plainSurface, identity3x3,
        Textbook.MatrixMultiply, Textbook.Normalize, Dot, CosTheta, float3.mul_scalar_def,
        Textbook.Sqrtf_one]))

/-- C9. For every surface with `metallic` and `specTrans` in `[0,1]`, `SampleDisney` selects its
lobe from the first variate `p` by cumulative intervals: it is the rescaled result of
`SampleDisneyBRDF` when `p <= pSpecular`, of `SampleDisneyClearcoat` when
`pSpecular < p <= pSpecular + pClearcoat`, of `SampleDisneyDiffuse` when
`pSpecular + pClearcoat < p <= pSpecular + pClearcoat + pDiffuse`, and of
`SampleDisneySpecTransmission` for every remaining `p`; each `p` lies in exactly one of the four
intervals, so exactly one lobe sampler is invoked. -/
theorem SampleDisney_lobe_selection (E : Collaborators) (sampler : CSampler)
    (surface : SurfaceParameters) (v : float3) (thin : Bool) (sample : BsdfSample)
    (hm0 : 0 ≤ surface.metallic) (hm1 : surface.metallic ≤ 1)
    (hs0 : 0 ≤ surface.specTrans) (hs1 : surface.specTrans ≤ 1) :
    let lobes := CalculateLobePdfs surface
    let p := sampler.UniformFloat.1
    let rest := sampler.UniformFloat.2
    let rescaled := fun (pLobe : ℚ) (r : Bool × BsdfSample × CSampler) =>
      (r.1, RescaleByLobePdf pLobe r.2.1, r.2.2)
    (p ≤ lobes.pSpecular →
        SampleDisney E sampler surface v thin sample
          = rescaled lobes.pSpecular (SampleDisneyBRDF E rest surface v sample))
      ∧ (lobes.pSpecular < p ∧ p ≤ lobes.pSpecular + lobes.pClearcoat →
        SampleDisney E sampler surface v thin sample
          = rescaled lobes.pClearcoat (SampleDisneyClearcoat E rest surface v sample))
      ∧ (lobes.pSpecular + lobes.pClearcoat < p
          ∧ p ≤ lobes.pSpecular + lobes.pClearcoat + lobes.pDiffuse →
        SampleDisney E sampler surface v thin sample
          = rescaled lobes.pDiffuse (SampleDisneyDiffuse E rest surface v thin sample))
      ∧ (lobes.pSpecular + lobes.pClearcoat + lobes.pDiffuse < p →
        SampleDisney E sampler surface v thin sample
          = rescaled lobes.pSpecTrans
              (SampleDisneySpecTransmission E rest surface v thin sample))
      ∧ (p ≤ lobes.pSpecular
          ∨ (lobes.pSpecular < p ∧ p ≤ lobes.pSpecular + lobes.pClearcoat)
          ∨ (lobes.pSpecular + lobes.pClearcoat < p
              ∧ p ≤ lobes.pSpecular + lobes.pClearcoat + lobes.pDiffuse)
          ∨ lobes.pSpecular + lobes.pClearcoat + lobes.pDiffuse < p)
      ∧ lobes.pSpecular ≤ lobes.pSpecular + lobes.pClearcoat
      ∧ lobes.pSpecular + lobes.pClearcoat
          ≤ lobes.pSpecular + lobes.pClearcoat + lobes.pDiffuse := by
  obtain ⟨h1, h2, h3, h4⟩ := LobePdfs_nonneg surface hm0 hm1 hs0 hs1
  intro lobes p rest rescaled
  refine ⟨?_, ?_, ?_, ?_, ?_, ?_, ?_⟩
  · intro c
    simp only [SampleDisney, rescaled]
    rw [if_pos c]
  · rintro ⟨c1, c2⟩
    simp only [SampleDisney, rescaled]
    rw [if_neg (not_le.mpr c1), if_pos ⟨c1, c2⟩]
  · rintro ⟨c1, c2⟩
    have hc : lobes.pSpecular < p := by linarith
    simp only [SampleDisney, rescaled]
    rw [if_neg (not_le.mpr hc), if_neg (fun h => absurd h.2 (not_le.mpr c1)), if_pos ⟨c1, c2⟩]
  · intro c
    have hc1 : lobes.pSpecular + lobes.pClearcoat < p := by linarith
    have hc : lobes.pSpecular < p := by linarith
    simp only [SampleDisney, rescaled]
    rw [if_neg (not_le.mpr hc), if_neg (fun h => absurd h.2 (not_le.mpr hc1)),
      if_neg (fun h => absurd h.2 (not_le.mpr c)), if_pos h4]
  · by_cases c1 : p ≤ lobes.pSpecular
    · exact Or.inl c1
    · by_cases c2 : p ≤ lobes.pSpecular + lobes.pClearcoat
      · exact Or.inr (Or.inl ⟨not_le.mp c1, c2⟩)
      · by_cases c3 : p ≤ lobes.pSpecular + lobes.pClearcoat + lobes.pDiffuse
        · exact Or.inr (Or.inr (Or.inl ⟨not_le.mp c2, c3⟩))
        · exact Or.inr (Or.inr (Or.inr (not_le.mp c3)))
  · linarith
  · linarith

theorem SampleDisney_lobe_selection_witness :
    SampleDisney Textbook.collaborators (samplerFrom (3 / 4)) plainSurface ⟨0, 1, 0⟩ false
        usedSample
      = ((SampleDisneyDiffuse Textbook.collaborators (samplerFrom (3 / 4)).UniformFloat.2
            plainSurface ⟨0, 1, 0⟩ false usedSample).1,
         RescaleByLobePdf (1 / 2)
          (SampleDisneyDiffuse Textbook.collaborators (samplerFrom (3 / 4)).UniformFloat.2
            plainSurface ⟨0, 1, 0⟩ false usedSample).2.1,
         (SampleDisneyDiffuse Textbook.collaborators (samplerFrom (3 / 4)).UniformFloat.2
            plainSurface ⟨0, 1, 0⟩ false usedSample).2.2) := by
  have h := (SampleDisney_lobe_selection Textbook.collaborators (samplerFrom (3 / 4))
    plainSurface ⟨0, 1, 0⟩ false usedSample (by norm_num [plainSurface])
    (by norm_num [plainSurface]) (by norm_num [plainSurface])
    (by norm_num [plainSurface])).2.2.1
  obtain ⟨h1, h2, h3, h4⟩ := plainSurface_lobes
  simp only [h1, h2, h3] at h
  exact h (by norm_num [samplerFrom, CSampler.UniformFloat])

/-- C10. For every call of `SampleDisney` in which the selected lobe has probability
`pLobe > 0`, the returned reflectance is the lobe sampler's reflectance times `1 / pLobe`, the
returned `forwardPdfW` and `reversePdfW` are the lobe sampler's pdfs times `pLobe`, and
reflectance times `forwardPdfW` is unchanged by the rescale. -/
theorem SampleDisney_rescale (E : Collaborators) (sampler : CSampler)
    (surface : SurfaceParameters) (v : float3) (thin : Bool) (sample : BsdfSample)
    (hpos : 0 < (CalculateLobePdfs surface).pLobe
              (SelectLobe (CalculateLobePdfs surface) sampler.UniformFloat.1)) :
    let lobes := CalculateLobePdfs surface
    let lobe := SelectLobe lobes sampler.UniformFloat.1
    let pLobe := lobes.pLobe lobe
    let lobeSample := (SampleLobe E lobe sampler.UniformFloat.2 surface v thin sample).2.1
    let result := (SampleDisney E sampler surface v thin sample).2.1
    result.reflectance = lobeSample.reflectance * (1 / pLobe)
      ∧ result.forwardPdfW = lobeSample.forwardPdfW * pLobe
      ∧ result.reversePdfW = lobeSample.reversePdfW * pLobe
      ∧ result.reflectance * result.forwardPdfW
          = lobeSample.reflectance * lobeSample.forwardPdfW := by
  intro lobes lobe pLobe lobeSample result
  have hres : result = RescaleByLobePdf pLobe lobeSample := by
    simp only [result, SampleDisney_eq_SampleLobe]
  have hp : pLobe > 0 := hpos
  have hne : pLobe ≠ 0 := ne_of_gt hp
  rw [hres]
  simp only [RescaleByLobePdf, if_pos hp]
  refine ⟨trivial, trivial, trivial, ?_⟩
  show (⟨lobeSample.reflectance.x * (1 / pLobe) * (lobeSample.forwardPdfW * pLobe),
         lobeSample.reflectance.y * (1 / pLobe) * (lobeSample.forwardPdfW * pLobe),
         lobeSample.reflectance.z * (1 / pLobe) * (lobeSample.forwardPdfW * pLobe)⟩ : float3)
      = ⟨lobeSample.reflectance.x * lobeSample.forwardPdfW,
         lobeSample.reflectance.y * lobeSample.forwardPdfW,
         lobeSample.reflectance.z * lobeSample.forwardPdfW⟩
  congr 1 <;> (field_simp; ring)

theorem SampleDisney_rescale_witness :
    (SampleDisney Textbook.collaborators (samplerFrom (1 / 4)) plainSurface ⟨0, 1, 0⟩ false
        usedSample).2.1.forwardPdfW
      = (SampleDisneyBRDF Textbook.collaborators (samplerFrom (1 / 4)).UniformFloat.2
          plainSurface ⟨0, 1, 0⟩ usedSample).2.1.forwardPdfW * (1 / 2) := by
  have hsel : SelectLobe (CalculateLobePdfs plainSurface) (samplerFrom (1 / 4)).UniformFloat.1
      = Lobe.specular := by
    obtain ⟨h1, h2, h3, h4⟩ := plainSurface_lobes
    norm_num [SelectLobe, h1, h2, h3, h4, samplerFrom, CSampler.UniformFloat]
  have h := (SampleDisney_rescale Textbook.collaborators (samplerFrom (1 / 4)) plainSurface
    ⟨0, 1, 0⟩ false usedSample (by
      rw [hsel]
      simp only [LobePdfs.pLobe, plainSurface_lobes.1]
      norm_num)).2.1
  simp only [hsel, LobePdfs.pLobe, plainSurface_lobes.1, SampleLobe] at h
  exact h

/-- C11. For every surface whose `worldToTangent` matrix is orthonormal, every non-zero outgoing
direction and every sampler stream, if `SampleDisney` reports success then the returned
world-space direction `sample.wi` has Euclidean length 1. `MatrixMultiply`, `MatrixTranspose` and
`Reflect` are the textbook ones, `Normalize` returns a unit vector for every vector that is not
zero, and the half vector that the clearcoat lobe builds from `Sqrtf`, `Cosf` and `Sinf` is not
shorter than 1 (in exact arithmetic its length is 1, or the cosine when that exceeds 1). -/
theorem SampleDisney_wi_unit (E : Collaborators) (sampler : CSampler)
    (surface : SurfaceParameters) (v : float3) (thin : Bool) (sample : BsdfSample)
    (hMul : E.MatrixMultiply = Textbook.MatrixMultiply)
    (hTr : E.MatrixTranspose = Textbook.MatrixTranspose)
    (hRefl : E.Reflect = Textbook.Reflect)
    (hNorm : ∀ u, u ≠ float3.Zero_ → Dot (E.Normalize u) (E.Normalize u) = 1)
    (hNormal : SelectLobe (CalculateLobePdfs surface) sampler.UniformFloat.1 = Lobe.clearcoat →
      1 ≤ Dot
        (SampleClearcoatNormal E sampler.UniformFloat.2.UniformFloat.1
          sampler.UniformFloat.2.UniformFloat.2.UniformFloat.1)
        (SampleClearcoatNormal E sampler.UniformFloat.2.UniformFloat.1
          sampler.UniformFloat.2.UniformFloat.2.UniformFloat.1))
    (hW : surface.worldToTangent.Orthonormal) (hv : v ≠ float3.Zero_)
    (hOk : (SampleDisney E sampler surface v thin sample).1 = true) :
    Dot (SampleDisney E sampler surface v thin sample).2.1.wi
      (SampleDisney E sampler surface v thin sample).2.1.wi = 1 := by
  rw [SampleDisney_eq_SampleLobe] at hOk ⊢
  simp only [RescaleByLobePdf_wi] at hOk ⊢
  generalize hl : SelectLobe (CalculateLobePdfs surface) sampler.UniformFloat.1 = lobe
    at hOk hNormal ⊢
  cases lobe
  · exact SampleDisneyBRDF_wi_unit E _ surface v sample hMul hTr hNorm hW hOk
  · exact SampleDisneyClearcoat_wi_unit E _ surface v sample hMul hTr hRefl hNorm (hNormal rfl)
      hW hv hOk
  · exact SampleDisneyDiffuse_wi_unit E _ surface v thin sample hMul hTr hNorm hW hOk
  · exact SampleDisneySpecTransmission_wi_unit E _ surface v thin sample hMul hTr hNorm hW hOk
  · exact absurd hOk (by simp [SampleLobe])

theorem SampleDisney_wi_unit_witness :
    (SampleDisney unitCollaborators (samplerFrom (1 / 2)) coatedSurface ⟨0, 1, 0⟩ false
        usedSample).1 = true
      ∧ Dot
          (SampleDisney unitCollaborators (samplerFrom (1 / 2)) coatedSurface ⟨0, 1, 0⟩ false
            usedSample).2.1.wi
          (SampleDisney unitCollaborators (samplerFrom (1 / 2)) coatedSurface ⟨0, 1, 0⟩ false
            usedSample).2.1.wi = 1 :=
  ⟨SampleDisney_coated_up_succeeds,
    SampleDisney_wi_unit unitCollaborators (samplerFrom (1 / 2)) coatedSurface ⟨0, 1, 0⟩ false
      usedSample rfl rfl rfl (fun u _ => NormalizeUnit_unit u)
      (fun _ => by
        have h : SampleClearcoatNormal unitCollaborators
            (samplerFrom (1 / 2)).UniformFloat.2.UniformFloat.1
            (samplerFrom (1 / 2)).UniformFloat.2.UniformFloat.2.UniformFloat.1 = ⟨0, 1, 0⟩ := by
          have e0 : (samplerFrom (1 / 2)).UniformFloat.2.UniformFloat.1 = 0 := by
            simp [samplerFrom, CSampler.UniformFloat]
          have e1 : (samplerFrom (1 / 2)).UniformFloat.2.UniformFloat.2.UniformFloat.1 = 0 := by
            simp [samplerFrom, CSampler.UniformFloat]
          rw [e0, e1]
          exact SampleClearcoatNormal_zero
        rw [h]
        norm_num [Dot])
      identity3x3_Orthonormal (by simp [float3.Zero_]) SampleDisney_coated_up_succeeds⟩

/-- C12. For every `vmCount > 0`, `vcCount > 0`, `baseRadius > 0`, `radiusAlpha` in `(0,1)` and
`iterationIndex ≥ 1`, the constants returned by `CalculateIterationConstants` satisfy
`vmWeight · vcWeight = 1`. `Math::Pi_` is positive and `Math::Powf` is positive on a positive
base. -/
theorem CalculateIterationConstants_weights_reciprocal (E : Collaborators)
    (vmCount vcCount : ℕ) (baseRadius radiusAlpha iterationIndex : ℚ)
    (hPi : 0 < E.Pi_) (hPowf : ∀ x e, 0 < x → 0 < E.Powf x e)
    (hvm : 0 < vmCount) (hvc : 0 < vcCount) (hb : 0 < baseRadius)
    (ha0 : 0 < radiusAlpha) (ha1 : radiusAlpha < 1) (hi : 1 ≤ iterationIndex) :
    (CalculateIterationConstants E vmCount vcCount baseRadius radiusAlpha iterationIndex).vmWeight
      * (CalculateIterationConstants E vmCount vcCount baseRadius radiusAlpha
          iterationIndex).vcWeight = 1 := by
  have hr := SearchRadius_ne_zero E baseRadius radiusAlpha iterationIndex hPowf hb hi
  have hd := vm_divisor_pos E vmCount _ hPi hr hvm
  have hc : (0 : ℚ) < vcCount := by exact_mod_cast hvc
  simp only [CalculateIterationConstants]
  field_simp

theorem CalculateIterationConstants_weights_reciprocal_witness :
    (CalculateIterationConstants Textbook.collaborators 4 2 1 (1 / 2) 3).vmWeight
      * (CalculateIterationConstants Textbook.collaborators 4 2 1 (1 / 2) 3).vcWeight = 1 :=
  CalculateIterationConstants_weights_reciprocal Textbook.collaborators 4 2 1 (1 / 2) 3
    Textbook.Pi_pos Textbook.Powf_pos (by norm_num) (by norm_num) (by norm_num) (by norm_num)
    (by norm_num) (by norm_num)

/-- C13. For all inputs, `CalculateIterationConstants` returns `vmCount` and `vcCount` unchanged,
`vmSearchRadius = r = baseRadius / iterationIndex^(0.5·(1 − radiusAlpha))`, which is the value of
`SearchRadius`, `vmSearchRadiusSqr = r²`, `vmNormalization = 1/(π·r²·vmCount)`,
`vmWeight = π·r²·vmCount/vcCount` and `vcWeight = vcCount/(π·r²·vmCount)`. -/
theorem CalculateIterationConstants_fields (E : Collaborators) (vmCount vcCount : ℕ)
    (baseRadius radiusAlpha iterationIndex : ℚ) :
    let r := baseRadius / E.Powf iterationIndex (0.5 * (1 - radiusAlpha))
    r = SearchRadius E baseRadius radiusAlpha iterationIndex
      ∧ CalculateIterationConstants E vmCount vcCount baseRadius radiusAlpha iterationIndex
        = { vmCount := vmCount
            vcCount := vcCount
            vmSearchRadius := r
            vmSearchRadiusSqr := r ^ 2
            vmNormalization := 1 / (E.Pi_ * r ^ 2 * vmCount)
            vmWeight := E.Pi_ * r ^ 2 * vmCount / vcCount
            vcWeight := vcCount / (E.Pi_ * r ^ 2 * vmCount) } := by
  intro r
  refine ⟨rfl, ?_⟩
  simp only [CalculateIterationConstants, SearchRadius, r, pow_two]

/-- C14. For every `baseRadius ≥ 0`, every `radiusAlpha` in `(0,1)` and all iteration indices
`1 ≤ i ≤ j`, `SearchRadius(baseRadius, radiusAlpha, j) ≤ SearchRadius(baseRadius, radiusAlpha, i)`:
the search radius does not grow with the iteration index. `Math::Powf` is positive on a positive
base and, for an exponent that is not negative, monotone in the base. -/
theorem SearchRadius_antitone (E : Collaborators) (baseRadius radiusAlpha i j : ℚ)
    (hPos : ∀ x e, 0 < x → 0 < E.Powf x e)
    (hMono : ∀ x y e, 0 < x → x ≤ y → 0 ≤ e → E.Powf x e ≤ E.Powf y e)
    (hb : 0 ≤ baseRadius) (ha0 : 0 < radiusAlpha) (ha1 : radiusAlpha < 1)
    (hi : 1 ≤ i) (hij : i ≤ j) :
    SearchRadius E baseRadius radiusAlpha j ≤ SearchRadius E baseRadius radiusAlpha i := by
  have hi0 : 0 < i := by linarith
  exact SearchRadius_le_of_le E baseRadius radiusAlpha i j hPos hMono hb ha1 hi0 hij

theorem SearchRadius_antitone_witness :
    SearchRadius Textbook.collaborators 1 (1 / 2) 3
      ≤ SearchRadius Textbook.collaborators 1 (1 / 2) 2 :=
  SearchRadius_antitone Textbook.collaborators 1 (1 / 2) 2 3 Textbook.Powf_pos
    Textbook.Powf_mono (by norm_num) (by norm_num) (by norm_num) (by norm_num) (by norm_num)

/-- C15, as stated, fails: at `iterationIndex = 1/16`, `radiusAlpha = 1/2` and `baseRadius = 1`
the power is `(1/16)^(1/4) = 1/2` and `SearchRadius` returns the unclamped quotient `2`, which is
not the radius `1` of the index 1. -/
theorem SearchRadius_unclamped_below_one :
    SearchRadius rootCollaborators 1 (1 / 2) (1 / 16) = 2
      ∧ SearchRadius rootCollaborators 1 (1 / 2) 1 = 1
      ∧ SearchRadius rootCollaborators 1 (1 / 2) (1 / 16)
          = 1 / rootCollaborators.Powf (1 / 16) (0.5 * (1 - 1 / 2)) := by
  refine ⟨?_, ?_, rfl⟩
  · simp only [SearchRadius, rootCollaborators_Powf, Textbook.PowfRoot]
    norm_num [Textbook.Sqrtf_sixteenth, Textbook.Sqrtf_quarter]
  · simp only [SearchRadius, rootCollaborators_Powf, Textbook.PowfRoot]
    norm_num [Textbook.Sqrtf_one]

/-- C15, amended. For every `iterationIndex < 1`, `SearchRadius` makes no check and no clamp: it
returns the quotient `baseRadius / iterationIndex^(0.5·(1 − radiusAlpha))` of the same formula as
for `iterationIndex ≥ 1`; for `0 < iterationIndex < 1`, `baseRadius ≥ 0` and `radiusAlpha` in
`(0,1)` that radius is not smaller than the radius of the index 1 (with `Math::Powf` positive on a
positive base and monotone in the base). -/
theorem SearchRadius_below_one (E : Collaborators) (baseRadius radiusAlpha iterationIndex : ℚ)
    (hi : iterationIndex < 1) :
    SearchRadius E baseRadius radiusAlpha iterationIndex
        = baseRadius / E.Powf iterationIndex (0.5 * (1 - radiusAlpha))
      ∧ ((∀ x e, 0 < x → 0 < E.Powf x e) →
          (∀ x y e, 0 < x → x ≤ y → 0 ≤ e → E.Powf x e ≤ E.Powf y e) →
          0 < iterationIndex → 0 ≤ baseRadius → 0 < radiusAlpha → radiusAlpha < 1 →
          SearchRadius E baseRadius radiusAlpha 1
            ≤ SearchRadius E baseRadius radiusAlpha iterationIndex) := by
  constructor
  · simp only [SearchRadius]
  · intro hPos hMono h0 hb ha0 ha1
    exact SearchRadius_le_of_le E baseRadius radiusAlpha iterationIndex 1 hPos hMono hb ha1 h0
      hi.le

theorem SearchRadius_below_one_witness :
    SearchRadius Textbook.collaborators 1 (1 / 2) (1 / 16)
        = 1 / Textbook.collaborators.Powf (1 / 16) (0.5 * (1 - 1 / 2))
      ∧ SearchRadius Textbook.collaborators 1 (1 / 2) 1
          ≤ SearchRadius Textbook.collaborators 1 (1 / 2) (1 / 16) :=
  ⟨(SearchRadius_below_one Textbook.collaborators 1 (1 / 2) (1 / 16) (by norm_num)).1,
    (SearchRadius_below_one Textbook.collaborators 1 (1 / 2) (1 / 16) (by norm_num)).2
      Textbook.Powf_pos Textbook.Powf_mono (by norm_num) (by norm_num) (by norm_num)
      (by norm_num)⟩

/-- C16, as stated, fails: with `vmCount = 0` (and `vcCount = 2`, radius 1) the call returns a
record of constants, two of them quotients by the zero divisor `π·r²·vmCount`. -/
theorem CalculateIterationConstants_zero_count_returns :
    CalculateIterationConstants Textbook.collaborators 0 2 1 (1 / 2) 1
      = { vmCount := 0
          vcCount := 2
          vmSearchRadius := 1
          vmSearchRadiusSqr := 1
          vmNormalization := 1 / 0
          vmWeight := 0
          vcWeight := 2 / 0 } := by
  simp only [CalculateIterationConstants, SearchRadius]
  norm_num [Textbook.collaborators, Textbook.Powf, Textbook.Pi_]

/-- C16, amended. `CalculateIterationConstants` makes no check of the counts: with `vmCount = 0`
or `vcCount = 0` it returns the record of the same formulas; with `vmCount = 0` the divisor
`π·r²·vmCount` of `vmNormalization` and `vcWeight` is zero, with `vcCount = 0` the divisor of
`vmWeight` is zero. -/
theorem CalculateIterationConstants_zero_count (E : Collaborators) (vmCount vcCount : ℕ)
    (baseRadius radiusAlpha iterationIndex : ℚ) (h : vmCount = 0 ∨ vcCount = 0) :
    let r := SearchRadius E baseRadius radiusAlpha iterationIndex
    let c := CalculateIterationConstants E vmCount vcCount baseRadius radiusAlpha iterationIndex
    c = { vmCount := vmCount
          vcCount := vcCount
          vmSearchRadius := r
          vmSearchRadiusSqr := r * r
          vmNormalization := 1 / (E.Pi_ * (r * r) * vmCount)
          vmWeight := E.Pi_ * (r * r) * vmCount / vcCount
          vcWeight := vcCount / (E.Pi_ * (r * r) * vmCount) }
      ∧ (vmCount = 0 → c.vmNormalization = 1 / 0 ∧ c.vcWeight = vcCount / 0)
      ∧ (vcCount = 0 → c.vmWeight = E.Pi_ * (r * r) * vmCount / 0) := by
  intro r c
  refine ⟨rfl, ?_, ?_⟩
  · intro h0
    simp only [c, r, CalculateIterationConstants, h0, Nat.cast_zero, mul_zero]
    exact ⟨trivial, trivial⟩
  · intro h0
    simp only [c, r, CalculateIterationConstants, h0, Nat.cast_zero]

theorem CalculateIterationConstants_zero_count_witness :
    (CalculateIterationConstants Textbook.collaborators 0 2 1 (1 / 2) 1).vmNormalization = 1 / 0
      ∧ (CalculateIterationConstants Textbook.collaborators 0 2 1 (1 / 2) 1).vcWeight
          = (2 : ℕ) / 0 :=
  (CalculateIterationConstants_zero_count Textbook.collaborators 0 2 1 (1 / 2) 1
    (Or.inl rfl)).2.1 rfl

/-- C17. For every emitted light sample with `emissionPdfW ≠ 0`, every `vcWeight` and every
in-range index, `GenerateLightSample` produces a state with position and direction copied from the
sample, `throughput = radiance / emissionPdfW`, `dVCM = directionPdfA / emissionPdfW`,
`dVC = cosThetaLight / emissionPdfW`, `dVM = dVC · vcWeight`, `pathLength = 1`,
`isAreaMeasure = false` and the given index; for `emissionPdfW = directionPdfA = cosThetaLight = 1`
and radiance `(1,1,1)` the throughput is `(1,1,1)`, `dVCM = 1`, `dVC = 1` and `dVM = vcWeight`. -/
theorem GenerateLightSample_state (PathStateIndexBitCount_ : ℕ) (context : GIIntegratorContext)
    (vcWeight : ℚ) (index : ℕ)
    (hPdf : context.EmitIblLightSample.emissionPdfW ≠ 0)
    (hIndex : index < 2 ^ PathStateIndexBitCount_) :
    GenerateLightSample PathStateIndexBitCount_ context vcWeight index
        = some
            { position := context.EmitIblLightSample.position
              direction := context.EmitIblLightSample.direction
              throughput :=
                context.EmitIblLightSample.radiance / context.EmitIblLightSample.emissionPdfW
              dVCM :=
                context.EmitIblLightSample.directionPdfA
                  / context.EmitIblLightSample.emissionPdfW
              dVC :=
                context.EmitIblLightSample.cosThetaLight
                  / context.EmitIblLightSample.emissionPdfW
              dVM :=
                context.EmitIblLightSample.cosThetaLight
                  / context.EmitIblLightSample.emissionPdfW * vcWeight
              pathLength := 1
              isAreaMeasure := 0
              index := index }
      ∧ (context.EmitIblLightSample.emissionPdfW = 1 →
          context.EmitIblLightSample.directionPdfA = 1 →
          context.EmitIblLightSample.cosThetaLight = 1 →
          context.EmitIblLightSample.radiance = ⟨1, 1, 1⟩ →
          ∃ state, GenerateLightSample PathStateIndexBitCount_ context vcWeight index = some state
            ∧ state.throughput = ⟨1, 1, 1⟩ ∧ state.dVCM = 1 ∧ state.dVC = 1
            ∧ state.dVM = vcWeight) := by
  have hmain := GenerateLightSample_of_lt PathStateIndexBitCount_ context vcWeight index hIndex
  refine ⟨hmain, ?_⟩
  intro h1 h2 h3 h4
  refine ⟨_, hmain, ?_, ?_, ?_, ?_⟩
  · simp only [h1, h4, float3.div_scalar_def, div_one]
  · simp only [h1, h2, div_one]
  · simp only [h1, h3, div_one]
  · simp only [h1, h3, div_one, one_mul]

theorem GenerateLightSample_state_witness :
    ∃ state, GenerateLightSample 27 pinholeContext (1 / 3) 5 = some state
      ∧ state.throughput = ⟨1, 1, 1⟩ ∧ state.dVCM = 1 ∧ state.dVC = 1 ∧ state.dVM = 1 / 3 :=
  (GenerateLightSample_state 27 pinholeContext (1 / 3) 5
    (by simp [pinholeContext]) (by norm_num)).2 rfl rfl rfl rfl

/-- C18, as stated, fails: with an index field of 27 bits, a viewport 16384 pixels wide and the
pixel `x = 0`, `y = 8192`, `GenerateCameraSample` returns a state whose index is `0`, not
`y·viewportWidth + x = 134217728`. -/
theorem GenerateCameraSample_index_truncated :
    ∃ state, GenerateCameraSample 27 pinholeContext 0 8192 1 = some state
      ∧ state.index = 0
      ∧ 8192 * pinholeContext.camera.viewportWidth + 0 = 134217728 := by
  refine ⟨_, GenerateCameraSample_eq _ _ _ _ _, ?_, ?_⟩
  · simp only [PathState.packIndex, pinholeContext]
    norm_num
  · simp only [pinholeContext]

/-- C18, amended. For every camera ray with `cosThetaCamera = Dot(forward, rayDirection) ≠ 0` and
`virtualImagePlaneDistance ≠ 0`, and every pixel whose index `y·viewportWidth + x` fits the index
field (of at most 32 bits), `GenerateCameraSample` produces a state with throughput `(1,1,1)`,
`dVC = 0`, `dVM = 0`, `pathLength = 1`, `isAreaMeasure = true`, `index = y·viewportWidth + x` and
`dVCM = lightPathCount / cameraPdfW`, where
`cameraPdfW = (virtualImagePlaneDistance / cosThetaCamera)² / cosThetaCamera`, that is
`dVCM = lightPathCount · cosThetaCamera³ / virtualImagePlaneDistance²`; with
`virtualImagePlaneDistance = 1` and `cosThetaCamera = 1` the reverse camera pdf is 1 and
`dVCM = lightPathCount`. -/
theorem GenerateCameraSample_state (PathStateIndexBitCount_ : ℕ) (context : GIIntegratorContext)
    (x y : ℕ) (lightPathCount : ℚ)
    (hCos : Dot context.camera.forward (context.JitteredCameraRay x y).direction ≠ 0)
    (hDist : context.camera.virtualImagePlaneDistance ≠ 0)
    (hBits : PathStateIndexBitCount_ ≤ 32)
    (hIndex : y * context.camera.viewportWidth + x < 2 ^ PathStateIndexBitCount_) :
    let cosThetaCamera := Dot context.camera.forward (context.JitteredCameraRay x y).direction
    let cameraPdfW :=
      (context.camera.virtualImagePlaneDistance / cosThetaCamera) ^ 2 / cosThetaCamera
    GenerateCameraSample PathStateIndexBitCount_ context x y lightPathCount
        = some
            { position := (context.JitteredCameraRay x y).origin
              direction := (context.JitteredCameraRay x y).direction
              throughput := ⟨1, 1, 1⟩
              dVCM := lightPathCount / cameraPdfW
              dVC := 0
              dVM := 0
              pathLength := 1
              isAreaMeasure := 1
              index := y * context.camera.viewportWidth + x }
      ∧ lightPathCount / cameraPdfW
          = lightPathCount * cosThetaCamera ^ 3 / context.camera.virtualImagePlaneDistance ^ 2
      ∧ (context.camera.virtualImagePlaneDistance = 1 → cosThetaCamera = 1 →
          1 / cameraPdfW = 1 ∧ lightPathCount / cameraPdfW = lightPathCount) := by
  intro cosThetaCamera cameraPdfW
  have h32 : y * context.camera.viewportWidth + x < 2 ^ 32 :=
    lt_of_lt_of_le hIndex (Nat.pow_le_pow_right (by norm_num) hBits)
  refine ⟨?_, ?_, ?_⟩
  · rw [GenerateCameraSample_eq, Nat.mod_eq_of_lt h32, PathState.packIndex_of_lt _ _ hIndex]
    simp only [cameraPdfW, cosThetaCamera, float3.One_, pow_two, mul_one_div]
  · simp only [cameraPdfW]
    clear_value cosThetaCamera
    rw [div_pow, div_div, div_div_eq_mul_div, ← pow_succ]
  · intro h1 h2
    simp only [cameraPdfW, h1, h2]
    norm_num

theorem GenerateCameraSample_state_witness :
    ∃ state, GenerateCameraSample 27 pinholeContext 3 2 7 = some state
      ∧ state.index = 2 * 16384 + 3 ∧ state.dVCM = 7 := by
  have h := GenerateCameraSample_state 27 pinholeContext 3 2 7
    (by norm_num [pinholeContext, Dot]) (by norm_num [pinholeContext]) (by norm_num)
    (by norm_num [pinholeContext])
  refine ⟨_, h.1, ?_, ?_⟩
  · simp only [pinholeContext]
  · exact (h.2.2 (by simp only [pinholeContext]) (by norm_num [pinholeContext, Dot])).2

/-- C19. What the code does with an owner index that does not fit the packed index width:
`GenerateLightSample` fails its assertion exactly when `index ≥ 2^PathStateIndexBitCount_` and
stores an in-range index unchanged, but `GenerateCameraSample` never fails its assertion, which
reads the index back from the packed field; so it does at `x = 0`, `y = 8192` in a viewport 16384
pixels wide with 27 index bits, where `y·viewportWidth + x = 2^27`. -/
theorem seeders_index_assertion :
    (∀ (PathStateIndexBitCount_ : ℕ) (context : GIIntegratorContext) (x y : ℕ)
        (lightPathCount : ℚ),
        (GenerateCameraSample PathStateIndexBitCount_ context x y lightPathCount).isSome = true)
      ∧ (∀ (PathStateIndexBitCount_ : ℕ) (context : GIIntegratorContext) (vcWeight : ℚ)
          (index : ℕ),
          (GenerateLightSample PathStateIndexBitCount_ context vcWeight index = none
            ↔ 2 ^ PathStateIndexBitCount_ ≤ index)
          ∧ (index < 2 ^ PathStateIndexBitCount_ →
              ∃ state, GenerateLightSample PathStateIndexBitCount_ context vcWeight index
                  = some state ∧ state.index = index))
      ∧ 2 ^ 27 ≤ 8192 * pinholeContext.camera.viewportWidth + 0
      ∧ (GenerateCameraSample 27 pinholeContext 0 8192 1).isSome = true := by
  refine ⟨?_, ?_, ?_, ?_⟩
  · intro bits context x y L
    rw [GenerateCameraSample_eq]
    rfl
  · intro bits context vcWeight index
    constructor
    · simp only [GenerateLightSample]
      split_ifs with h
      · simp only [reduceCtorEq, false_iff, not_le]
        exact h
      · simp only [true_iff]
        exact not_lt.mp h
    · intro h
      exact ⟨_, GenerateLightSample_of_lt bits context vcWeight index h, rfl⟩
  · simp only [pinholeContext]
    norm_num
  · rw [GenerateCameraSample_eq]
    rfl

theorem seeders_index_assertion_witness :
    (GenerateCameraSample 27 pinholeContext 0 8192 1).isSome = true
      ∧ ∃ state, GenerateLightSample 27 pinholeContext 1 5 = some state ∧ state.index = 5 :=
  ⟨seeders_index_assertion.1 27 pinholeContext 0 8192 1,
    (seeders_index_assertion.2.1 27 pinholeContext 1 5).2 (by norm_num)⟩

/-- C20. Every `PathState` produced by a seeder has `dVCM ≥ 0`, `dVC ≥ 0` and `dVM ≥ 0`: for
`GenerateLightSample` whenever `emissionPdfW > 0`, `directionPdfA ≥ 0`, `cosThetaLight ≥ 0` and
`vcWeight ≥ 0`, and for `GenerateCameraSample` whenever `lightPathCount ≥ 0`,
`cosThetaCamera > 0` and `virtualImagePlaneDistance ≠ 0`. -/
theorem seeders_accumulators_nonneg (PathStateIndexBitCount_ : ℕ)
    (context : GIIntegratorContext) :
    (∀ (vcWeight : ℚ) (index : ℕ) (state : PathState),
        0 < context.EmitIblLightSample.emissionPdfW →
        0 ≤ context.EmitIblLightSample.directionPdfA →
        0 ≤ context.EmitIblLightSample.cosThetaLight →
        0 ≤ vcWeight →
        GenerateLightSample PathStateIndexBitCount_ context vcWeight index = some state →
        0 ≤ state.dVCM ∧ 0 ≤ state.dVC ∧ 0 ≤ state.dVM)
      ∧ (∀ (x y : ℕ) (lightPathCount : ℚ) (state : PathState),
          0 ≤ lightPathCount →
          0 < Dot context.camera.forward (context.JitteredCameraRay x y).direction →
          context.camera.virtualImagePlaneDistance ≠ 0 →
          GenerateCameraSample PathStateIndexBitCount_ context x y lightPathCount = some state →
          0 ≤ state.dVCM ∧ 0 ≤ state.dVC ∧ 0 ≤ state.dVM) := by
  constructor
  · intro vcWeight index state hPdf hDir hCos hW hs
    simp only [GenerateLightSample] at hs
    split_ifs at hs with h
    simp only [Option.some.injEq] at hs
    subst hs
    simp only [mul_one]
    exact ⟨div_nonneg hDir hPdf.le, div_nonneg hCos hPdf.le,
      mul_nonneg (div_nonneg hCos hPdf.le) hW⟩
  · intro x y L state hL hCos hDist hs
    rw [GenerateCameraSample_eq] at hs
    simp only [Option.some.injEq] at hs
    subst hs
    refine ⟨?_, le_refl _, le_refl _⟩
    simp only
    have := mul_self_nonneg (context.camera.virtualImagePlaneDistance
      / Dot context.camera.forward (context.JitteredCameraRay x y).direction)
    exact mul_nonneg hL (div_nonneg zero_le_one (div_nonneg this hCos.le))

theorem seeders_accumulators_nonneg_witness :
    (∃ state, GenerateLightSample 27 pinholeContext (1 / 3) 5 = some state
        ∧ 0 ≤ state.dVCM ∧ 0 ≤ state.dVC ∧ 0 ≤ state.dVM)
      ∧ (∃ state, GenerateCameraSample 27 pinholeContext 3 2 7 = some state
          ∧ 0 ≤ state.dVCM ∧ 0 ≤ state.dVC ∧ 0 ≤ state.dVM) :=
  ⟨⟨_, GenerateLightSample_of_lt 27 pinholeContext (1 / 3) 5 (by norm_num),
      (seeders_accumulators_nonneg 27 pinholeContext).1 (1 / 3) 5 _
        (by norm_num [pinholeContext]) (by norm_num [pinholeContext])
        (by norm_num [pinholeContext]) (by norm_num)
        (GenerateLightSample_of_lt 27 pinholeContext (1 / 3) 5 (by norm_num))⟩,
    ⟨_, GenerateCameraSample_eq 27 pinholeContext 3 2 7,
      (seeders_accumulators_nonneg 27 pinholeContext).2 3 2 7 _ (by norm_num)
        (by norm_num [pinholeContext, Dot]) (by norm_num [pinholeContext])
        (GenerateCameraSample_eq 27 pinholeContext 3 2 7)⟩⟩

/-- C21. For every hit and material with `ior ≠ 0`, `CalculateSurfaceParams` sets
`relativeIOR = ior` when the material has the transparent flag and `Dot(view, n) < 0` for the
normalised frame normal `n`, and `relativeIOR = 1/ior` in every other case: a material without the
flag, and `Dot(view, n) ≥ 0`. The overload with the resolved model data does so for every model
data, and the first overload stores the same value for the model data of the hit. -/
theorem CalculateSurfaceParams_relativeIOR (E : Collaborators) (S : SceneCollaborators)
    (hit : HitParameters) (modelData : ModelGeometryUserData) (localToWorld : float4x4)
    (filter : PtexFilter) (surface : SurfaceParameters)
    (hIor : modelData.material.scalarAttributeValues MaterialProperty.eIor ≠ 0) :
    let ior := modelData.material.scalarAttributeValues MaterialProperty.eIor
    let n := FrameNormal E S hit modelData localToWorld
    let transparent := modelData.material.flags &&& S.eTransparent ≠ 0
    let r := (CalculateSurfaceParamsResolved E S hit modelData localToWorld filter surface).2
    (transparent ∧ Dot hit.view n < 0 → r.relativeIOR = ior)
      ∧ (¬transparent → r.relativeIOR = 1 / ior)
      ∧ (0 ≤ Dot hit.view n → r.relativeIOR = 1 / ior)
      ∧ (S.ModelDataFromRayIds hit.instId hit.geomId = (localToWorld, modelData) →
          (CalculateSurfaceParams E S hit surface).2.relativeIOR = r.relativeIOR) := by
  intro ior n transparent r
  have hr : r.relativeIOR = if transparent ∧ Dot hit.view n < 0 then ior else 1 / ior := rfl
  refine ⟨?_, ?_, ?_, ?_⟩
  · intro h
    rw [hr, if_pos h]
  · intro h
    rw [hr, if_neg (fun hc => h hc.1)]
  · intro h
    rw [hr, if_neg (fun hc => absurd hc.2 (not_lt.mpr h))]
  · intro h
    rw [CalculateSurfaceParams_eq_Resolved, h]
    rfl

theorem CalculateSurfaceParams_relativeIOR_witness :
    (CalculateSurfaceParamsResolved Textbook.collaborators Textbook.scene backHit glassModel
        identity4x4 whiteFilter plainSurface).2.relativeIOR = 3 / 2
      ∧ (CalculateSurfaceParams Textbook.collaborators Textbook.scene backHit
          plainSurface).2.relativeIOR = 3 / 2 := by
  have h := CalculateSurfaceParams_relativeIOR Textbook.collaborators Textbook.scene backHit
    glassModel identity4x4 whiteFilter plainSurface (by norm_num [glassModel, glassMaterial])
  have h1 := h.1 ⟨by decide, by rw [FrameNormal_backHit]; norm_num [Dot, backHit]⟩
  have h4 := h.2.2.2 rfl
  exact ⟨h1, h4.trans h1⟩

/-- C22. For every material descriptor, `CalculateSurfaceParams` (both overloads) stores
`metallic = clamp(descriptor metallic, 0, 1)` and `specTrans = clamp(descriptor specTrans, 0, 1)`,
both in `[0,1]`, `diffTrans = 0.5 · descriptor diffuseTrans`, and every other scalar attribute
(sheen, sheenTint, clearcoat, clearcoatGloss, flatness, anisotropic, specularTint, roughness,
scatterDistance, ior) equal to the descriptor's value. -/
theorem CalculateSurfaceParams_scalar_attributes (E : Collaborators) (S : SceneCollaborators)
    (hit : HitParameters) (modelData : ModelGeometryUserData) (localToWorld : float4x4)
    (filter : PtexFilter) (surface : SurfaceParameters) :
    let stored := fun (m : MaterialResourceData) (r : SurfaceParameters) =>
      r.metallic = max 0 (min (m.scalarAttributeValues MaterialProperty.eMetallic) 1)
        ∧ r.specTrans = max 0 (min (m.scalarAttributeValues MaterialProperty.eSpecTrans) 1)
        ∧ 0 ≤ r.metallic ∧ r.metallic ≤ 1 ∧ 0 ≤ r.specTrans ∧ r.specTrans ≤ 1
        ∧ r.diffTrans = 0.5 * m.scalarAttributeValues MaterialProperty.eDiffuseTrans
        ∧ r.sheen = m.scalarAttributeValues MaterialProperty.eSheen
        ∧ r.sheenTint = m.scalarAttributeValues MaterialProperty.eSheenTint
        ∧ r.clearcoat = m.scalarAttributeValues MaterialProperty.eClearcoat
        ∧ r.clearcoatGloss = m.scalarAttributeValues MaterialProperty.eClearcoatGloss
        ∧ r.flatness = m.scalarAttributeValues MaterialProperty.eFlatness
        ∧ r.anisotropic = m.scalarAttributeValues MaterialProperty.eAnisotropic
        ∧ r.specularTint = m.scalarAttributeValues MaterialProperty.eSpecularTint
        ∧ r.roughness = m.scalarAttributeValues MaterialProperty.eRoughness
        ∧ r.scatterDistance = m.scalarAttributeValues MaterialProperty.eScatterDistance
        ∧ r.ior = m.scalarAttributeValues MaterialProperty.eIor
    stored modelData.material
        (CalculateSurfaceParamsResolved E S hit modelData localToWorld filter surface).2
      ∧ stored (S.ModelDataFromRayIds hit.instId hit.geomId).2.material
          (CalculateSurfaceParams E S hit surface).2 := by
  intro stored
  have key : ∀ (md : ModelGeometryUserData) (l2w : float4x4) (f : PtexFilter),
      stored md.material (CalculateSurfaceParamsResolved E S hit md l2w f surface).2 := by
    intro md l2w f
    simp only [stored, CalculateSurfaceParamsResolved]
    refine ⟨Saturate_eq_clamp _, Saturate_eq_clamp _, Saturate_nonneg _, Saturate_le_one _,
      Saturate_nonneg _, Saturate_le_one _, ?_, trivial, trivial, trivial, trivial, trivial,
      trivial, trivial, trivial, trivial, trivial⟩
    ring
  refine ⟨key _ _ _, ?_⟩
  rw [CalculateSurfaceParams_eq_Resolved]
  exact key _ _ _

/-- C23. For every surface, direction and `biasScale`, `OffsetRayOrigin` returns
`position + s · error · biasScale · N`, where `N = GeometricNormal(surface)` and `s = −1` if
`Dot(direction, N) < 0` and `s = +1` otherwise; hence for `error · biasScale > 0` and
`Dot(direction, N) ≠ 0` the displacement `result − position` has a dot product with `N` of the
sign of `Dot(direction, N)`. The overload with the extra output returns the same point and sets
`signedBiasDistance = s · error · biasScale`. -/
theorem OffsetRayOrigin_spec (surface : SurfaceParameters) (direction : float3) (biasScale : ℚ) :
    let N := GeometricNormal surface
    let s : ℚ := if Dot direction N < 0 then -1 else 1
    let result := OffsetRayOrigin surface direction biasScale
    result = surface.position + (s * surface.error * biasScale) * N
      ∧ (0 < surface.error * biasScale → Dot direction N < 0 →
          Dot (result - surface.position) N < 0)
      ∧ (0 < surface.error * biasScale → 0 < Dot direction N →
          0 < Dot (result - surface.position) N)
      ∧ OffsetRayOriginSigned surface direction biasScale
          = (result, s * surface.error * biasScale) := by
  intro N s result
  have hdisp : Dot (result - surface.position) N = s * surface.error * biasScale * Dot N N := by
    have hres : result = surface.position + (s * surface.error * biasScale) * N := rfl
    rw [hres]
    simp only [Dot, float3.add_def, float3.sub_def, float3.smul_def]
    ring
  have hNN : Dot direction N ≠ 0 → 0 < Dot N N := by
    intro hd
    apply float3.dot_self_pos
    intro h0
    apply hd
    rw [h0]
    simp [Dot, float3.Zero_]
  refine ⟨rfl, ?_, ?_, rfl⟩
  · intro hpos hneg
    have hs : s = -1 := if_pos hneg
    have hN := hNN (ne_of_lt hneg)
    rw [hdisp, hs]
    have : 0 < surface.error * biasScale * Dot N N := mul_pos hpos hN
    linarith
  · intro hpos hgt
    have hs : s = 1 := if_neg (not_lt.mpr hgt.le)
    have hN := hNN (ne_of_gt hgt)
    rw [hdisp, hs]
    have : 0 < surface.error * biasScale * Dot N N := mul_pos hpos hN
    linarith

theorem OffsetRayOrigin_spec_witness :
    Dot (OffsetRayOrigin { plainSurface with error := 1 / 1000 } ⟨0, -1, 0⟩ 2
        - { plainSurface with error := 1 / 1000 }.position)
      (GeometricNormal { plainSurface with error := 1 / 1000 }) < 0 :=
  (OffsetRayOrigin_spec { plainSurface with error := 1 / 1000 } ⟨0, -1, 0⟩ 2).2.1
    (by norm_num) (by norm_num [Dot, GeometricNormal, plainSurface, identity3x3])

/-- C24. For every surface, `ContinuationProbability` returns
`clamp(max(baseColor.x, baseColor.y, baseColor.z), 0, 1)`; the result lies in `[0,1]`, is 0 when
all channels are `≤ 0` and is 1 when any channel is `≥ 1`. -/
theorem ContinuationProbability_spec (surface : SurfaceParameters) :
    let c := surface.baseColor
    let p := ContinuationProbability surface
    p = max 0 (min (max (max c.x c.y) c.z) 1)
      ∧ 0 ≤ p ∧ p ≤ 1
      ∧ (c.x ≤ 0 ∧ c.y ≤ 0 ∧ c.z ≤ 0 → p = 0)
      ∧ (1 ≤ c.x ∨ 1 ≤ c.y ∨ 1 ≤ c.z → p = 1) := by
  intro c p
  have hp : p = max 0 (min (max (max c.x c.y) c.z) 1) := by
    simp only [p, ContinuationProbability, Saturate_eq_clamp, Max_eq_max, c]
  refine ⟨hp, ?_, ?_, ?_, ?_⟩
  · rw [hp]
    exact le_max_left _ _
  · rw [hp]
    exact max_le zero_le_one (min_le_right _ _)
  · rintro ⟨hx, hy, hz⟩
    rw [hp]
    apply max_eq_left
    exact le_trans (min_le_left _ _) (max_le (max_le hx hy) hz)
  · intro h
    rw [hp]
    have h1 : 1 ≤ max (max c.x c.y) c.z := by
      rcases h with h | h | h
      · exact le_trans h (le_trans (le_max_left _ _) (le_max_left _ _))
      · exact le_trans h (le_trans (le_max_right _ _) (le_max_left _ _))
      · exact le_trans h (le_max_right _ _)
    rw [min_eq_right h1]
    exact max_eq_right zero_le_one

theorem ContinuationProbability_spec_witness :
    ContinuationProbability plainSurface = 1
      ∧ ContinuationProbability { plainSurface with baseColor := ⟨0, -1, 0⟩ } = 0 :=
  ⟨(ContinuationProbability_spec plainSurface).2.2.2.2
      (Or.inl (by norm_num [plainSurface])),
    (ContinuationProbability_spec { plainSurface with baseColor := ⟨0, -1, 0⟩ }).2.2.2.1
      ⟨by norm_num, by norm_num, by norm_num⟩⟩

/-- C25. Sampler consumption is bounded and fixed by the branch taken: every `SampleDisney` call
draws at least 1 and at most 4 uniform variates: 1 for the lobe selection, then 2 in the specular
and in the clearcoat lobe, 2 (when the cosine of the sampled direction is zero) or 3 in the diffuse
lobe, 0 (when the cosine of `wo` is zero) or 3 in the transmission lobe; the stream itself is
not changed. `EvaluateDisney` has no sampler among its arguments or results, so it draws none and
two calls with equal inputs return equal results. -/
theorem SampleDisney_sampler_consumption (E : Collaborators) (sampler : CSampler)
    (surface : SurfaceParameters) (v : float3) (thin : Bool) (sample : BsdfSample) :
    let r := SampleDisney E sampler surface v thin sample
    let rest := sampler.UniformFloat.2
    let wo := E.MatrixMultiply v surface.worldToTangent
    let dotNL := CosTheta (E.Sign (CosTheta wo)
      * SampleCosineWeightedHemisphere E rest.UniformFloat.1 rest.UniformFloat.2.UniformFloat.1)
    let lobeDraws : ℕ :=
      match SelectLobe (CalculateLobePdfs surface) sampler.UniformFloat.1 with
      | Lobe.specular => 2
      | Lobe.clearcoat => 2
      | Lobe.diffuse => if dotNL = 0 then 2 else 3
      | Lobe.transmission => if CosTheta wo = 0 then 0 else 3
      | Lobe.flagged => 0
    r.2.2.stream = sampler.stream
      ∧ r.2.2.drawn = sampler.drawn + 1 + lobeDraws
      ∧ sampler.drawn + 1 ≤ r.2.2.drawn ∧ r.2.2.drawn ≤ sampler.drawn + 4
      ∧ (∀ (surface2 : SurfaceParameters) (v2 l l2 : float3) (thin2 : Bool),
          surface2 = surface → v2 = v → l2 = l → thin2 = thin →
          EvaluateDisney E surface2 v2 l2 thin2 = EvaluateDisney E surface v l thin) := by
  intro r rest wo dotNL lobeDraws
  have hr : r.2.2 = (SampleLobe E (SelectLobe (CalculateLobePdfs surface) sampler.UniformFloat.1)
      rest surface v thin sample).2.2 := by
    simp only [r, SampleDisney_eq_SampleLobe, rest]
  have key : r.2.2.stream = sampler.stream ∧ r.2.2.drawn = sampler.drawn + 1 + lobeDraws := by
    rw [hr]
    simp only [lobeDraws]
    cases SelectLobe (CalculateLobePdfs surface) sampler.UniformFloat.1
    · simp only [SampleLobe, SampleDisneyBRDF_sampler]
      exact ⟨rfl, rfl⟩
    · simp only [SampleLobe, SampleDisneyClearcoat_sampler]
      exact ⟨rfl, rfl⟩
    · simp only [SampleLobe, SampleDisneyDiffuse_sampler]
      by_cases h : dotNL = 0
      · rw [if_pos h, if_pos h]
        exact ⟨rfl, rfl⟩
      · rw [if_neg h, if_neg h]
        exact ⟨rfl, rfl⟩
    · simp only [SampleLobe, SampleDisneySpecTransmission_sampler]
      by_cases h : CosTheta wo = 0
      · rw [if_pos h, if_pos h]
        exact ⟨rfl, rfl⟩
      · rw [if_neg h, if_neg h]
        exact ⟨rfl, rfl⟩
    · exact ⟨rfl, rfl⟩
  have hle : lobeDraws ≤ 3 := by
    simp only [lobeDraws]
    cases SelectLobe (CalculateLobePdfs surface) sampler.UniformFloat.1 <;>
      simp only [] <;> first | (split_ifs <;> norm_num) | norm_num
  refine ⟨key.1, key.2, ?_, ?_, ?_⟩
  · rw [key.2]
    omega
  · rw [key.2]
    omega
  · intro surface2 v2 l l2 thin2 h1 h2 h3 h4
    rw [h1, h2, h3, h4]

theorem SampleDisney_sampler_consumption_witness :
    (SampleDisney unitCollaborators (samplerFrom (1 / 2)) coatedSurface ⟨0, 1, 0⟩ false
      usedSample).2.2.drawn = 3 := by
  have h := (SampleDisney_sampler_consumption unitCollaborators (samplerFrom (1 / 2))
    coatedSurface ⟨0, 1, 0⟩ false usedSample).2.1
  have hl : SelectLobe (CalculateLobePdfs coatedSurface) (samplerFrom (1 / 2)).UniformFloat.1
      = Lobe.clearcoat := by
    obtain ⟨h1, h2, h3, h4⟩ := coatedSurface_lobes
    simp only [SelectLobe, h1, h2, h3, h4, samplerFrom, CSampler.UniformFloat]
    norm_num
  rw [hl] at h
  exact h

/-- C26. The clearcoat sampler tests `Dot(wi, wo) < 0`, not the cosine of `wi`: whenever the unit
outgoing direction is `wo = (9/41, 40/41, 0)` (positive cosine) and the half vector drawn from
the two variates is `wm = (4/5, 3/5, 0)`, the reflected direction is
`wi = (1023/1025, -64/1025, 0)`, below the shading hemisphere, `Dot(wi, wo) = 6647/42025 ≥ 0`, and
`SampleDisneyClearcoat` returns `true` with that direction. -/
theorem SampleDisneyClearcoat_accepts_below_hemisphere (E : Collaborators) (sampler : CSampler)
    (surface : SurfaceParameters) (v : float3) (sample : BsdfSample)
    (hRefl : E.Reflect = Textbook.Reflect)
    (hwo : E.Normalize (E.MatrixMultiply v surface.worldToTangent) = ⟨9 / 41, 40 / 41, 0⟩)
    (hwm : SampleClearcoatNormal E sampler.UniformFloat.1 sampler.UniformFloat.2.UniformFloat.1
      = ⟨4 / 5, 3 / 5, 0⟩) :
    E.Reflect ⟨4 / 5, 3 / 5, 0⟩ ⟨9 / 41, 40 / 41, 0⟩ = ⟨1023 / 1025, -64 / 1025, 0⟩
      ∧ CosTheta (⟨1023 / 1025, -64 / 1025, 0⟩ : float3) < 0
      ∧ (SampleDisneyClearcoat E sampler surface v sample).1 = true
      ∧ (SampleDisneyClearcoat E sampler surface v sample).2.1.wi
          = E.Normalize (E.MatrixMultiply ⟨1023 / 1025, -64 / 1025, 0⟩
              (E.MatrixTranspose surface.worldToTangent)) := by
  have hr : E.Reflect ⟨4 / 5, 3 / 5, 0⟩ ⟨9 / 41, 40 / 41, 0⟩ = ⟨1023 / 1025, -64 / 1025, 0⟩ := by
    rw [hRefl]
    norm_num [Textbook.Reflect, Dot, float3.smul_def, float3.sub_def]
  simp only [SampleClearcoatNormal] at hwm
  refine ⟨hr, by norm_num [CosTheta], ?_, ?_⟩
  · simp only [SampleDisneyClearcoat, hwo, hwm]
    norm_num [Dot, hr]
  · simp only [SampleDisneyClearcoat, hwo, hwm]
    norm_num [Dot, hr]

theorem SampleDisneyClearcoat_accepts_below_hemisphere_witness :
    (SampleDisneyClearcoat grazingCollaborators (samplerOf [17 / 20, 0, 0]) coatedSurface
        ⟨9 / 41, 40 / 41, 0⟩ usedSample).1 = true
      ∧ CosTheta (grazingCollaborators.Reflect ⟨4 / 5, 3 / 5, 0⟩ ⟨9 / 41, 40 / 41, 0⟩) < 0 := by
  have h := SampleDisneyClearcoat_accepts_below_hemisphere grazingCollaborators
    (samplerOf [17 / 20, 0, 0]) coatedSurface ⟨9 / 41, 40 / 41, 0⟩ usedSample rfl
    grazing_tangent
    (by
      rw [(samplerOf_variates (17 / 20) 0 0).1, (samplerOf_variates (17 / 20) 0 0).2.1]
      exact SampleClearcoatNormal_grazing)
  refine ⟨h.2.2.1, ?_⟩
  rw [h.1]
  exact h.2.1

/-- C27. For every surface with `metallic` and `specTrans` in `[0,1]` and any `clearcoat`,
`CalculateLobePdfs` yields `pTransmission ≥ 0`, so the last branch of `SampleDisney`, the one that
writes the flagged reflectance `(1000000, 0, 0)`, is taken for no variate `p`: every call is the
rescaled result of one of the four lobe samplers. -/
theorem SampleDisney_flagged_branch_unreachable (surface : SurfaceParameters)
    (hm0 : 0 ≤ surface.metallic) (hm1 : surface.metallic ≤ 1)
    (hs0 : 0 ≤ surface.specTrans) (hs1 : surface.specTrans ≤ 1) :
    0 ≤ (CalculateLobePdfs surface).pSpecTrans
      ∧ (∀ p, SelectLobe (CalculateLobePdfs surface) p ≠ Lobe.flagged)
      ∧ (∀ (E : Collaborators) (sampler : CSampler) (v : float3) (thin : Bool)
          (sample : BsdfSample),
          ∃ lobe, lobe ≠ Lobe.flagged
            ∧ SampleDisney E sampler surface v thin sample
              = ((SampleLobe E lobe sampler.UniformFloat.2 surface v thin sample).1,
                 RescaleByLobePdf ((CalculateLobePdfs surface).pLobe lobe)
                   (SampleLobe E lobe sampler.UniformFloat.2 surface v thin sample).2.1,
                 (SampleLobe E lobe sampler.UniformFloat.2 surface v thin sample).2.2)) := by
  have hT := (LobePdfs_nonneg surface hm0 hm1 hs0 hs1).2.2.2
  have hsel : ∀ p, SelectLobe (CalculateLobePdfs surface) p ≠ Lobe.flagged := by
    intro p
    simp only [SelectLobe]
    split_ifs with h1 h2 h3
    · exact fun h => Lobe.noConfusion h
    · exact fun h => Lobe.noConfusion h
    · exact fun h => Lobe.noConfusion h
    · exact fun h => Lobe.noConfusion h
  refine ⟨hT, hsel, ?_⟩
  intro E sampler v thin sample
  exact ⟨_, hsel _, SampleDisney_eq_SampleLobe E sampler surface v thin sample⟩

theorem SampleDisney_flagged_branch_unreachable_witness :
    0 ≤ (CalculateLobePdfs plainSurface).pSpecTrans
      ∧ ∀ p, SelectLobe (CalculateLobePdfs plainSurface) p ≠ Lobe.flagged :=
  ⟨(SampleDisney_flagged_branch_unreachable plainSurface (by norm_num [plainSurface])
      (by norm_num [plainSurface]) (by norm_num [plainSurface])
      (by norm_num [plainSurface])).1,
    (SampleDisney_flagged_branch_unreachable plainSurface (by norm_num [plainSurface])
      (by norm_num [plainSurface]) (by norm_num [plainSurface])
      (by norm_num [plainSurface])).2.1⟩

/-- C28. For every successful `SampleDisneySpecTransmission` call, the returned event flags
contain the Dirac-delta flag if and only if the surface roughness is `< 0.01` (for thin and
non-thin surfaces, and for the reflection and the refraction outcome). -/
theorem SampleDisneySpecTransmission_dirac (E : Collaborators) (sampler : CSampler)
    (surface : SurfaceParameters) (v : float3) (thin : Bool) (sample : BsdfSample)
    (hOk : (SampleDisneySpecTransmission E sampler surface v thin sample).1 = true) :
    (SampleDisneySpecTransmission E sampler surface v thin sample).2.1.flags.diracEvent = true
      ↔ surface.roughness < 0.01 := by
  obtain ⟨_, _, hflags, _, _⟩ :=
    SampleDisneySpecTransmission_of_success E sampler surface v thin sample hOk
  rw [hflags]
  by_cases hr : surface.roughness < 0.01
  · rw [if_pos hr]
    simp [SurfaceEventFlags.or, SurfaceEventFlags.eDiracEvent, hr]
  · rw [if_neg hr, SpecTransmissionBranch_diracEvent]
    simp [hr]

theorem SampleDisneySpecTransmission_dirac_witness :
    (SampleDisneySpecTransmission Textbook.collaborators (samplerOf [0, 0, 1 / 2]) glassSurface
        ⟨0, 1, 0⟩ false usedSample).2.1.flags.diracEvent = true
      ↔ glassSurface.roughness < 0.01 :=
  SampleDisneySpecTransmission_dirac Textbook.collaborators (samplerOf [0, 0, 1 / 2])
    glassSurface ⟨0, 1, 0⟩ false usedSample glass_refraction_succeeds

/-- C29. With `thin = true`, every successful sample from `SampleDisneySpecTransmission` and from
`SampleDisneyDiffuse` is flagged as a scatter event and never as a transmission event, and no
medium descriptor is written (the medium of the record is the one passed in); with `thin = false`,
`SampleDisneySpecTransmission` flags a transmission event exactly when the Fresnel test chose
refraction (the third variate is `> F`) and `Transmit` succeeded, and falls back to a scatter
event with the reflected direction when `Transmit` fails. -/
theorem thin_and_refraction_events (E : Collaborators) (sampler : CSampler)
    (surface : SurfaceParameters) (v : float3) (sample : BsdfSample) :
    let transmission := fun (thin : Bool) =>
      SampleDisneySpecTransmission E sampler surface v thin sample
    let diffuse := fun (thin : Bool) => SampleDisneyDiffuse E sampler surface v thin sample
    let p := sampler.UniformFloat.2.UniformFloat.2.UniformFloat.1
    let F := SpecTransmissionFresnel E sampler surface v false
    let refracted := SpecTransmissionTransmit E sampler surface v false
    ((transmission true).1 = true →
        (transmission true).2.1.flags.scatterEvent = true
          ∧ (transmission true).2.1.flags.transmissionEvent = false
          ∧ (transmission true).2.1.medium = sample.medium)
      ∧ ((diffuse true).1 = true →
          (diffuse true).2.1.flags = SurfaceEventFlags.eScatterEvent
            ∧ (diffuse true).2.1.medium = sample.medium)
      ∧ ((transmission false).1 = true →
          ((transmission false).2.1.flags.transmissionEvent = true
              ↔ F < p ∧ refracted.isSome = true)
            ∧ (F < p → refracted = none →
                (transmission false).2.1.flags.scatterEvent = true
                  ∧ (transmission false).2.1.flags.transmissionEvent = false
                  ∧ (transmission false).2.1.wi
                    = E.Normalize (E.MatrixMultiply
                        (E.Normalize (E.Reflect (SpecTransmissionNormal E sampler surface v false)
                          (E.MatrixMultiply v surface.worldToTangent)))
                        (E.MatrixTranspose surface.worldToTangent)))) := by
  intro transmission diffuse p F refracted
  refine ⟨?_, ?_, ?_⟩
  · intro hOk
    obtain ⟨_, _, hflags, hmedium, _⟩ :=
      SampleDisneySpecTransmission_of_success E sampler surface v true sample hOk
    obtain ⟨hb1, hb2⟩ := SpecTransmissionBranch_thin E sampler surface v sample
    simp only [transmission]
    rw [hflags, hmedium, hb1, hb2]
    refine ⟨?_, ?_, rfl⟩ <;> split_ifs <;> rfl
  · intro hOk
    obtain ⟨_, hflags, hmedium, _, _⟩ :=
      SampleDisneyDiffuse_of_success E sampler surface v true sample hOk
    simp only [diffuse]
    rw [hflags, hmedium]
    simp only [DiffuseBranch]
    split_ifs <;> exact ⟨rfl, rfl⟩
  · intro hOk
    obtain ⟨_, _, hflags, _, hwi⟩ :=
      SampleDisneySpecTransmission_of_success E sampler surface v false sample hOk
    have hb := SpecTransmissionBranch_flags E sampler surface v sample
    simp only [transmission]
    rw [hflags, hb]
    constructor
    · by_cases hp : p ≤ F
      · have hc : p ≤ F ∨ refracted = none := Or.inl hp
        rw [if_pos hc]
        constructor
        · intro h
          exfalso
          revert h
          split_ifs <;> simp [SurfaceEventFlags.or, SurfaceEventFlags.eScatterEvent,
            SurfaceEventFlags.eDiracEvent]
        · intro h
          exact absurd h.1 (not_lt.mpr hp)
      · cases hT : refracted with
        | none =>
          have hc : p ≤ F ∨ refracted = none := Or.inr hT
          rw [if_pos hc]
          constructor
          · intro h
            exfalso
            revert h
            split_ifs <;> simp [SurfaceEventFlags.or, SurfaceEventFlags.eScatterEvent,
              SurfaceEventFlags.eDiracEvent]
          · intro h
            simp at h
        | some w =>
          have hc : ¬ (p ≤ F ∨ refracted = none) := by
            rw [hT]
            simp [hp]
          rw [if_neg hc]
          constructor
          · intro _
            exact ⟨not_le.mp hp, rfl⟩
          · intro _
            split_ifs <;> simp [SurfaceEventFlags.or, SurfaceEventFlags.eTransmissionEvent,
              SurfaceEventFlags.eDiracEvent]
    · intro hp hT
      have hc : p ≤ F ∨ refracted = none := Or.inr hT
      rw [if_pos hc, hwi, SpecTransmissionBranch_fallback E sampler surface v sample
        (not_le.mpr hp) hT]
      refine ⟨?_, ?_, rfl⟩ <;> split_ifs <;> rfl

theorem thin_and_refraction_events_witness :
    ((SampleDisneySpecTransmission Textbook.collaborators (samplerOf [0, 0, 1 / 2]) glassSurface
        ⟨0, 1, 0⟩ true usedSample).2.1.flags.transmissionEvent = false)
      ∧ ((SampleDisneyDiffuse Textbook.collaborators (samplerOf [0, 0, 1 / 4])
          translucentSurface ⟨0, 1, 0⟩ true usedSample).2.1.flags
            = SurfaceEventFlags.eScatterEvent)
      ∧ ((SampleDisneySpecTransmission Textbook.collaborators (samplerOf [0, 0, 1 / 2])
          glassSurface ⟨0, 1, 0⟩ false usedSample).2.1.flags.transmissionEvent = true) :=
  ⟨((thin_and_refraction_events Textbook.collaborators (samplerOf [0, 0, 1 / 2]) glassSurface
      ⟨0, 1, 0⟩ usedSample).1 glass_thin_succeeds).2.1,
    ((thin_and_refraction_events Textbook.collaborators (samplerOf [0, 0, 1 / 4])
      translucentSurface ⟨0, 1, 0⟩ usedSample).2.1 (translucent_succeeds true)).1,
    ((thin_and_refraction_events Textbook.collaborators (samplerOf [0, 0, 1 / 2]) glassSurface
      ⟨0, 1, 0⟩ usedSample).2.2 glass_refraction_succeeds).1.mpr
      ⟨by
        rw [glass_fresnel, (samplerOf_variates 0 0 (1 / 2)).2.2]
        norm_num,
       by rw [glass_transmit]; rfl⟩⟩

/-- C30. For every outgoing direction `wo` with non-zero tangent-space cosine and every
successful `SampleDisneyDiffuse` call with third variate `p`: if `p ≤ diffTrans` the sampled
tangent-space direction lies in the hemisphere opposite to `wo`
(`CosTheta(wi) · CosTheta(wo) < 0`), the event is a transmission event carrying an isotropic
medium with extinction `CalculateExtinction(transmittanceColor, scatterDistance)` when `thin` is
false, and a scatter event using `sqrt(baseColor)` when `thin` is true; if `p > diffTrans` the
direction lies in the hemisphere of `wo` and the event is a scatter event. `Math::Sign` has the
sign of its argument and `Math::Sqrtf` is not negative. -/
theorem SampleDisneyDiffuse_events (E : Collaborators) (sampler : CSampler)
    (surface : SurfaceParameters) (v : float3) (thin : Bool) (sample : BsdfSample)
    (hSign : ∀ x, (0 < x → 0 < E.Sign x) ∧ (x < 0 → E.Sign x < 0))
    (hSqrtf : ∀ x, 0 ≤ E.Sqrtf x)
    (hwo : CosTheta (E.MatrixMultiply v surface.worldToTangent) ≠ 0)
    (hOk : (SampleDisneyDiffuse E sampler surface v thin sample).1 = true) :
    let wo := E.MatrixMultiply v surface.worldToTangent
    let p := sampler.UniformFloat.2.UniformFloat.2.UniformFloat.1
    let wi := (DiffuseBranch E sampler surface v thin sample).1
    let wm := E.Normalize (DiffuseDirection E sampler surface v + wo)
    let r := (SampleDisneyDiffuse E sampler surface v thin sample).2.1
    r.wi = E.Normalize (E.MatrixMultiply wi (E.MatrixTranspose surface.worldToTangent))
      ∧ (p ≤ surface.diffTrans →
          CosTheta wi * CosTheta wo < 0
            ∧ (thin = false →
                r.flags = SurfaceEventFlags.eTransmissionEvent
                  ∧ r.medium = { phaseFunction := MediumPhaseFunction.eIsotropic
                                 extinction := CalculateExtinction surface.transmittanceColor
                                                 surface.scatterDistance })
            ∧ (thin = true →
                r.flags = SurfaceEventFlags.eScatterEvent
                  ∧ r.reflectance = EvaluateSheen E surface wo wm wi
                      + E.Sqrt surface.baseColor
                        * (EvaluateDisneyDiffuse E surface wo wm wi true / surface.diffTrans)))
      ∧ (surface.diffTrans < p →
          0 < CosTheta wi * CosTheta wo ∧ r.flags = SurfaceEventFlags.eScatterEvent) := by
  intro wo p wi wm r
  obtain ⟨hne, hflags, hmedium, hwi, hrefl⟩ :=
    SampleDisneyDiffuse_of_success E sampler surface v thin sample hOk
  have hside := DiffuseDirection_same_side E sampler surface v hSign hSqrtf hwo hne
  refine ⟨hwi, ?_, ?_⟩
  · intro hp
    have hb : DiffuseBranch E sampler surface v thin sample
        = if thin then
            (-DiffuseDirection E sampler surface v, surface.diffTrans, E.Sqrt surface.baseColor,
              SurfaceEventFlags.eScatterEvent, sample)
          else
            (-DiffuseDirection E sampler surface v, surface.diffTrans, surface.baseColor,
              SurfaceEventFlags.eTransmissionEvent,
              { sample with
                  medium := { phaseFunction := MediumPhaseFunction.eIsotropic
                              extinction := CalculateExtinction surface.transmittanceColor
                                              surface.scatterDistance } }) := by
      simp only [DiffuseBranch]
      rw [if_pos hp]
    have hwi1 : wi = -DiffuseDirection E sampler surface v := by
      simp only [wi, hb]
      split_ifs <;> rfl
    refine ⟨?_, ?_, ?_⟩
    · rw [hwi1]
      have : CosTheta (-DiffuseDirection E sampler surface v)
          = -CosTheta (DiffuseDirection E sampler surface v) := rfl
      rw [this]
      have hside2 : 0 < CosTheta (DiffuseDirection E sampler surface v) * CosTheta wo := hside
      linarith
    · intro ht
      simp only [r]
      rw [hflags, hmedium, hb, ht]
      exact ⟨rfl, rfl⟩
    · intro ht
      subst ht
      have hb2 : DiffuseBranch E sampler surface v true sample
          = (-DiffuseDirection E sampler surface v, surface.diffTrans, E.Sqrt surface.baseColor,
              SurfaceEventFlags.eScatterEvent, sample) := by
        rw [hb]
        rfl
      simp only [r, wi, wm, wo]
      rw [hflags, hrefl, hb2]
      exact ⟨rfl, rfl⟩
  · intro hp
    have hb : DiffuseBranch E sampler surface v thin sample
        = (DiffuseDirection E sampler surface v, 1 - surface.diffTrans, surface.baseColor,
            SurfaceEventFlags.eScatterEvent, sample) := by
      simp only [DiffuseBranch]
      rw [if_neg (not_le.mpr hp)]
    refine ⟨?_, ?_⟩
    · simp only [wi, hb]
      exact hside
    · simp only [r]
      rw [hflags, hb]

theorem SampleDisneyDiffuse_events_witness :
    (SampleDisneyDiffuse Textbook.collaborators (samplerOf [0, 0, 1 / 4]) translucentSurface
        ⟨0, 1, 0⟩ false usedSample).2.1.flags = SurfaceEventFlags.eTransmissionEvent
      ∧ CosTheta (DiffuseBranch Textbook.collaborators (samplerOf [0, 0, 1 / 4])
            translucentSurface ⟨0, 1, 0⟩ false usedSample).1
          * CosTheta (Textbook.collaborators.MatrixMultiply ⟨0, 1, 0⟩
              translucentSurface.worldToTangent) < 0 := by
  have h := (SampleDisneyDiffuse_events Textbook.collaborators (samplerOf [0, 0, 1 / 4])
    translucentSurface ⟨0, 1, 0⟩ false usedSample Textbook.Sign_contract Textbook.Sqrtf_nonneg
    (by
      have hw : Textbook.collaborators.MatrixMultiply ⟨0, 1, 0⟩
          translucentSurface.worldToTangent = ⟨0, 1, 0⟩ := Textbook.MatrixMultiply_identity _
      rw [hw]
      norm_num [CosTheta])
    (translucent_succeeds false)).2.1
    (by
      rw [(samplerOf_variates 0 0 (1 / 4)).2.2]
      norm_num [translucentSurface])
  exact ⟨(h.2.1 rfl).1, h.1⟩

/-- C31. The assertion `pdf > 0` of `SampleDisneyDiffuse` (line 515) does not hold on every input
that reaches it. For `diffTrans` in `[0,1]` and a third variate `p` in `[0,1)` the local `pdf` is
`> 0` exactly when not both `p = 0` and `diffTrans = 0`. With `p = 0` and `diffTrans = 0`, and a
sampled direction whose cosine is not `0`, line 494 takes the branch `p <= diffTrans`, the call
reaches the assertion with `pdf = diffTrans = 0`, divides `diffuse` by it and returns `true` with
`forwardPdfW = 0`. -/
theorem SampleDisneyDiffuse_pdf_assertion (E : Collaborators) (sampler : CSampler)
    (surface : SurfaceParameters) (v : float3) (thin : Bool) (sample : BsdfSample)
    (hd0 : 0 ≤ surface.diffTrans) (hd1 : surface.diffTrans ≤ 1)
    (hp0 : 0 ≤ sampler.UniformFloat.2.UniformFloat.2.UniformFloat.1)
    (hp1 : sampler.UniformFloat.2.UniformFloat.2.UniformFloat.1 < 1) :
    let p := sampler.UniformFloat.2.UniformFloat.2.UniformFloat.1
    let pdf := (DiffuseBranch E sampler surface v thin sample).2.1
    (0 < pdf ↔ ¬ (p = 0 ∧ surface.diffTrans = 0))
      ∧ (p = 0 → surface.diffTrans = 0 →
          CosTheta (DiffuseDirection E sampler surface v) ≠ 0 →
          (SampleDisneyDiffuse E sampler surface v thin sample).1 = true
            ∧ pdf = 0
            ∧ (SampleDisneyDiffuse E sampler surface v thin sample).2.1.forwardPdfW = 0) := by
  intro p pdf
  have hpdf : pdf = if p ≤ surface.diffTrans then surface.diffTrans
      else 1 - surface.diffTrans := DiffuseBranch_pdf E sampler surface v thin sample
  constructor
  · rw [hpdf]
    by_cases hle : p ≤ surface.diffTrans
    · rw [if_pos hle]
      constructor
      · intro hpos hboth
        linarith [hboth.2]
      · intro hnot
        rcases lt_or_eq_of_le hd0 with h | h
        · exact h
        · exact absurd ⟨le_antisymm (by rw [← h] at hle; exact hle) hp0, h.symm⟩ hnot
    · rw [if_neg hle]
      have hlt : surface.diffTrans < p := not_le.mp hle
      constructor
      · intro _ hboth
        rw [hboth.1, hboth.2] at hlt
        exact lt_irrefl _ hlt
      · intro _
        have hp1' : p < 1 := hp1
        linarith
  · intro hp hd hcos
    have hzero : pdf = 0 := by
      rw [hpdf, if_pos (by rw [hp, hd]), hd]
    refine ⟨SampleDisneyDiffuse_success E sampler surface v thin sample hcos, hzero, ?_⟩
    rw [SampleDisneyDiffuse_eq_branch, if_neg hcos]
    show Absf (CosTheta (DiffuseDirection E sampler surface v)) * pdf = 0
    rw [hzero, mul_zero]

theorem SampleDisneyDiffuse_pdf_assertion_witness :
    (SampleDisneyDiffuse Textbook.collaborators (samplerOf [0, 0, 0]) plainSurface ⟨0, 1, 0⟩ false
        usedSample).1 = true
      ∧ (DiffuseBranch Textbook.collaborators (samplerOf [0, 0, 0]) plainSurface ⟨0, 1, 0⟩ false
          usedSample).2.1 = 0
      ∧ (SampleDisneyDiffuse Textbook.collaborators (samplerOf [0, 0, 0]) plainSurface ⟨0, 1, 0⟩
          false usedSample).2.1.forwardPdfW = 0 :=
  (SampleDisneyDiffuse_pdf_assertion Textbook.collaborators (samplerOf [0, 0, 0]) plainSurface
    ⟨0, 1, 0⟩ false usedSample (by norm_num [plainSurface]) (by norm_num [plainSurface])
    (by rw [(samplerOf_variates 0 0 0).2.2])
    (by rw [(samplerOf_variates 0 0 0).2.2]; norm_num)).2
    (samplerOf_variates 0 0 0).2.2 rfl
    (by rw [plain_direction]; norm_num [CosTheta])

/-- C32. The event flags after a successful `SampleDisney` call are written by the call for three
of the four lobes only. When the specular, the diffuse or the transmission lobe is chosen, the
flags are the same for every record passed in and contain the scatter or the transmission flag.
When the clearcoat lobe is chosen, no statement assigns the flags: the returned flags are the ones
the record held before the call, for every record. -/
theorem SampleDisney_flags_frame (E : Collaborators) (sampler : CSampler)
    (surface : SurfaceParameters) (v : float3) (thin : Bool) (sample sample' : BsdfSample)
    (hOk : (SampleDisney E sampler surface v thin sample).1 = true) :
    let lobe := SelectLobe (CalculateLobePdfs surface) sampler.UniformFloat.1
    let flags := (SampleDisney E sampler surface v thin sample).2.1.flags
    let flags' := (SampleDisney E sampler surface v thin sample').2.1.flags
    (lobe ≠ Lobe.clearcoat →
        flags' = flags ∧ (flags.scatterEvent = true ∨ flags.transmissionEvent = true))
      ∧ (lobe = Lobe.clearcoat →
          (SampleDisney E sampler surface v thin sample').1 = true
            ∧ flags = sample.flags ∧ flags' = sample'.flags) := by
  intro lobe flags flags'
  have hflags : flags = (SampleLobe E lobe sampler.UniformFloat.2 surface v thin
      sample).2.1.flags := by
    simp only [flags, lobe]
    rw [SampleDisney_eq_SampleLobe]
    exact RescaleByLobePdf_flags _ _
  have hflags' : flags' = (SampleLobe E lobe sampler.UniformFloat.2 surface v thin
      sample').2.1.flags := by
    simp only [flags', lobe]
    rw [SampleDisney_eq_SampleLobe]
    exact RescaleByLobePdf_flags _ _
  have hOkLobe : (SampleLobe E lobe sampler.UniformFloat.2 surface v thin sample).1 = true := by
    rw [SampleDisney_eq_SampleLobe] at hOk
    exact hOk
  rw [hflags, hflags']
  constructor
  · intro hne
    cases hl : lobe with
    | specular =>
      rw [hl] at hOkLobe
      obtain ⟨h1, h2⟩ := SampleDisneyBRDF_flags E sampler.UniformFloat.2 surface v sample sample'
        hOkLobe
      simp only [SampleLobe]
      rw [h1, h2]
      exact ⟨rfl, Or.inl rfl⟩
    | clearcoat => exact absurd hl hne
    | diffuse =>
      rw [hl] at hOkLobe
      exact SampleDisneyDiffuse_flags E sampler.UniformFloat.2 surface v thin sample sample'
        hOkLobe
    | transmission =>
      rw [hl] at hOkLobe
      exact SampleDisneySpecTransmission_flags E sampler.UniformFloat.2 surface v thin sample
        sample' hOkLobe
    | flagged =>
      rw [hl] at hOkLobe
      exact absurd hOkLobe (by simp [SampleLobe])
  · intro hl
    rw [hl] at hOkLobe ⊢
    refine ⟨?_, SampleDisneyClearcoat_flags E _ surface v sample,
      SampleDisneyClearcoat_flags E _ surface v sample'⟩
    rw [SampleDisney_eq_SampleLobe]
    show (SampleLobe E lobe sampler.UniformFloat.2 surface v thin sample').1 = true
    rw [hl]
    show (SampleDisneyClearcoat E sampler.UniformFloat.2 surface v sample').1 = true
    rw [SampleDisneyClearcoat_success_frame E _ surface v sample sample']
    exact hOkLobe

theorem SampleDisney_flags_frame_witness :
    (SampleDisney unitCollaborators (samplerFrom (1 / 2)) coatedSurface ⟨0, 1, 0⟩ false
        usedSample).2.1.flags = ⟨false, false, false⟩
      ∧ (SampleDisney unitCollaborators (samplerFrom (1 / 2)) coatedSurface ⟨0, 1, 0⟩ false
          { usedSample with flags := SurfaceEventFlags.eTransmissionEvent }).2.1.flags
        = SurfaceEventFlags.eTransmissionEvent :=
  ((SampleDisney_flags_frame unitCollaborators (samplerFrom (1 / 2)) coatedSurface ⟨0, 1, 0⟩ false
    usedSample { usedSample with flags := SurfaceEventFlags.eTransmissionEvent }
    SampleDisney_coated_up_succeeds).2 coatedSurface_selects_clearcoat).2

/-- C33. For every surface with `clearcoat > 0` and every successful `SampleDisneyClearcoat` call
with tangent-space `wo`, sampled unit microfacet normal `wm` with `Dot(wo, wm) > 0` and
`wi = Reflect(wm, wo)`, the returned `forwardPdfW` and `reversePdfW` are the `fPdfW` and `rPdfW`
that `EvaluateDisneyClearcoat` computes for the same `(wo, wm, wi)`, and the returned reflectance
times `forwardPdfW` is the value `EvaluateDisneyClearcoat` returns, in each channel. `Reflect`
mirrors: `Dot(Reflect(n, l), n) = Dot(l, n)` for a unit `n`. Where the density `d` is `0`, the
quotient `reflectance` is `0` here and both sides of the last equation are `0`. -/
theorem SampleDisneyClearcoat_matches_evaluate (E : Collaborators) (sampler : CSampler)
    (surface : SurfaceParameters) (v : float3) (sample : BsdfSample) (fPdfW rPdfW : ℚ)
    (hc : 0 < surface.clearcoat)
    (hReflect : ∀ n l, Dot n n = 1 → Dot (E.Reflect n l) n = Dot l n)
    (hUnit : Dot (ClearcoatNormal E sampler surface v) (ClearcoatNormal E sampler surface v) = 1)
    (hDot : 0 < Dot (E.Normalize (E.MatrixMultiply v surface.worldToTangent))
      (ClearcoatNormal E sampler surface v))
    (hOk : (SampleDisneyClearcoat E sampler surface v sample).1 = true) :
    let wo := E.Normalize (E.MatrixMultiply v surface.worldToTangent)
    let wm := ClearcoatNormal E sampler surface v
    let wi := E.Reflect wm wo
    let evaluated := EvaluateDisneyClearcoat E surface.clearcoat surface.clearcoatGloss wo wm wi
      fPdfW rPdfW
    let sampled := (SampleDisneyClearcoat E sampler surface v sample).2.1
    sampled.forwardPdfW = evaluated.2.1
      ∧ sampled.reversePdfW = evaluated.2.2
      ∧ sampled.reflectance * sampled.forwardPdfW = float3.splat evaluated.1 := by
  intro wo wm wi evaluated sampled
  have hmirror : Dot wi wm = Dot wo wm := hReflect wm wo hUnit
  have hDot' : 0 < Dot wo wm := hDot
  have hev : evaluated
      = (0.25 * surface.clearcoat
            * GTR1 E (AbsCosTheta wm) (Lerp 0.1 0.001 surface.clearcoatGloss)
            * E.Schlick 0.04 (Dot wm wi) * E.SeparableSmithGGXG1a wi 0.25
            * E.SeparableSmithGGXG1a wo 0.25,
          GTR1 E (AbsCosTheta wm) (Lerp 0.1 0.001 surface.clearcoatGloss) / (4 * AbsDot wo wm),
          GTR1 E (AbsCosTheta wm) (Lerp 0.1 0.001 surface.clearcoatGloss)
            / (4 * AbsDot wi wm)) := by
    simp only [evaluated, EvaluateDisneyClearcoat]
    rw [if_neg (not_le.mpr hc)]
  have habs1 : AbsDot wo wm = Dot wo wm := Absf_of_pos _ hDot'
  have habs2 : AbsDot wi wm = Dot wi wm := Absf_of_pos _ (by rw [hmirror]; exact hDot')
  have hs : SampleDisneyClearcoat E sampler surface v sample
      = (true, { sample with
                  reflectance := float3.splat (0.25 * surface.clearcoat
                      * (E.SeparableSmithGGXG1a wi 0.25 * E.SeparableSmithGGXG1a wo 0.25)
                      * E.Schlick 0.04 (Dot wm wi)
                      * GTR1 E (Absf (CosTheta wm)) (Lerp 0.1 0.001 surface.clearcoatGloss))
                    / (GTR1 E (Absf (CosTheta wm)) (Lerp 0.1 0.001 surface.clearcoatGloss)
                        / (4 * Dot wo wm))
                  wi := E.Normalize (E.MatrixMultiply wi
                          (E.MatrixTranspose surface.worldToTangent))
                  forwardPdfW := GTR1 E (Absf (CosTheta wm))
                      (Lerp 0.1 0.001 surface.clearcoatGloss) / (4 * Dot wo wm)
                  reversePdfW := GTR1 E (Absf (CosTheta wm))
                      (Lerp 0.1 0.001 surface.clearcoatGloss) / (4 * Dot wi wm) },
          sampler.UniformFloat.2.UniformFloat.2) := by
    rw [SampleDisneyClearcoat_eq_branch] at hOk ⊢
    exact (ite_false_left _ _ _ hOk).2
  have hsampled : sampled = (SampleDisneyClearcoat E sampler surface v sample).2.1 := rfl
  rw [hsampled, hs, hev, habs1, habs2]
  refine ⟨rfl, rfl, ?_⟩
  dsimp only
  by_cases hd : GTR1 E (Absf (CosTheta wm)) (Lerp 0.1 0.001 surface.clearcoatGloss) = 0
  · simp only [AbsCosTheta, hd, float3.splat, float3.div_scalar_def, float3.mul_scalar_def,
      zero_div, div_zero, mul_zero, zero_mul]
  · have hne : GTR1 E (Absf (CosTheta wm)) (Lerp 0.1 0.001 surface.clearcoatGloss)
        / (4 * Dot wo wm) ≠ 0 := div_ne_zero hd (by linarith)
    simp only [AbsCosTheta, float3.splat, float3.div_scalar_def, float3.mul_scalar_def,
      div_mul_cancel₀ _ hne, float3.mk.injEq]
    refine ⟨?_, ?_, ?_⟩ <;> ring

theorem SampleDisneyClearcoat_matches_evaluate_witness :
    (SampleDisneyClearcoat unitCollaborators (samplerFrom (1 / 2)).UniformFloat.2 coatedSurface
        ⟨0, 1, 0⟩ usedSample).2.1.forwardPdfW
      = (EvaluateDisneyClearcoat unitCollaborators coatedSurface.clearcoat
          coatedSurface.clearcoatGloss
          (unitCollaborators.Normalize
            (unitCollaborators.MatrixMultiply ⟨0, 1, 0⟩ coatedSurface.worldToTangent))
          (ClearcoatNormal unitCollaborators (samplerFrom (1 / 2)).UniformFloat.2 coatedSurface
            ⟨0, 1, 0⟩)
          (unitCollaborators.Reflect
            (ClearcoatNormal unitCollaborators (samplerFrom (1 / 2)).UniformFloat.2 coatedSurface
              ⟨0, 1, 0⟩)
            (unitCollaborators.Normalize
              (unitCollaborators.MatrixMultiply ⟨0, 1, 0⟩ coatedSurface.worldToTangent)))
          0 0).2.1 :=
  (SampleDisneyClearcoat_matches_evaluate unitCollaborators (samplerFrom (1 / 2)).UniformFloat.2
    coatedSurface ⟨0, 1, 0⟩ usedSample 0 0 (by norm_num [coatedSurface])
    (fun n l hn => Textbook.Reflect_mirror n l hn)
    (by rw [ClearcoatNormal_coated_up]; norm_num [Dot])
    (by
      rw [ClearcoatNormal_coated_up]
      have hm : unitCollaborators.MatrixMultiply ⟨0, 1, 0⟩ coatedSurface.worldToTangent
          = ⟨0, 1, 0⟩ := Textbook.MatrixMultiply_identity _
      rw [hm]
      have hn : unitCollaborators.Normalize ⟨0, 1, 0⟩ = ⟨0, 1, 0⟩ := NormalizeUnit_up
      rw [hn]
      norm_num [Dot])
    SampleDisneyClearcoat_coated_up_succeeds).1

/-- C34. For every surface with `metallic` and `specTrans` in `[0,1]` and any `clearcoat`, the lobe
probabilities of `CalculateLobePdfs` satisfy `0 ≤ pDiffuse ≤ pSpecular ≤ 1`,
`0 ≤ pSpecTrans ≤ 1` and `0 ≤ pClearcoat ≤ 1/2`, with
`pSpecular − pDiffuse = metallic / (sum of the weights)`; so `pDiffuse ≤ 1/2`, a positive
`pDiffuse` comes with a positive `pSpecular`, and a positive `pClearcoat` comes with a positive
probability of one of the other three lobes. -/
theorem CalculateLobePdfs_ranges (surface : SurfaceParameters)
    (hm0 : 0 ≤ surface.metallic) (hm1 : surface.metallic ≤ 1)
    (hs0 : 0 ≤ surface.specTrans) (hs1 : surface.specTrans ≤ 1) :
    let lobes := CalculateLobePdfs surface
    (0 ≤ lobes.pDiffuse ∧ lobes.pDiffuse ≤ lobes.pSpecular ∧ lobes.pSpecular ≤ 1)
      ∧ (0 ≤ lobes.pSpecTrans ∧ lobes.pSpecTrans ≤ 1)
      ∧ (0 ≤ lobes.pClearcoat ∧ lobes.pClearcoat ≤ 1 / 2)
      ∧ lobes.pSpecular - lobes.pDiffuse = surface.metallic / (CalculateLobeWeights surface).sum
      ∧ lobes.pDiffuse ≤ 1 / 2
      ∧ (0 < lobes.pDiffuse → 0 < lobes.pSpecular)
      ∧ (0 < lobes.pClearcoat →
          0 < lobes.pSpecular ∨ 0 < lobes.pDiffuse ∨ 0 < lobes.pSpecTrans) := by
  intro lobes
  obtain ⟨hS, hD, hC, hT⟩ := LobePdfs_nonneg surface hm0 hm1 hs0 hs1
  have hsum := LobePdfs_sum surface hm0 hm1 hs1
  have hw := LobeWeights_sum_ge_one surface hm0 hm1 hs1
  have hw0 : 0 < (CalculateLobeWeights surface).sum := by linarith
  have hdiff : lobes.pSpecular - lobes.pDiffuse
      = surface.metallic / (CalculateLobeWeights surface).sum := by
    simp only [lobes, CalculateLobePdfs]
    rw [← sub_mul, mul_one_div]
    congr 1
    simp only [CalculateLobeWeights]
    ring
  have hDS : lobes.pDiffuse ≤ lobes.pSpecular := by
    have : 0 ≤ surface.metallic / (CalculateLobeWeights surface).sum := div_nonneg hm0 hw0.le
    linarith
  have hChalf : lobes.pClearcoat ≤ 1 / 2 := by
    have hsat := Saturate_le_one surface.clearcoat
    have hcw : (CalculateLobeWeights surface).clearcoatWeight = Saturate surface.clearcoat := by
      simp only [CalculateLobeWeights, one_mul]
    have hrest : 1 ≤ (CalculateLobeWeights surface).sum - Saturate surface.clearcoat := by
      rw [LobeWeights_sum_eq]
      nlinarith [mul_nonneg (sub_nonneg.mpr hm1) (sub_nonneg.mpr hs1)]
    simp only [lobes, CalculateLobePdfs]
    rw [hcw, mul_one_div, div_le_iff₀ hw0]
    linarith
  simp only [lobes] at hdiff hDS hChalf ⊢
  refine ⟨⟨hD, hDS, by linarith⟩, ⟨hT, by linarith⟩, ⟨hC, hChalf⟩, hdiff, by linarith, ?_, ?_⟩
  · intro h
    linarith
  · intro _
    by_contra hnone
    push_neg at hnone
    obtain ⟨h1, h2, h3⟩ := hnone
    linarith

theorem CalculateLobePdfs_ranges_witness :
    (CalculateLobePdfs coatedSurface).pDiffuse ≤ (CalculateLobePdfs coatedSurface).pSpecular
      ∧ (CalculateLobePdfs coatedSurface).pClearcoat ≤ 1 / 2
      ∧ (CalculateLobePdfs coatedSurface).pSpecular - (CalculateLobePdfs coatedSurface).pDiffuse
          = coatedSurface.metallic / (CalculateLobeWeights coatedSurface).sum := by
  have h := CalculateLobePdfs_ranges coatedSurface (by norm_num [coatedSurface, plainSurface])
    (by norm_num [coatedSurface, plainSurface]) (by norm_num [coatedSurface, plainSurface])
    (by norm_num [coatedSurface, plainSurface])
  exact ⟨h.1.2.1, h.2.2.1.2, h.2.2.2.1⟩

/-- C35. With per-vertex tangent data the rows `t, n, b` of `tangentToWorld` need not be
orthonormal: `CalculateSurfaceParams` takes `t` as the transformed interpolated tangent, without
normalising it or making it orthogonal to `n` (the normal is normalised in line 171, and without
tangent data the pair `(t, b)` comes from `MakeOrthogonalCoordinateSystem`), and
`b = Cross(n, t) · w`. For a unit `n` the rows are orthonormal exactly when `Dot(t, t) = 1`,
`Dot(t, n) = 0` and `w² = 1`, and the tangent `t` itself taken to tangent space by
`worldToTangent` and back by its transpose is `Dot(t, t) · t + Dot(t, n) · n`. -/
theorem CalculateSurfaceParams_tangent_frame (E : Collaborators) (S : SceneCollaborators)
    (hit : HitParameters) (surface : SurfaceParameters)
    (hCross : S.Cross = Textbook.Cross) (hMake : ∀ a b c, S.MakeFloat3x3 a b c = ⟨a, b, c⟩)
    (hTr : E.MatrixTranspose = Textbook.MatrixTranspose)
    (hMul : E.MatrixMultiply = Textbook.MatrixMultiply)
    (hn : Dot (FrameNormal E S hit (S.ModelDataFromRayIds hit.instId hit.geomId).2
        (S.ModelDataFromRayIds hit.instId hit.geomId).1)
      (FrameNormal E S hit (S.ModelDataFromRayIds hit.instId hit.geomId).2
        (S.ModelDataFromRayIds hit.instId hit.geomId).1) = 1) :
    let localToWorld := (S.ModelDataFromRayIds hit.instId hit.geomId).1
    let modelData := (S.ModelDataFromRayIds hit.instId hit.geomId).2
    let n := FrameNormal E S hit modelData localToWorld
    let localTangent :=
      S.rtcInterpolate0 modelData.rtcGeometry hit.primId hit.baryCoords.x hit.baryCoords.y 1
    let t := S.MatrixMultiplyVector localTangent.XYZ localToWorld
    let b := Textbook.Cross n t * localTangent.w
    let W := (CalculateSurfaceParams E S hit surface).2.worldToTangent
    (modelData.flags &&& S.HasTangents = 0 →
        W = Textbook.MatrixTranspose ⟨(S.MakeOrthogonalCoordinateSystem n).1, n,
              (S.MakeOrthogonalCoordinateSystem n).2⟩)
      ∧ (modelData.flags &&& S.HasTangents ≠ 0 →
          W = Textbook.MatrixTranspose ⟨t, n, b⟩
            ∧ ((⟨t, n, b⟩ : float3x3).RowsOrthonormal
                ↔ Dot t t = 1 ∧ Dot t n = 0 ∧ localTangent.w * localTangent.w = 1)
            ∧ E.MatrixMultiply (E.MatrixMultiply t W) (E.MatrixTranspose W)
                = Dot t t * t + Dot t n * n) := by
  intro localToWorld modelData n localTangent t b W
  have hW : W = Textbook.MatrixTranspose
      ⟨(FrameTangents S hit modelData localToWorld n).1, n,
        (FrameTangents S hit modelData localToWorld n).2⟩ := by
    simp only [W, CalculateSurfaceParams_eq_Resolved, CalculateSurfaceParamsResolved, hMake, hTr]
  constructor
  · intro h0
    rw [hW]
    simp only [FrameTangents]
    rw [if_neg (not_not.mpr h0)]
  · intro hT
    have hFrame : FrameTangents S hit modelData localToWorld n = (t, b) := by
      simp only [FrameTangents]
      rw [if_pos hT, hCross]
    have hW' : W = Textbook.MatrixTranspose ⟨t, n, b⟩ := by
      rw [hW, hFrame]
    have hn' : Dot n n = 1 := hn
    refine ⟨hW', ?_, ?_⟩
    · have hbb := Cross_scaled_dot_self n t localTangent.w
      obtain ⟨htb, hnb⟩ := Cross_scaled_orthogonal n t localTangent.w
      simp only [float3x3.RowsOrthonormal]
      constructor
      · rintro ⟨h1, _, h3, h4, _, _⟩
        refine ⟨h1, h4, ?_⟩
        have h3' : Dot b b = 1 := h3
        simp only [b] at h3'
        rw [hbb, hn', h1, h4] at h3'
        linarith
      · rintro ⟨h1, h4, hw⟩
        refine ⟨h1, hn', ?_, h4, htb, hnb⟩
        show Dot b b = 1
        simp only [b]
        rw [hbb, hn', h1, h4, hw]
        norm_num
    · rw [hW', hMul, hTr]
      exact frame_round_trip n t localTangent.w

theorem CalculateSurfaceParams_tangent_frame_witness :
    (CalculateSurfaceParams Textbook.collaborators tangentScene edgeHit
        plainSurface).2.worldToTangent
        = Textbook.MatrixTranspose ⟨⟨1 / 2, 0, 1 / 2⟩, ⟨0, 1, 0⟩, ⟨1 / 2, 0, -1 / 2⟩⟩
      ∧ ¬ (⟨⟨1 / 2, 0, 1 / 2⟩, ⟨0, 1, 0⟩, ⟨1 / 2, 0, -1 / 2⟩⟩ : float3x3).RowsOrthonormal
      ∧ Textbook.collaborators.MatrixMultiply
          (Textbook.collaborators.MatrixMultiply ⟨1 / 2, 0, 1 / 2⟩
            (CalculateSurfaceParams Textbook.collaborators tangentScene edgeHit
              plainSurface).2.worldToTangent)
          (Textbook.collaborators.MatrixTranspose
            (CalculateSurfaceParams Textbook.collaborators tangentScene edgeHit
              plainSurface).2.worldToTangent)
        = ⟨1 / 4, 0, 1 / 4⟩ := by
  have hn : FrameNormal Textbook.collaborators tangentScene edgeHit
      (tangentScene.ModelDataFromRayIds edgeHit.instId edgeHit.geomId).2
      (tangentScene.ModelDataFromRayIds edgeHit.instId edgeHit.geomId).1 = ⟨0, 1, 0⟩ :=
    FrameNormal_edgeHit
  have ht : tangentScene.MatrixMultiplyVector
      (tangentScene.rtcInterpolate0
        (tangentScene.ModelDataFromRayIds edgeHit.instId edgeHit.geomId).2.rtcGeometry
        edgeHit.primId edgeHit.baryCoords.x edgeHit.baryCoords.y 1).XYZ
      (tangentScene.ModelDataFromRayIds edgeHit.instId edgeHit.geomId).1
      = ⟨1 / 2, 0, 1 / 2⟩ := by
    simp only [tangentScene, Textbook.scene, edgeHit, backHit, Textbook.MatrixMultiplyVector,
      identity4x4, float4.XYZ]
    norm_num
  have hw : (tangentScene.rtcInterpolate0
      (tangentScene.ModelDataFromRayIds edgeHit.instId edgeHit.geomId).2.rtcGeometry
      edgeHit.primId edgeHit.baryCoords.x edgeHit.baryCoords.y 1).w = 1 := by
    simp [tangentScene]
  have hb : Textbook.Cross (⟨0, 1, 0⟩ : float3) ⟨1 / 2, 0, 1 / 2⟩ * (1 : ℚ)
      = ⟨1 / 2, 0, -1 / 2⟩ := by
    norm_num [Textbook.Cross, float3.mul_scalar_def]
  have h := (CalculateSurfaceParams_tangent_frame Textbook.collaborators tangentScene edgeHit
    plainSurface rfl (fun _ _ _ => rfl) rfl rfl (by rw [hn]; norm_num [Dot])).2 (by decide)
  simp only [hn, ht, hw, hb] at h
  refine ⟨h.1, ?_, ?_⟩
  · rw [h.2.1]
    norm_num [Dot]
  · rw [h.2.2]
    norm_num [Dot, float3.smul_def, float3.add_def]

/-- C36. For the same raw sampled colour `c` the two paths of `CalculateSurfaceParams` store
different expressions: the Ptex path stores `Pow(c, 2.2)`, without the sRGB-to-linear conversion,
and the texture path (a three-channel texture) stores `Pow(SrgbToLinearPrecise(c), 2.2)`, so the
two agree only where `Pow(SrgbToLinearPrecise(c), 2.2) = Pow(c, 2.2)`. With no texture bound the
stored colour is `Pow(material base colour, 2.2)`. -/
theorem CalculateSurfaceParams_baseColor_paths (E : Collaborators) (S : SceneCollaborators)
    (hit : HitParameters) (ptexData textureData : ModelGeometryUserData)
    (localToWorld : float4x4) (filter : PtexFilter) (surface : SurfaceParameters)
    (texture : TextureResource) (c : float3)
    (hPtex : ptexData.material.flags &&& S.eUsesPtex ≠ 0)
    (hFilter : filter.eval hit.primId hit.baryCoords.x hit.baryCoords.y = c)
    (hNoPtex : textureData.material.flags &&& S.eUsesPtex = 0) :
    let ptex := (CalculateSurfaceParamsResolved E S hit ptexData localToWorld filter
      surface).2.baseColor
    let textured := (CalculateSurfaceParamsResolved E S hit textureData localToWorld filter
      surface).2.baseColor
    ptex = S.Pow c 2.2
      ∧ (S.FetchTexture textureData.baseColorTextureHandle = some texture →
          texture.data.format = TextureFormat.Float3 →
          S.TriangleFloat3 texture.data (HitUvs S hit textureData) = c →
          textured = S.Pow (S.SrgbToLinearPreciseFloat3 c) 2.2
            ∧ (textured = ptex ↔ S.Pow (S.SrgbToLinearPreciseFloat3 c) 2.2 = S.Pow c 2.2))
      ∧ (S.FetchTexture textureData.baseColorTextureHandle = none →
          textured = S.Pow textureData.material.baseColor 2.2) := by
  intro ptex textured
  have hp : ptex = S.Pow c 2.2 := by
    simp only [ptex]
    rw [CalculateSurfaceParamsResolved_baseColor, if_pos hPtex, hFilter]
  have ht : textured
      = S.Pow (SampleTextureFloat3 S (S.FetchTexture textureData.baseColorTextureHandle)
          (HitUvs S hit textureData) true textureData.material.baseColor) 2.2 := by
    simp only [textured]
    rw [CalculateSurfaceParamsResolved_baseColor, if_neg (not_not.mpr hNoPtex)]
  refine ⟨hp, ?_, ?_⟩
  · intro hTex hFormat hSample
    have hs : textured = S.Pow (S.SrgbToLinearPreciseFloat3 c) 2.2 := by
      rw [ht, hTex, SampleTextureFloat3_Float3 S texture _ _ hFormat, hSample]
    refine ⟨hs, ?_⟩
    rw [hs, hp]
  · intro hNone
    rw [ht, hNone]
    rfl

theorem CalculateSurfaceParams_baseColor_paths_witness :
    (CalculateSurfaceParamsResolved Textbook.collaborators texturedScene backHit ptexModel
        identity4x4 greyFilter plainSurface).2.baseColor = ⟨1 / 10000, 1 / 10000, 1 / 10000⟩
      ∧ (CalculateSurfaceParamsResolved Textbook.collaborators texturedScene backHit glassModel
          identity4x4 greyFilter plainSurface).2.baseColor
        = ⟨1 / 1669264, 1 / 1669264, 1 / 1669264⟩ := by
  have h := CalculateSurfaceParams_baseColor_paths Textbook.collaborators texturedScene backHit
    ptexModel glassModel identity4x4 greyFilter plainSurface greyTexture darkGrey (by decide) rfl
    (by decide)
  have hfloor : ⌊(2.2 : ℚ)⌋ = 2 := by
    rw [Int.floor_eq_iff]
    norm_num
  constructor
  · rw [h.1]
    show Textbook.Pow darkGrey 2.2 = _
    simp only [Textbook.Pow, Textbook.Powf, darkGrey, hfloor]
    norm_num
  · rw [(h.2.1 rfl rfl rfl).1]
    show Textbook.Pow (Textbook.SrgbToLinearPrecise3 darkGrey) 2.2 = _
    simp only [Textbook.Pow, Textbook.Powf, Textbook.SrgbToLinearPrecise3,
      Textbook.SrgbToLinearPrecise, darkGrey, hfloor]
    norm_num

/-- C37. For every `baseRadius ≥ 0`, every `iterationIndex ≥ 1` and all `radiusAlpha` values
`0 < a1 ≤ a2 < 1`, `SearchRadius(baseRadius, a1, iterationIndex)
≤ SearchRadius(baseRadius, a2, iterationIndex)`, and at `iterationIndex = 1` the radius is
`baseRadius` for every alpha. `Math::Powf` is positive on a positive base, does not decrease with
the exponent on a base `≥ 1`, and is `1` on the base `1`. -/
theorem SearchRadius_alpha_monotone (E : Collaborators) (baseRadius a1 a2 iterationIndex : ℚ)
    (hPos : ∀ x e, 0 < x → 0 < E.Powf x e)
    (hExp : ∀ x e1 e2, 1 ≤ x → e1 ≤ e2 → E.Powf x e1 ≤ E.Powf x e2)
    (hOne : ∀ e, E.Powf 1 e = 1)
    (hb : 0 ≤ baseRadius) (hi : 1 ≤ iterationIndex)
    (h0 : 0 < a1) (h12 : a1 ≤ a2) (h1 : a2 < 1) :
    SearchRadius E baseRadius a1 iterationIndex ≤ SearchRadius E baseRadius a2 iterationIndex
      ∧ ∀ a, SearchRadius E baseRadius a 1 = baseRadius := by
  constructor
  · have he : (0.5 : ℚ) * (1 - a2) ≤ 0.5 * (1 - a1) := by
      norm_num
      linarith
    have hp := hPos iterationIndex (0.5 * (1 - a2)) (by linarith)
    have hle := hExp iterationIndex _ _ hi he
    simp only [SearchRadius]
    exact div_le_div_of_nonneg_left hb hp hle
  · intro a
    simp only [SearchRadius, hOne, div_one]

theorem SearchRadius_alpha_monotone_witness :
    SearchRadius linearCollaborators 1 (1 / 2) 5 ≤ SearchRadius linearCollaborators 1 (3 / 4) 5
      ∧ SearchRadius linearCollaborators 1 (1 / 2) 1 = 1 :=
  ⟨(SearchRadius_alpha_monotone linearCollaborators 1 (1 / 2) (3 / 4) 5 Textbook.PowfLinear_pos
      Textbook.PowfLinear_exp_mono Textbook.PowfLinear_one (by norm_num) (by norm_num)
      (by norm_num) (by norm_num) (by norm_num)).1,
    (SearchRadius_alpha_monotone linearCollaborators 1 (1 / 2) (3 / 4) 5 Textbook.PowfLinear_pos
      Textbook.PowfLinear_exp_mono Textbook.PowfLinear_one (by norm_num) (by norm_num)
      (by norm_num) (by norm_num) (by norm_num)).2 (1 / 2)⟩

/-- C38. `ThinTransmissionRoughness(ior, roughness)` is `(0.65·ior − 0.35)·roughness` clamped to
`[0,1]`; for every `roughness` in `[0,1]` the result lies in `[0,1]`; for every `ior ≤ 27/13` it
is `≤ roughness`, and for every `ior > 27/13` and `roughness` in `(0,1)` with
`(0.65·ior − 0.35)·roughness ≤ 1` it is `> roughness`. -/
theorem ThinTransmissionRoughness_spec (ior roughness : ℚ)
    (hr0 : 0 ≤ roughness) (hr1 : roughness ≤ 1) :
    ThinTransmissionRoughness ior roughness = max 0 (min ((0.65 * ior - 0.35) * roughness) 1)
      ∧ 0 ≤ ThinTransmissionRoughness ior roughness
      ∧ ThinTransmissionRoughness ior roughness ≤ 1
      ∧ (ior ≤ 27 / 13 → ThinTransmissionRoughness ior roughness ≤ roughness)
      ∧ (27 / 13 < ior → 0 < roughness → roughness < 1 →
          (0.65 * ior - 0.35) * roughness ≤ 1 →
          roughness < ThinTransmissionRoughness ior roughness) := by
  refine ⟨Saturate_eq_clamp _, Saturate_nonneg _, Saturate_le_one _, ?_, ?_⟩
  · intro hi
    have hk : 0.65 * ior - 0.35 ≤ 1 := by
      norm_num
      linarith
    have hx : (0.65 * ior - 0.35) * roughness ≤ roughness := by nlinarith
    simp only [ThinTransmissionRoughness, Saturate]
    split_ifs with h1 h2
    · exact hr0
    · linarith
    · exact hx
  · intro hi h0 h1 hx
    have hk : 1 < 0.65 * ior - 0.35 := by
      norm_num
      linarith
    have hgt : roughness < (0.65 * ior - 0.35) * roughness := by nlinarith
    simp only [ThinTransmissionRoughness, Saturate]
    rw [if_neg (by linarith), if_neg (by linarith)]
    exact hgt

theorem ThinTransmissionRoughness_spec_witness :
    ThinTransmissionRoughness (3 / 2) (1 / 2) ≤ 1 / 2
      ∧ (1 / 2 : ℚ) < ThinTransmissionRoughness 3 (1 / 2) :=
  ⟨(ThinTransmissionRoughness_spec (3 / 2) (1 / 2) (by norm_num) (by norm_num)).2.2.2.1
      (by norm_num),
    (ThinTransmissionRoughness_spec 3 (1 / 2) (by norm_num) (by norm_num)).2.2.2.2
      (by norm_num) (by norm_num) (by norm_num) (by norm_num)⟩

/-- C39. For every `roughness` and every `anisotropic` in `[0,1]`, `CalculateAnisotropicParams`
returns `ax = max(0.001, roughness²/aspect)` and `ay = max(0.001, roughness²·aspect)` with
`aspect = sqrt(1 − 0.9·anisotropic) > 0`; hence `ax ≥ 0.001`, `ay ≥ 0.001`, `ax ≥ ay`, and
`ax = ay = max(0.001, roughness²)` when `anisotropic = 0`. `Math::Sqrtf` maps `(0,1]` into
`(0,1]` and `1` to `1`. -/
theorem CalculateAnisotropicParams_spec (E : Collaborators) (roughness anisotropic : ℚ)
    (hSqrtf : ∀ x, 0 < x → x ≤ 1 → 0 < E.Sqrtf x ∧ E.Sqrtf x ≤ 1) (hOne : E.Sqrtf 1 = 1)
    (ha0 : 0 ≤ anisotropic) (ha1 : anisotropic ≤ 1) :
    let aspect := E.Sqrtf (1 - 0.9 * anisotropic)
    let ax := (CalculateAnisotropicParams E roughness anisotropic).1
    let ay := (CalculateAnisotropicParams E roughness anisotropic).2
    0 < aspect
      ∧ ax = max 0.001 (roughness ^ 2 / aspect)
      ∧ ay = max 0.001 (roughness ^ 2 * aspect)
      ∧ 0.001 ≤ ax ∧ 0.001 ≤ ay ∧ ay ≤ ax
      ∧ (anisotropic = 0 → ax = max 0.001 (roughness ^ 2) ∧ ay = max 0.001 (roughness ^ 2)) := by
  intro aspect ax ay
  have hrange := hSqrtf (1 - 0.9 * anisotropic) (by norm_num; linarith) (by norm_num; linarith)
  have hpos : 0 < aspect := hrange.1
  have hle : aspect ≤ 1 := hrange.2
  have hax : ax = max 0.001 (roughness ^ 2 / aspect) := by
    simp only [ax, CalculateAnisotropicParams, Max_eq_max, Square, pow_two, aspect]
  have hay : ay = max 0.001 (roughness ^ 2 * aspect) := by
    simp only [ay, CalculateAnisotropicParams, Max_eq_max, Square, pow_two, aspect]
  have hr : 0 ≤ roughness ^ 2 := sq_nonneg roughness
  have horder : roughness ^ 2 * aspect ≤ roughness ^ 2 / aspect := by
    rw [le_div_iff₀ hpos]
    have : aspect * aspect ≤ 1 := by nlinarith
    nlinarith [mul_le_mul_of_nonneg_left this hr]
  refine ⟨hpos, hax, hay, ?_, ?_, ?_, ?_⟩
  · rw [hax]
    exact le_max_left _ _
  · rw [hay]
    exact le_max_left _ _
  · rw [hax, hay]
    exact max_le_max (le_refl _) horder
  · intro hz
    have h1 : aspect = 1 := by
      simp only [aspect, hz, mul_zero, sub_zero, hOne]
    rw [hax, hay, h1, div_one, mul_one]
    exact ⟨rfl, rfl⟩

theorem CalculateAnisotropicParams_spec_witness :
    (CalculateAnisotropicParams Textbook.collaborators (1 / 2) (5 / 6)).2
      ≤ (CalculateAnisotropicParams Textbook.collaborators (1 / 2) (5 / 6)).1 :=
  (CalculateAnisotropicParams_spec Textbook.collaborators (1 / 2) (5 / 6)
    Textbook.Sqrtf_unit_interval Textbook.Sqrtf_one (by norm_num) (by norm_num)).2.2.2.2.2.1

/-- C40. For every apparent-colour channel `a` the term `s = 1.9 − a + 3.5·(a − 0.8)²` that
`CalculateExtinction` computes is `> 1`, and for every `scatterDistance > 0` each channel of the
extinction is `1/(s·scatterDistance)`, is `> 0` and is `< 1/scatterDistance`. -/
theorem CalculateExtinction_bounds (apparantColor : float3) (scatterDistance : ℚ)
    (hd : 0 < scatterDistance) :
    let s := fun (a : ℚ) => 1.9 - a + 3.5 * (a - 0.8) * (a - 0.8)
    let e := CalculateExtinction apparantColor scatterDistance
    (∀ a, 1 < s a)
      ∧ e = ⟨1 / (s apparantColor.x * scatterDistance), 1 / (s apparantColor.y * scatterDistance),
              1 / (s apparantColor.z * scatterDistance)⟩
      ∧ (0 < e.x ∧ e.x < 1 / scatterDistance)
      ∧ (0 < e.y ∧ e.y < 1 / scatterDistance)
      ∧ (0 < e.z ∧ e.z < 1 / scatterDistance) := by
  intro s e
  have he : e = ⟨1 / (s apparantColor.x * scatterDistance),
      1 / (s apparantColor.y * scatterDistance), 1 / (s apparantColor.z * scatterDistance)⟩ := rfl
  refine ⟨extinction_term_gt_one, he, ?_, ?_, ?_⟩
  · rw [he]
    exact one_div_lt_one_div_of_gt_one _ _ (extinction_term_gt_one _) hd
  · rw [he]
    exact one_div_lt_one_div_of_gt_one _ _ (extinction_term_gt_one _) hd
  · rw [he]
    exact one_div_lt_one_div_of_gt_one _ _ (extinction_term_gt_one _) hd

theorem CalculateExtinction_bounds_witness :
    CalculateExtinction ⟨4 / 5, 1, 0⟩ 2 = ⟨5 / 11, 25 / 52, 25 / 207⟩
      ∧ (CalculateExtinction ⟨4 / 5, 1, 0⟩ 2).x < 1 / 2 := by
  have h := CalculateExtinction_bounds ⟨4 / 5, 1, 0⟩ 2 (by norm_num)
  refine ⟨?_, h.2.2.1.2⟩
  rw [h.2.1]
  norm_num

end Selas
